import Mathlib

/-!
# Splines logic: slab meshes and markup/model synchronisation

A shallow embedding of `Modules/Loadable/Splines/Logic/vtkSlicerSplinesLogic.cxx`.

* Coordinates are rationals (exact arithmetic stands for `double`).
* The scene (document store), the markups collection and the VTK filters are
  collaborators of the logic class; they are modelled by small executable
  definitions that follow their interface as the specification describes it.
* A null pointer is `none`; calling a method through a null pointer is the
  fault `Fault.NullPointerDereference`.
* Identifier assignment belongs to the scene and is left open: every operation
  that creates a node takes the generator `newID` as a parameter.
-/

namespace Splines

/-! ## Data model -/

/-- A 3D point or direction (`vtkVector3d`, `double[3]`). -/
structure vtkVector3d where
  X : ℚ
  Y : ℚ
  Z : ℚ
deriving DecidableEq

/-- A mesh: an optional point array (`GetPoints()` may be null) and its
polygon cells, each cell a list of point ids. -/
structure vtkPolyData where
  Points : Option (List vtkVector3d)
  Polys : List (List Nat)
deriving DecidableEq

/-- One markup of a collection: its world points and the identifier of the
associated node (the empty string when there is none). -/
structure Markup where
  Points : List vtkVector3d
  AssociatedNodeID : String
deriving DecidableEq

/-- The Splines markups collection node. -/
structure vtkMRMLMarkupsSplinesNode where
  ID : String
  Name : String
  Markups : List Markup
deriving DecidableEq

/-- A node held by the scene: identifier, class name, display name and, for
model nodes, the mesh it carries. -/
structure SceneNode where
  ID : String
  ClassName : String
  Name : String
  PolyData : Option vtkPolyData
deriving DecidableEq

/-- What a `vtkMRMLNode*` handed to an event handler can point to. -/
inductive vtkMRMLNode where
  | Splines (n : vtkMRMLMarkupsSplinesNode)
  | Plain (n : SceneNode)
deriving DecidableEq

/-- The scene: the nodes it currently holds, oldest first. -/
structure vtkMRMLScene where
  Nodes : List SceneNode
deriving DecidableEq

/-- A mutating call issued to a collaborator (recorded for counting). -/
inductive Call where
  | AddNewNodeByClass (className nodeName id : String)
  | RemoveNode (id : String)
  | SetNthMarkupAssociatedNodeID (n : Nat) (id : String)
  | StartState (state : String)
  | EndState (state : String)
  | AddNode (className id : String)
deriving DecidableEq

/-- The only run-time fault the embedded code can raise. -/
inductive Fault where
  | NullPointerDereference
deriving DecidableEq

/-- The logic object: its scene pointer, the nodes whose `ModifiedEvent` is
routed to it by the event broker, and the record of mutating calls issued so
far (oldest first). -/
structure vtkSlicerSplinesLogic where
  MRMLScene : Option vtkMRMLScene
  Observations : List String
  Trace : List Call
deriving DecidableEq

/-! ## Collaborators: the markups collection -/

/-- Modelled from the spec: the collection's "count of markups"
(`vtkMRMLMarkupsNode::GetNumberOfMarkups`, declared outside this file). -/
def vtkMRMLMarkupsSplinesNode.GetNumberOfMarkups (self : vtkMRMLMarkupsSplinesNode) : Nat :=
  self.Markups.length

/-- Modelled from the spec: "point count of markup i"
(`GetNumberOfPointsInNthMarkup`); 0 when the markup does not exist. -/
def vtkMRMLMarkupsSplinesNode.GetNumberOfPointsInNthMarkup
    (self : vtkMRMLMarkupsSplinesNode) (n : Nat) : Nat :=
  match self.Markups[n]? with
  | some m => m.Points.length
  | none => 0

/-- Modelled from the spec: get the "associated entity identifier" of markup i
(`GetNthMarkupAssociatedNodeID`); the empty string when the markup does not
exist. -/
def vtkMRMLMarkupsSplinesNode.GetNthMarkupAssociatedNodeID
    (self : vtkMRMLMarkupsSplinesNode) (n : Nat) : String :=
  match self.Markups[n]? with
  | some m => m.AssociatedNodeID
  | none => ""

/-- Modelled from the spec: set the "associated entity identifier" of markup i
(`SetNthMarkupAssociatedNodeID`); nothing happens when the markup does not
exist. -/
def vtkMRMLMarkupsSplinesNode.SetNthMarkupAssociatedNodeID
    (self : vtkMRMLMarkupsSplinesNode) (n : Nat) (id : String) : vtkMRMLMarkupsSplinesNode :=
  match self.Markups[n]? with
  | some m => { self with Markups := self.Markups.set n { m with AssociatedNodeID := id } }
  | none => self

/-! ## Collaborators: the scene -/

/-- Modelled from the spec: "look up entity by identifier"
(`vtkMRMLScene::GetNodeByID`): the first node carrying the identifier. -/
def vtkMRMLScene.GetNodeByID (self : vtkMRMLScene) (id : String) : Option SceneNode :=
  self.Nodes.find? (fun n => n.ID == id)

/-- Modelled from the spec: "create/register entity"
(`vtkMRMLScene::AddNewNodeByClass`): a node of the given class and name, with
the identifier the scene assigns and no mesh, is appended to the scene. The
result is the new scene and the node. -/
def vtkMRMLScene.AddNewNodeByClass (newID : vtkMRMLScene → String) (self : vtkMRMLScene)
    (className nodeName : String) : vtkMRMLScene × SceneNode :=
  let node : SceneNode :=
    { ID := newID self, ClassName := className, Name := nodeName, PolyData := none }
  ({ Nodes := self.Nodes ++ [node] }, node)

/-- Modelled from the spec: "remove entity" (`vtkMRMLScene::RemoveNode`): the
node is dropped from the scene; nodes are told apart by identifier. -/
def vtkMRMLScene.RemoveNode (self : vtkMRMLScene) (node : SceneNode) : vtkMRMLScene :=
  { Nodes := self.Nodes.filter (fun n => n.ID != node.ID) }

/-- The downcast `vtkMRMLModelNode::SafeDownCast`: the node itself when it is a
model node, null otherwise (and null for null). -/
def vtkMRMLModelNode.SafeDownCast (node : Option SceneNode) : Option SceneNode :=
  match node with
  | some n => if n.ClassName = "vtkMRMLModelNode" then some n else none
  | none => none

/-- The downcast `vtkMRMLMarkupsSplinesNode::SafeDownCast`. -/
def vtkMRMLMarkupsSplinesNode.SafeDownCast (node : Option vtkMRMLNode) :
    Option vtkMRMLMarkupsSplinesNode :=
  match node with
  | some (vtkMRMLNode.Splines n) => some n
  | _ => none

/-! ## The slab mesh builder -/

/-- The number of points of a mesh (`vtkPolyData::GetNumberOfPoints`): 0 when
the point array is null. -/
def vtkPolyData.GetNumberOfPoints (self : vtkPolyData) : Nat :=
  match self.Points with
  | some ps => ps.length
  | none => 0

/-- Point `i` of a mesh (`vtkPolyData::GetPoint`); the origin stands for a read
outside the array. -/
def vtkPolyData.GetPoint (self : vtkPolyData) (i : Nat) : vtkVector3d :=
  match self.Points with
  | some ps => ps.getD i ⟨0, 0, 0⟩
  | none => ⟨0, 0, 0⟩

/-- A point moved by the vector `t` (`vtkTransform::Translate` applied to a
point). -/
def vtkTransform.TransformPoint (t p : vtkVector3d) : vtkVector3d :=
  ⟨p.X + t.X, p.Y + t.Y, p.Z + t.Z⟩

/-- Modelled from the spec: "translate the capped mesh" by the vector `t`
(`vtkTransformPolyDataFilter` with a `vtkTransform::Translate`): every point is
moved by `t` and the cells are kept; an input without points gives an empty
output. -/
def vtkTransformPolyDataFilter.Translate (t : vtkVector3d) (input : vtkPolyData) : vtkPolyData :=
  match input.Points with
  | some ps => { Points := some (ps.map (vtkTransform.TransformPoint t)), Polys := input.Polys }
  | none => { Points := none, Polys := [] }

/-- Modelled from the spec: "Concatenate" meshes "into one mesh"
(`vtkAppendPolyData`): the point arrays are concatenated in input order and the
point ids of each input's cells are shifted by the number of points before
it. -/
def vtkAppendPolyData (inputs : List vtkPolyData) : vtkPolyData :=
  inputs.foldl
    (fun acc input =>
      { Points := some (acc.Points.getD [] ++ input.Points.getD [])
        Polys := acc.Polys ++ input.Polys.map (fun cell => cell.map (fun id => id + acc.GetNumberOfPoints)) })
    { Points := some [], Polys := [] }

/-- The points inserted by the first `k` iterations of the interleaving loop
(source lines 188 to 192): for each `i`, point `i` of the top half and then
point `i` of the bottom half. -/
def CreateModelFromContour.pointsLoop (topHalf bottomHalf : vtkPolyData) : Nat → List vtkVector3d
  | 0 => []
  | k + 1 => CreateModelFromContour.pointsLoop topHalf bottomHalf k
      ++ [topHalf.GetPoint k, bottomHalf.GetPoint k]

/-- The belt triangles inserted by the loop of source lines 195 to 208, run
from index `i` with at most `fuel` iterations. The loop condition is evaluated
on signed integers, as `vtkIdType` is signed. -/
def CreateModelFromContour.cellsLoop (numberOfPoints : Nat) : Nat → Nat → List (List Nat)
  | 0, _ => []
  | fuel + 1, i =>
    if (i : Int) < (numberOfPoints : Int) - 2 then
      [i, i + 1, i + 2] :: [i + 1, i + 3, i + 2]
        :: CreateModelFromContour.cellsLoop numberOfPoints fuel (i + 2)
    else []

/-- The belt surface (source lines 185 to 212): the interleaved points and the
belt triangles over them. As `i` grows by 2 from 0, as many iterations as there
are points are more than the loop can run. -/
def CreateModelFromContour.beltSurface (topHalf bottomHalf : vtkPolyData) : vtkPolyData :=
  let points := CreateModelFromContour.pointsLoop topHalf bottomHalf topHalf.GetNumberOfPoints
  { Points := some points
    Polys := CreateModelFromContour.cellsLoop points.length points.length 0 }

/-- The translation of the top half (source lines 165 to 168). -/
def CreateModelFromContour.topOffset (normal : vtkVector3d) (thickness : ℚ) : vtkVector3d :=
  ⟨thickness * 0.5 * normal.X, thickness * 0.5 * normal.Y, thickness * 0.5 * normal.Z⟩

/-- The translation of the bottom half (source lines 170 to 173). -/
def CreateModelFromContour.bottomOffset (normal : vtkVector3d) (thickness : ℚ) : vtkVector3d :=
  ⟨-thickness * 0.5 * normal.X, -thickness * 0.5 * normal.Y, -thickness * 0.5 * normal.Z⟩

/-- The mesh handed to the cleaning filter (source lines 161 to 217): bottom
half, belt and top half of the cap that `contourTriangulator` makes of the
contour, appended in that order. -/
def CreateModelFromContour.appended (contourTriangulator : vtkPolyData → vtkPolyData)
    (inputContour : vtkPolyData) (normal : vtkVector3d) (thickness : ℚ) : vtkPolyData :=
  let cap := contourTriangulator inputContour
  let topHalf := vtkTransformPolyDataFilter.Translate
    (CreateModelFromContour.topOffset normal thickness) cap
  let bottomHalf := vtkTransformPolyDataFilter.Translate
    (CreateModelFromContour.bottomOffset normal thickness) cap
  vtkAppendPolyData
    [bottomHalf, CreateModelFromContour.beltSurface topHalf bottomHalf, topHalf]

/-- The function `vtkSlicerSplinesLogic::CreateModelFromContour` (the slab mesh
builder). The VTK filters `vtkContourTriangulator` and `vtkCleanPolyData` are
parameters. `none` is the null result. -/
def vtkSlicerSplinesLogic.CreateModelFromContour
    (contourTriangulator cleanFilter : vtkPolyData → vtkPolyData)
    (inputContour : Option vtkPolyData) (normal : vtkVector3d) (thickness : ℚ) :
    Option vtkPolyData :=
  match inputContour with
  | none => none
  | some contour =>
    match contour.Points with
    | none => none
    | some points =>
      if points.length < 3 then none
      else some (cleanFilter
        (CreateModelFromContour.appended contourTriangulator contour normal thickness))

/-- Modelled from the spec: "Triangulate the input contour as a planar polygon
to obtain a capping mesh", for a convex contour: the points are kept in contour
order and the polygon is cut into the fan of triangles around point 0. It
stands for `vtkContourTriangulator` in concrete evaluations. -/
def fanTriangulator (input : vtkPolyData) : vtkPolyData :=
  { Points := input.Points
    Polys := (List.range (input.GetNumberOfPoints - 2)).map (fun k => [0, k + 1, k + 2]) }

/-- The distinct points of a list, in order of first occurrence. -/
def distinctPoints (points : List vtkVector3d) : List vtkVector3d :=
  points.foldl (fun acc p => if p ∈ acc then acc else acc ++ [p]) []

/-- Modelled from the spec: "Merge coincident points within tolerance and drop
resulting degenerate cells (cleaning pass)", with the filter's default
tolerance of zero: equal points are merged into their first occurrence, cells
are renumbered, and cells in which a point occurs twice are dropped. It stands
for `vtkCleanPolyData` in concrete evaluations. -/
def mergeCoincidentPoints (input : vtkPolyData) : vtkPolyData :=
  let points := input.Points.getD []
  let merged := distinctPoints points
  { Points := some merged
    Polys := (input.Polys.map
        (fun cell => cell.map (fun id => merged.indexOf (points.getD id ⟨0, 0, 0⟩)))).filter
      (fun cell => decide cell.Nodup) }

/-- The edges of a polygon cell: consecutive vertices, the last one joined to
the first. -/
def cellEdges {α : Type} (cell : List α) : List (α × α) :=
  cell.zip (cell.rotate 1)

/-- The number of cells that have the edge between `a` and `b`, in either
direction. -/
def edgeUse {α : Type} [DecidableEq α] (cells : List (List α)) (a b : α) : Nat :=
  (cells.filter
    (fun cell => decide ((a, b) ∈ cellEdges cell ∨ (b, a) ∈ cellEdges cell))).length

/-- Every edge of every cell is shared by exactly two cells. -/
def ClosedCells {α : Type} [DecidableEq α] (cells : List (List α)) : Prop :=
  ∀ cell ∈ cells, ∀ e ∈ cellEdges cell, edgeUse cells e.1 e.2 = 2

instance {α : Type} [DecidableEq α] (cells : List (List α)) : Decidable (ClosedCells cells) :=
  inferInstanceAs (Decidable (∀ cell ∈ cells, ∀ e ∈ cellEdges cell, edgeUse cells e.1 e.2 = 2))

/-- The number of cells of the mesh that have the edge between the points `a`
and `b`. -/
def vtkPolyData.edgeUse (self : vtkPolyData) (a b : Nat) : Nat :=
  Splines.edgeUse self.Polys a b

/-- The mesh is closed: every edge of every cell is shared by exactly two
cells. -/
def vtkPolyData.IsClosed (self : vtkPolyData) : Prop :=
  ClosedCells self.Polys

instance (m : vtkPolyData) : Decidable m.IsClosed :=
  inferInstanceAs (Decidable (ClosedCells m.Polys))

/-- The index that follows `k` around a loop of `m` points. -/
def nextAround (m k : Nat) : Nat := if k + 1 = m then 0 else k + 1

/-- The index of a cap point once the repeated last point (index `m`) of a
contour of `m + 1` points is identified with the first. -/
def foldLast (m a : Nat) : Nat := if a = m then 0 else a

/-- The two belt triangles over boundary segment `k` of a loop of `m` points,
with vertices labelled (top?, boundary index). -/
def beltQuad (m k : Nat) : List (List (Bool × Nat)) :=
  [[(true, k), (false, k), (true, nextAround m k)],
   [(false, k), (false, nextAround m k), (true, nextAround m k)]]

/-- The belt triangles over all `m` boundary segments of a loop. -/
def beltLabels (m : Nat) : List (List (Bool × Nat)) :=
  (List.range m).flatMap (beltQuad m)

/-- The cells of a slab over a loop of `m` points with cap cells `cap`: bottom
cap, belt, top cap, with vertices labelled (top?, boundary index). -/
def slabLabels (m : Nat) (cap : List (List Nat)) : List (List (Bool × Nat)) :=
  cap.map (List.map (Prod.mk false)) ++ beltLabels m ++ cap.map (List.map (Prod.mk true))

/-- The cells `cap` triangulate the disk bounded by the loop `0, 1, ..., m - 1`:
they use points of the loop only, every boundary segment (`k` to the next
index around the loop) lies on exactly one cell, and every other edge of a cell
lies on exactly two cells. -/
structure CapOfLoop (m : Nat) (cap : List (List Nat)) : Prop where
  valid : ∀ cell ∈ cap, ∀ x ∈ cell, x < m
  boundary : ∀ k, k < m → edgeUse cap k (nextAround m k) = 1
  interior : ∀ cell ∈ cap, ∀ e ∈ cellEdges cell,
    e.2 ≠ nextAround m e.1 → e.1 ≠ nextAround m e.2 → edgeUse cap e.1 e.2 = 2

/-- The point of the slab that carries a label: the top or bottom copy of the
cap point with that index. -/
def slabPoint (P : List vtkVector3d) (normal : vtkVector3d) (thickness : ℚ)
    (label : Bool × Nat) : vtkVector3d :=
  vtkTransform.TransformPoint
    (if label.1 then CreateModelFromContour.topOffset normal thickness
      else CreateModelFromContour.bottomOffset normal thickness)
    (P.getD label.2 ⟨0, 0, 0⟩)

/-- The contour of a markup: its points in order, closed into one polygon. -/
def contourOf (points : List vtkVector3d) : vtkPolyData :=
  { Points := some points, Polys := [List.range points.length] }

/-! ## The synchronisation controller -/

/-- The part of the program state one pass of the controller works on, with a
live scene: the scene, the collection and the record of calls. -/
structure World where
  Scene : vtkMRMLScene
  SplinesNode : vtkMRMLMarkupsSplinesNode
  Trace : List Call
deriving DecidableEq

/-- The body of the loop of `UpdateSlabModelNode` (source lines 336 to 362)
for index `i`, with a non-null scene. The two guarded branches are the cases
3 and 4 of the source comment; in the first one the downcast of the node just
created as a `vtkMRMLModelNode` cannot fail. -/
def UpdateSlabModelNode.body (newID : vtkMRMLScene → String) (i : Nat) (w : World) : World :=
  let modelID := w.SplinesNode.GetNthMarkupAssociatedNodeID i
  let modelNode := vtkMRMLModelNode.SafeDownCast (w.Scene.GetNodeByID modelID)
  let shouldHaveModel := decide (w.SplinesNode.GetNumberOfPointsInNthMarkup i > 2)
  match shouldHaveModel, modelNode with
  | true, none =>
    let modelName := w.SplinesNode.Name ++ "_Model_" ++ toString i
    let added := w.Scene.AddNewNodeByClass newID "vtkMRMLModelNode" modelName
    { Scene := added.1
      SplinesNode := w.SplinesNode.SetNthMarkupAssociatedNodeID i added.2.ID
      Trace := w.Trace ++ [Call.AddNewNodeByClass "vtkMRMLModelNode" modelName added.2.ID,
                           Call.SetNthMarkupAssociatedNodeID i added.2.ID] }
  | false, some m =>
    { Scene := w.Scene.RemoveNode m
      SplinesNode := w.SplinesNode.SetNthMarkupAssociatedNodeID i ""
      Trace := w.Trace ++ [Call.RemoveNode m.ID, Call.SetNthMarkupAssociatedNodeID i ""] }
  | _, _ => w

/-- The state after the iterations for the indices `0, 1, ..., k - 1` of the
loop of `UpdateSlabModelNode`, in that order. -/
def UpdateSlabModelNode.loop (newID : vtkMRMLScene → String) : Nat → World → World
  | 0, w => w
  | k + 1, w => UpdateSlabModelNode.body newID k (UpdateSlabModelNode.loop newID k w)

/-- The method `vtkSlicerSplinesLogic::UpdateSlabModelNode` (Reconcile). The
result is the logic object and the collection after the call. With a null
collection it returns at once; otherwise the loop runs over every markup
index, and its first iteration already calls `GetNodeByID` through the scene
pointer. -/
def vtkSlicerSplinesLogic.UpdateSlabModelNode (newID : vtkMRMLScene → String)
    (self : vtkSlicerSplinesLogic) (splinesNode : Option vtkMRMLMarkupsSplinesNode) :
    Except Fault (vtkSlicerSplinesLogic × Option vtkMRMLMarkupsSplinesNode) :=
  match splinesNode with
  | none => .ok (self, none)
  | some node =>
    if node.GetNumberOfMarkups = 0 then .ok (self, some node)
    else
      match self.MRMLScene with
      | none => .error Fault.NullPointerDereference
      | some scene =>
        let w := UpdateSlabModelNode.loop newID node.GetNumberOfMarkups
          { Scene := scene, SplinesNode := node, Trace := self.Trace }
        .ok ({ self with MRMLScene := some w.Scene, Trace := w.Trace }, some w.SplinesNode)

/-- The handler `vtkSlicerSplinesLogic::OnMRMLNodeModified` (contents
changed). -/
def vtkSlicerSplinesLogic.OnMRMLNodeModified (newID : vtkMRMLScene → String)
    (self : vtkSlicerSplinesLogic) (node : Option vtkMRMLNode) :
    Except Fault (vtkSlicerSplinesLogic × Option vtkMRMLNode) :=
  match vtkMRMLMarkupsSplinesNode.SafeDownCast node with
  | none => .ok (self, node)
  | some splinesNode =>
    match self.UpdateSlabModelNode newID (some splinesNode) with
    | .error e => .error e
    | .ok (self1, some n) => .ok (self1, some (vtkMRMLNode.Splines n))
    | .ok (self1, none) => .ok (self1, node)

/-- The handler `vtkSlicerSplinesLogic::OnMRMLSceneNodeAdded` (collection
member added): observe the collection, then reconcile it. -/
def vtkSlicerSplinesLogic.OnMRMLSceneNodeAdded (newID : vtkMRMLScene → String)
    (self : vtkSlicerSplinesLogic) (node : Option vtkMRMLNode) :
    Except Fault (vtkSlicerSplinesLogic × Option vtkMRMLNode) :=
  match vtkMRMLMarkupsSplinesNode.SafeDownCast node with
  | none => .ok (self, node)
  | some splinesNode =>
    let observing := { self with Observations := self.Observations ++ [splinesNode.ID] }
    match observing.UpdateSlabModelNode newID (some splinesNode) with
    | .error e => .error e
    | .ok (self1, some n) => .ok (self1, some (vtkMRMLNode.Splines n))
    | .ok (self1, none) => .ok (self1, node)

/-- The body of the loop of `OnMRMLSceneNodeRemoved` (source lines 303 to 309)
for index `i`, with a non-null scene. -/
def OnMRMLSceneNodeRemoved.body (i : Nat) (w : World) : World :=
  let modelID := w.SplinesNode.GetNthMarkupAssociatedNodeID i
  let modelNode := vtkMRMLModelNode.SafeDownCast (w.Scene.GetNodeByID modelID)
  match modelNode with
  | some m => { w with Scene := w.Scene.RemoveNode m, Trace := w.Trace ++ [Call.RemoveNode m.ID] }
  | none => w

/-- The state after the iterations for the indices `0, ..., k - 1` of the loop
of `OnMRMLSceneNodeRemoved`. -/
def OnMRMLSceneNodeRemoved.loop : Nat → World → World
  | 0, w => w
  | k + 1, w => OnMRMLSceneNodeRemoved.body k (OnMRMLSceneNodeRemoved.loop k w)

/-- The handler `vtkSlicerSplinesLogic::OnMRMLSceneNodeRemoved` (collection
member removed): stop observing the collection, then remove every associated
model node that is in the scene. -/
def vtkSlicerSplinesLogic.OnMRMLSceneNodeRemoved
    (self : vtkSlicerSplinesLogic) (node : Option vtkMRMLNode) :
    Except Fault (vtkSlicerSplinesLogic × Option vtkMRMLNode) :=
  match vtkMRMLMarkupsSplinesNode.SafeDownCast node with
  | none => .ok (self, node)
  | some splinesNode =>
    let unobserved := self.Observations.filter (fun o => o != splinesNode.ID)
    if splinesNode.GetNumberOfMarkups = 0 then
      .ok ({ self with Observations := unobserved }, node)
    else
      match self.MRMLScene with
      | none => .error Fault.NullPointerDereference
      | some scene =>
        let w := OnMRMLSceneNodeRemoved.loop splinesNode.GetNumberOfMarkups
          { Scene := scene, SplinesNode := splinesNode, Trace := self.Trace }
        .ok ({ MRMLScene := some w.Scene, Observations := unobserved, Trace := w.Trace },
             some (vtkMRMLNode.Splines w.SplinesNode))

/-! ## Predicates used by the statements -/

/-- The identifier resolves to a model node that is in the scene ("a live
Model"). -/
def vtkMRMLScene.IsLiveModel (self : vtkMRMLScene) (id : String) : Prop :=
  (vtkMRMLModelNode.SafeDownCast (self.GetNodeByID id)).isSome = true

instance (s : vtkMRMLScene) (id : String) : Decidable (s.IsLiveModel id) :=
  inferInstanceAs (Decidable (_ = true))

/-- No node of the scene carries the empty identifier (the empty string means
"no associated node"). -/
def vtkMRMLScene.NoEmptyID (self : vtkMRMLScene) : Prop :=
  self.GetNodeByID "" = none

instance (s : vtkMRMLScene) : Decidable s.NoEmptyID :=
  inferInstanceAs (Decidable (_ = none))

/-- The scene assigns identifiers that are non-empty, carried by no node of the
scene at the time of the assignment, and outside the list `avoid`. -/
def FreshIDs (newID : vtkMRMLScene → String) (avoid : List String) : Prop :=
  ∀ s : vtkMRMLScene, newID s ≠ "" ∧ s.GetNodeByID (newID s) = none ∧ newID s ∉ avoid

/-- No two markups of the collection share an association that resolves to a
live Model. -/
def DistinctLive (s : vtkMRMLScene) (c : vtkMRMLMarkupsSplinesNode) : Prop :=
  ∀ j k : Nat, j ≠ k → s.IsLiveModel (c.GetNthMarkupAssociatedNodeID j) →
    c.GetNthMarkupAssociatedNodeID j ≠ c.GetNthMarkupAssociatedNodeID k

/-- Every association of the collection is empty, or one of the identifiers in
`avoid`, or resolves to a live Model that no other markup is associated
with. -/
def Anchored (avoid : List String) (s : vtkMRMLScene) (c : vtkMRMLMarkupsSplinesNode) : Prop :=
  ∀ j : Nat, c.GetNthMarkupAssociatedNodeID j = "" ∨
    c.GetNthMarkupAssociatedNodeID j ∈ avoid ∨
    (s.IsLiveModel (c.GetNthMarkupAssociatedNodeID j) ∧
      ∀ k : Nat, k ≠ j → c.GetNthMarkupAssociatedNodeID k ≠ c.GetNthMarkupAssociatedNodeID j)

/-- The associations of all markups of the collection, in index order. -/
def vtkMRMLMarkupsSplinesNode.AssociatedNodeIDs (self : vtkMRMLMarkupsSplinesNode) :
    List String :=
  self.Markups.map (fun m => m.AssociatedNodeID)

/-- An identifier generator for concrete evaluations: a run of the letter M
longer than every identifier in the scene and every string in `avoid`. -/
def sampleID (avoid : List String) (s : vtkMRMLScene) : String :=
  String.mk (List.replicate
    (((avoid ++ s.Nodes.map (fun n => n.ID)).map String.length).sum + 1) 'M')

/-- The identifier discipline of a state of the controller: no node with the
empty identifier and every association anchored. -/
structure Tidy (avoid : List String) (w : World) : Prop where
  noEmpty : w.Scene.NoEmptyID
  anchored : Anchored avoid w.Scene w.SplinesNode

/-- A point-count edit of markup `n` (points added to it or removed from it):
its point list is replaced, its association is kept; nothing happens when the
markup does not exist. Modelled from the spec: the "point-count mutations" of
a markup, which the user interface performs outside this file. -/
def vtkMRMLMarkupsSplinesNode.SetNthMarkupPoints (self : vtkMRMLMarkupsSplinesNode)
    (n : Nat) (points : List vtkVector3d) : vtkMRMLMarkupsSplinesNode :=
  match self.Markups[n]? with
  | some m => { self with Markups := self.Markups.set n { m with Points := points } }
  | none => self

/-- The edit `SetNthMarkupPoints` applied to the collection of a state. -/
def World.SetNthMarkupPoints (w : World) (n : Nat) (points : List vtkVector3d) : World :=
  { w with SplinesNode := w.SplinesNode.SetNthMarkupPoints n points }

/-- One whole pass of the loop of `UpdateSlabModelNode` with a non-null scene:
the iterations for every markup index of the collection, in index order. -/
def UpdateSlabModelNode.pass (newID : vtkMRMLScene → String) (w : World) : World :=
  UpdateSlabModelNode.loop newID w.SplinesNode.GetNumberOfMarkups w

/-- The calls issued by the iteration for index `i` of a pass started in state
`w`: what that iteration appends to the record. -/
def UpdateSlabModelNode.callsAt (newID : vtkMRMLScene → String) (i : Nat) (w : World) :
    List Call :=
  (UpdateSlabModelNode.loop newID (i + 1) w).Trace.drop
    (UpdateSlabModelNode.loop newID i w).Trace.length

/-- The hygiene condition on a state of the controller: no node with the empty
identifier, every association anchored, no live Model shared. -/
structure Hygienic (avoid : List String) (w : World) : Prop where
  noEmpty : w.Scene.NoEmptyID
  anchored : Anchored avoid w.Scene w.SplinesNode
  distinct : DistinctLive w.Scene w.SplinesNode

/-- The indices of the markups of the collection that have a non-empty
association, in increasing order. -/
def vtkMRMLMarkupsSplinesNode.AssociatedIndices (self : vtkMRMLMarkupsSplinesNode) : List Nat :=
  (List.range self.GetNumberOfMarkups).filter
    (fun j => decide (self.GetNthMarkupAssociatedNodeID j ≠ ""))

/-- The identifiers of the Models the controller has created, read off the
record of calls. -/
def createdIDs (trace : List Call) : List String :=
  trace.filterMap (fun call =>
    match call with
    | Call.AddNewNodeByClass _ _ id => some id
    | _ => none)

/-- A sequence of point-count edits, each one (markup index, new points)
followed by a pass of the reconcile loop. -/
def editAndReconcile (newID : vtkMRMLScene → String) (w : World)
    (edits : List (Nat × List vtkVector3d)) : World :=
  edits.foldl (fun v e => UpdateSlabModelNode.pass newID (v.SetNthMarkupPoints e.1 e.2)) w

/-- Every live Model that the controller created is the association of some
markup. -/
def CreatedAreAssociated (w : World) : Prop :=
  ∀ id ∈ createdIDs w.Trace, w.Scene.IsLiveModel id →
    ∃ j, w.SplinesNode.GetNthMarkupAssociatedNodeID j = id

/-- Every markup whose association resolves to a live Model has more than 2
points. -/
def LiveAreEligible (w : World) : Prop :=
  ∀ j, w.Scene.IsLiveModel (w.SplinesNode.GetNthMarkupAssociatedNodeID j) →
    w.SplinesNode.GetNumberOfPointsInNthMarkup j > 2

/-! ## Decisions of the reconcile loop, in any order -/

/-- The three outcomes of one iteration of the reconcile loop. -/
inductive Decision where
  | CREATE
  | DELETE
  | NOOP
deriving DecidableEq

/-- The decision the body of the loop of `UpdateSlabModelNode` takes for index
`i` in state `w`: the branch that the tests of source lines 348 and 358
select. -/
def UpdateSlabModelNode.decision (i : Nat) (w : World) : Decision :=
  let modelID := w.SplinesNode.GetNthMarkupAssociatedNodeID i
  let modelNode := vtkMRMLModelNode.SafeDownCast (w.Scene.GetNodeByID modelID)
  let shouldHaveModel := decide (w.SplinesNode.GetNumberOfPointsInNthMarkup i > 2)
  match shouldHaveModel, modelNode with
  | true, none => Decision.CREATE
  | false, some _ => Decision.DELETE
  | _, _ => Decision.NOOP

/-- The loop body run over the indices of `order`, in that order (the source
runs it over `0, 1, ..., count - 1`). -/
def UpdateSlabModelNode.sweep (newID : vtkMRMLScene → String) (order : List Nat) (w : World) :
    World :=
  order.foldl (fun v i => UpdateSlabModelNode.body newID i v) w

/-- The decisions taken while the loop body is run over the indices of `order`:
each index with the decision taken when it is reached. -/
def UpdateSlabModelNode.decisionsInOrder (newID : vtkMRMLScene → String) :
    List Nat → World → List (Nat × Decision)
  | [], _ => []
  | i :: rest, w =>
    (i, UpdateSlabModelNode.decision i w)
      :: UpdateSlabModelNode.decisionsInOrder newID rest (UpdateSlabModelNode.body newID i w)

/-! ## Parts of the slab mesh builder -/

/-- The top half inside `CreateModelFromContour` (`topHalfFilter->GetOutput()`,
source lines 175 to 185). -/
def CreateModelFromContour.topHalf (contourTriangulator : vtkPolyData → vtkPolyData)
    (inputContour : vtkPolyData) (normal : vtkVector3d) (thickness : ℚ) : vtkPolyData :=
  vtkTransformPolyDataFilter.Translate (CreateModelFromContour.topOffset normal thickness)
    (contourTriangulator inputContour)

/-- The bottom half inside `CreateModelFromContour`
(`bottomHalfFilter->GetOutput()`, source lines 180 to 186). -/
def CreateModelFromContour.bottomHalf (contourTriangulator : vtkPolyData → vtkPolyData)
    (inputContour : vtkPolyData) (normal : vtkVector3d) (thickness : ℚ) : vtkPolyData :=
  vtkTransformPolyDataFilter.Translate (CreateModelFromContour.bottomOffset normal thickness)
    (contourTriangulator inputContour)

/-- The belt surface inside `CreateModelFromContour` (`beltSurface`, source
lines 187 to 212). -/
def CreateModelFromContour.belt (contourTriangulator : vtkPolyData → vtkPolyData)
    (inputContour : vtkPolyData) (normal : vtkVector3d) (thickness : ℚ) : vtkPolyData :=
  CreateModelFromContour.beltSurface
    (CreateModelFromContour.topHalf contourTriangulator inputContour normal thickness)
    (CreateModelFromContour.bottomHalf contourTriangulator inputContour normal thickness)

/-- The reads of the first `k` iterations of the interleaving loop (source
lines 188 to 192), in order: iteration `i` calls `GetPoint(i)` on the top half
(`true`) and then on the bottom half (`false`). -/
def CreateModelFromContour.readsLoop : Nat → List (Bool × Nat)
  | 0 => []
  | k + 1 => CreateModelFromContour.readsLoop k ++ [(true, k), (false, k)]

/-! ## Loading a markups file -/

/-- Modelled from the spec: "create/register entity" (`vtkMRMLScene::AddNode`):
the node gets the identifier the scene assigns and is appended to the scene.
The result is the new scene and the node as registered. -/
def vtkMRMLScene.AddNode (newID : vtkMRMLScene → String) (self : vtkMRMLScene)
    (node : SceneNode) : vtkMRMLScene × SceneNode :=
  let registered : SceneNode := { node with ID := newID self }
  ({ Nodes := self.Nodes ++ [registered] }, registered)

/-- The function `vtkSlicerSplinesLogic::LoadMarkupsSplines`. `ReadData` stands
for `vtkMRMLMarkupsSplinesStorageNode::ReadData` on the given file (true when
the file was read). The result is the returned node identifier (`none` for
null) and the logic object after the call. With a null file name the function
logs an error and returns before it touches the scene; otherwise it calls
`StartState` through the scene pointer first. -/
def vtkSlicerSplinesLogic.LoadMarkupsSplines (newID : vtkMRMLScene → String)
    (ReadData : String → Bool) (self : vtkSlicerSplinesLogic)
    (fileName name : Option String) :
    Except Fault (Option String × vtkSlicerSplinesLogic) :=
  match fileName with
  | none => .ok (none, self)
  | some file =>
    match self.MRMLScene with
    | none => .error Fault.NullPointerDereference
    | some scene =>
      let storageAdded := scene.AddNode newID
        { ID := "", ClassName := "vtkMRMLMarkupsSplinesStorageNode", Name := "",
          PolyData := none }
      let splinesAdded := storageAdded.1.AddNode newID
        { ID := "", ClassName := "vtkMRMLMarkupsSplinesNode", Name := name.getD "",
          PolyData := none }
      let nodeID := if ReadData file then some splinesAdded.2.ID else none
      .ok (nodeID,
        { self with
          MRMLScene := some splinesAdded.1
          Trace := self.Trace ++
            [Call.StartState "BatchProcessState",
             Call.AddNode "vtkMRMLMarkupsSplinesStorageNode" storageAdded.2.ID,
             Call.AddNode "vtkMRMLMarkupsSplinesNode" splinesAdded.2.ID,
             Call.EndState "BatchProcessState"] })

/-! ## The centroid of a markup -/

/-- Modelled from the spec: whether markup `n` exists
(`vtkMRMLMarkupsNode::MarkupExists`, with an `int` index). -/
def vtkMRMLMarkupsSplinesNode.MarkupExists (self : vtkMRMLMarkupsSplinesNode) (n : Int) : Bool :=
  decide (0 ≤ n ∧ n < (self.GetNumberOfMarkups : Int))

/-- Modelled from the spec: "world-space point i of markup j"
(`GetMarkupPointWorld`); the origin stands for a read outside the markup. -/
def vtkMRMLMarkupsSplinesNode.GetMarkupPointWorld (self : vtkMRMLMarkupsSplinesNode)
    (n i : Nat) : vtkVector3d :=
  match self.Markups[n]? with
  | some m => m.Points.getD i ⟨0, 0, 0⟩
  | none => ⟨0, 0, 0⟩

/-- The sum of two vectors (`vtkMath::Add`). -/
def vtkMath.Add (a b : vtkVector3d) : vtkVector3d :=
  ⟨a.X + b.X, a.Y + b.Y, a.Z + b.Z⟩

/-- A vector scaled by `s` (`vtkMath::MultiplyScalar`). -/
def vtkMath.MultiplyScalar (a : vtkVector3d) (s : ℚ) : vtkVector3d :=
  ⟨a.X * s, a.Y * s, a.Z * s⟩

/-- The centroid accumulator after the first `k` iterations of the loop of
`GetCentroid` (source lines 103 to 108), started from `centroid`. -/
def GetCentroid.loop (splinesNode : vtkMRMLMarkupsSplinesNode) (n : Nat) :
    Nat → vtkVector3d → vtkVector3d
  | 0, centroid => centroid
  | k + 1, centroid =>
    vtkMath.Add (splinesNode.GetMarkupPointWorld n k) (GetCentroid.loop splinesNode n k centroid)

/-- The function `vtkSlicerSplinesLogic::GetCentroid`. The result is the
returned flag and the content of the output array `centroid` after the
call. -/
def vtkSlicerSplinesLogic.GetCentroid (splinesNode : Option vtkMRMLMarkupsSplinesNode)
    (n : Int) (centroid : vtkVector3d) : Bool × vtkVector3d :=
  match splinesNode with
  | none => (false, centroid)
  | some node =>
    if !node.MarkupExists n then (false, centroid)
    else
      let numberOfPoints := node.GetNumberOfPointsInNthMarkup n.toNat
      if (numberOfPoints : Int) ≤ 0 then (false, centroid)
      else
        (true, vtkMath.MultiplyScalar
          (GetCentroid.loop node n.toNat numberOfPoints ⟨0, 0, 0⟩) (1 / (numberOfPoints : ℚ)))

/-! ## Concrete states used for evaluation -/

/-- Three points that are not collinear. -/
def threePoints : List vtkVector3d := [⟨0, 0, 0⟩, ⟨1, 0, 0⟩, ⟨0, 1, 0⟩]

/-- Two points. -/
def twoPoints : List vtkVector3d := [⟨0, 0, 0⟩, ⟨1, 0, 0⟩]

/-- One point. -/
def onePoint : List vtkVector3d := [⟨0, 0, 0⟩]

/-- A scene holding one model node, `vtkMRMLModelNode1`. -/
def sceneOneModel : vtkMRMLScene :=
  { Nodes := [{ ID := "vtkMRMLModelNode1", ClassName := "vtkMRMLModelNode", Name := "Surface",
                PolyData := none }] }

/-- A logic object attached to `sceneOneModel`. -/
def logicOneModel : vtkSlicerSplinesLogic :=
  { MRMLScene := some sceneOneModel, Observations := [], Trace := [] }

/-- A collection whose two markups are both associated with `vtkMRMLModelNode1`:
the first has three points, the second two. -/
def sharedCollection : vtkMRMLMarkupsSplinesNode :=
  { ID := "vtkMRMLMarkupsSplinesNode1", Name := "S"
    Markups := [{ Points := threePoints, AssociatedNodeID := "vtkMRMLModelNode1" },
                { Points := twoPoints, AssociatedNodeID := "vtkMRMLModelNode1" }] }

/-- A collection with one markup of each kind: three points and no association,
two points and the live model `vtkMRMLModelNode1`, one point and an
association that resolves to nothing. -/
def mixedCollection : vtkMRMLMarkupsSplinesNode :=
  { ID := "vtkMRMLMarkupsSplinesNode1", Name := "S"
    Markups := [{ Points := threePoints, AssociatedNodeID := "" },
                { Points := twoPoints, AssociatedNodeID := "vtkMRMLModelNode1" },
                { Points := onePoint, AssociatedNodeID := "vtkMRMLModelNode7" }] }

/-- A state for the transition scenario: `sceneOneModel` with a collection whose
second markup (index 1) has two points and no association, next to a markup
associated with the live model and one with an association that resolves to
nothing. -/
def scenarioWorld : World :=
  { Scene := sceneOneModel
    SplinesNode :=
      { ID := "vtkMRMLMarkupsSplinesNode1", Name := "S"
        Markups := [{ Points := threePoints, AssociatedNodeID := "vtkMRMLModelNode1" },
                    { Points := twoPoints, AssociatedNodeID := "" },
                    { Points := onePoint, AssociatedNodeID := "vtkMRMLModelNode7" }] }
    Trace := [] }

/-- A collection with a single markup of three points and no association. -/
def oneMarkupCollection : vtkMRMLMarkupsSplinesNode :=
  { ID := "vtkMRMLMarkupsSplinesNode1", Name := "S"
    Markups := [{ Points := threePoints, AssociatedNodeID := "" }] }

/-- A scene holding two model nodes. -/
def sceneTwoModels : vtkMRMLScene :=
  { Nodes := [{ ID := "vtkMRMLModelNode1", ClassName := "vtkMRMLModelNode", Name := "S_Model_0",
                PolyData := none },
              { ID := "vtkMRMLModelNode2", ClassName := "vtkMRMLModelNode", Name := "S_Model_2",
                PolyData := none }] }

/-- A logic object attached to `sceneTwoModels`. -/
def logicTwoModels : vtkSlicerSplinesLogic :=
  { MRMLScene := some sceneTwoModels, Observations := ["vtkMRMLMarkupsSplinesNode1"], Trace := [] }

/-- A collection in step with `sceneTwoModels`: the first and the third markup
have three points and a model each, the second has two points and none. -/
def syncedCollection : vtkMRMLMarkupsSplinesNode :=
  { ID := "vtkMRMLMarkupsSplinesNode1", Name := "S"
    Markups := [{ Points := threePoints, AssociatedNodeID := "vtkMRMLModelNode1" },
                { Points := twoPoints, AssociatedNodeID := "" },
                { Points := threePoints, AssociatedNodeID := "vtkMRMLModelNode2" }] }

/-- A logic object whose scene pointer is null. -/
def logicNoScene : vtkSlicerSplinesLogic :=
  { MRMLScene := none, Observations := ["vtkMRMLMarkupsSplinesNode1"], Trace := [] }

/-- A starting state for a session of edits: a scene with one model that the
controller did not create, a collection of two markups without association, and
no call recorded. -/
def sessionStart : World :=
  { Scene := sceneOneModel
    SplinesNode :=
      { ID := "vtkMRMLMarkupsSplinesNode1", Name := "S"
        Markups := [{ Points := twoPoints, AssociatedNodeID := "" },
                    { Points := onePoint, AssociatedNodeID := "" }] }
    Trace := [] }

/-- A session of edits: both markups grow to three points, then the first drops
to one point. -/
def sessionEdits : List (Nat × List vtkVector3d) :=
  [(0, threePoints), (1, threePoints), (0, onePoint)]

/-- The contour `threePoints` closed explicitly: the first point is repeated as
the last one. -/
def closedThreePoints : List vtkVector3d := [⟨0, 0, 0⟩, ⟨1, 0, 0⟩, ⟨0, 1, 0⟩, ⟨0, 0, 0⟩]

/-- A node of another class: a scalar volume. -/
def volumeNode : vtkMRMLNode :=
  vtkMRMLNode.Plain
    { ID := "vtkMRMLScalarVolumeNode1", ClassName := "vtkMRMLScalarVolumeNode", Name := "Volume",
      PolyData := none }

/-- The state of `logicOneModel` with `sharedCollection`, no call recorded. -/
def sharedWorld : World :=
  { Scene := sceneOneModel, SplinesNode := sharedCollection, Trace := [] }

/-- The state of `logicOneModel` with `mixedCollection`, no call recorded. -/
def mixedWorld : World :=
  { Scene := sceneOneModel, SplinesNode := mixedCollection, Trace := [] }

/-- The unit normal along the third axis. -/
def zNormal : vtkVector3d := ⟨0, 0, 1⟩

/-- The state of `logicOneModel` with `oneMarkupCollection`, no call recorded. -/
def oneMarkupWorld : World :=
  { Scene := sceneOneModel, SplinesNode := oneMarkupCollection, Trace := [] }

/-- The identifier that `sampleID []` assigns in `sceneOneModel`. -/
def reusedID : String := "MMMMMMMMMMMMMMMMMM"

/-- A state over `sceneOneModel` in which markup 0 has two points and no
association, and markup 1 has two points and an association that resolves to
nothing but equals the identifier the scene assigns next. -/
def danglingWorld : World :=
  { Scene := sceneOneModel
    SplinesNode :=
      { ID := "vtkMRMLMarkupsSplinesNode1", Name := "S"
        Markups := [{ Points := twoPoints, AssociatedNodeID := "" },
                    { Points := twoPoints, AssociatedNodeID := reusedID }] }
    Trace := [] }

/-- The state `danglingWorld` after a pass and the edit that gives markup 0 its
third point. -/
def danglingThree : World :=
  (UpdateSlabModelNode.pass (sampleID []) danglingWorld).SetNthMarkupPoints 0 threePoints

/-- The state `danglingThree` after a pass and the edit that leaves markup 0
with one point. -/
def danglingOne : World :=
  (UpdateSlabModelNode.pass (sampleID []) danglingThree).SetNthMarkupPoints 0 onePoint

/-! ## Properties -/

/-! ### The markups collection -/

theorem assoc_set_self (c : vtkMRMLMarkupsSplinesNode) (i : Nat) (x : String)
    (h : i < c.GetNumberOfMarkups) :
    (c.SetNthMarkupAssociatedNodeID i x).GetNthMarkupAssociatedNodeID i = x := by
  unfold vtkMRMLMarkupsSplinesNode.GetNumberOfMarkups at h
  simp [vtkMRMLMarkupsSplinesNode.SetNthMarkupAssociatedNodeID,
    vtkMRMLMarkupsSplinesNode.GetNthMarkupAssociatedNodeID, List.getElem?_eq_getElem h,
    List.getElem?_set_self h]

theorem assoc_set_ne (c : vtkMRMLMarkupsSplinesNode) (i j : Nat) (x : String) (h : j ≠ i) :
    (c.SetNthMarkupAssociatedNodeID i x).GetNthMarkupAssociatedNodeID j
      = c.GetNthMarkupAssociatedNodeID j := by
  unfold vtkMRMLMarkupsSplinesNode.SetNthMarkupAssociatedNodeID
  cases hm : c.Markups[i]? with
  | none => rfl
  | some m =>
    simp [vtkMRMLMarkupsSplinesNode.GetNthMarkupAssociatedNodeID,
      List.getElem?_set_ne (Ne.symm h)]

theorem assoc_out_of_range (c : vtkMRMLMarkupsSplinesNode) (i : Nat)
    (h : c.GetNumberOfMarkups ≤ i) : c.GetNthMarkupAssociatedNodeID i = "" := by
  unfold vtkMRMLMarkupsSplinesNode.GetNumberOfMarkups at h
  simp [vtkMRMLMarkupsSplinesNode.GetNthMarkupAssociatedNodeID, List.getElem?_eq_none h]

theorem assoc_mem (c : vtkMRMLMarkupsSplinesNode) (i : Nat) (h : i < c.GetNumberOfMarkups) :
    c.GetNthMarkupAssociatedNodeID i ∈ c.AssociatedNodeIDs := by
  unfold vtkMRMLMarkupsSplinesNode.GetNumberOfMarkups at h
  simp only [vtkMRMLMarkupsSplinesNode.GetNthMarkupAssociatedNodeID,
    vtkMRMLMarkupsSplinesNode.AssociatedNodeIDs, List.getElem?_eq_getElem h, List.mem_map]
  exact ⟨c.Markups[i], List.getElem_mem h, rfl⟩

theorem npts_set (c : vtkMRMLMarkupsSplinesNode) (i j : Nat) (x : String) :
    (c.SetNthMarkupAssociatedNodeID i x).GetNumberOfPointsInNthMarkup j
      = c.GetNumberOfPointsInNthMarkup j := by
  unfold vtkMRMLMarkupsSplinesNode.SetNthMarkupAssociatedNodeID
  cases hm : c.Markups[i]? with
  | none => rfl
  | some m =>
    by_cases hji : i = j
    · subst hji
      have hlt : i < c.Markups.length := by
        by_contra hge
        rw [List.getElem?_eq_none (Nat.le_of_not_lt hge)] at hm
        cases hm
      simp [vtkMRMLMarkupsSplinesNode.GetNumberOfPointsInNthMarkup, List.getElem?_set_self hlt, hm]
    · simp [vtkMRMLMarkupsSplinesNode.GetNumberOfPointsInNthMarkup, List.getElem?_set_ne hji]

theorem count_set (c : vtkMRMLMarkupsSplinesNode) (i : Nat) (x : String) :
    (c.SetNthMarkupAssociatedNodeID i x).GetNumberOfMarkups = c.GetNumberOfMarkups := by
  unfold vtkMRMLMarkupsSplinesNode.SetNthMarkupAssociatedNodeID
  cases hm : c.Markups[i]? with
  | none => rfl
  | some m => simp [vtkMRMLMarkupsSplinesNode.GetNumberOfMarkups]

theorem name_set (c : vtkMRMLMarkupsSplinesNode) (i : Nat) (x : String) :
    (c.SetNthMarkupAssociatedNodeID i x).Name = c.Name := by
  unfold vtkMRMLMarkupsSplinesNode.SetNthMarkupAssociatedNodeID
  cases hm : c.Markups[i]? with
  | none => rfl
  | some m => rfl

/-! ### The scene -/

theorem getNode_add (newID : vtkMRMLScene → String) (s : vtkMRMLScene) (cls nm x : String) :
    (s.AddNewNodeByClass newID cls nm).1.GetNodeByID x
      = (s.GetNodeByID x).or
          (if newID s = x then some (s.AddNewNodeByClass newID cls nm).2 else none) := by
  simp only [vtkMRMLScene.GetNodeByID, vtkMRMLScene.AddNewNodeByClass, List.find?_append]
  by_cases h : newID s = x <;> simp [h]

theorem getNode_remove (s : vtkMRMLScene) (m : SceneNode) (x : String) :
    (s.RemoveNode m).GetNodeByID x = if x = m.ID then none else s.GetNodeByID x := by
  simp only [vtkMRMLScene.GetNodeByID, vtkMRMLScene.RemoveNode, List.find?_filter]
  by_cases h : x = m.ID
  · subst h
    simp only [if_true, List.find?_eq_none]
    intro n _
    simp
  · simp only [h, if_false]
    congr 1
    funext n
    by_cases hn : n.ID = x
    · subst hn; simp [h]
    · simp [hn]

theorem getNode_id (s : vtkMRMLScene) (x : String) (n : SceneNode)
    (h : s.GetNodeByID x = some n) : n.ID = x := by
  have := List.find?_some h
  simpa using this

theorem live_iff (s : vtkMRMLScene) (x : String) :
    s.IsLiveModel x ↔ ∃ m, vtkMRMLModelNode.SafeDownCast (s.GetNodeByID x) = some m := by
  unfold vtkMRMLScene.IsLiveModel
  cases vtkMRMLModelNode.SafeDownCast (s.GetNodeByID x) <;> simp

theorem live_has (s : vtkMRMLScene) (x : String) (h : s.IsLiveModel x) :
    s.GetNodeByID x ≠ none := by
  intro hn
  simp [vtkMRMLScene.IsLiveModel, hn, vtkMRMLModelNode.SafeDownCast] at h

theorem live_ne_empty (s : vtkMRMLScene) (x : String) (hs : s.NoEmptyID)
    (h : s.IsLiveModel x) : x ≠ "" := by
  intro hx
  subst hx
  exact live_has s "" h hs

theorem downcast_id (s : vtkMRMLScene) (x : String) (m : SceneNode)
    (h : vtkMRMLModelNode.SafeDownCast (s.GetNodeByID x) = some m) :
    m.ID = x ∧ s.GetNodeByID x = some m := by
  cases hg : s.GetNodeByID x with
  | none => simp [hg, vtkMRMLModelNode.SafeDownCast] at h
  | some n =>
    have hid := getNode_id s x n hg
    by_cases hc : n.ClassName = "vtkMRMLModelNode"
    · simp only [hg, vtkMRMLModelNode.SafeDownCast, hc, if_true, Option.some.injEq] at h
      subst h
      exact ⟨hid, rfl⟩
    · simp [hg, vtkMRMLModelNode.SafeDownCast, hc] at h

theorem live_add_old (newID : vtkMRMLScene → String) (s : vtkMRMLScene) (cls nm x : String)
    (hx : x ≠ newID s) :
    (s.AddNewNodeByClass newID cls nm).1.IsLiveModel x ↔ s.IsLiveModel x := by
  unfold vtkMRMLScene.IsLiveModel
  rw [getNode_add]
  simp [Ne.symm hx]

theorem live_add_new (newID : vtkMRMLScene → String) (s : vtkMRMLScene) (nm : String)
    (hfresh : s.GetNodeByID (newID s) = none) :
    (s.AddNewNodeByClass newID "vtkMRMLModelNode" nm).1.IsLiveModel (newID s) := by
  unfold vtkMRMLScene.IsLiveModel
  rw [getNode_add, hfresh]
  simp [vtkMRMLModelNode.SafeDownCast, vtkMRMLScene.AddNewNodeByClass]

theorem live_remove (s : vtkMRMLScene) (m : SceneNode) (x : String) :
    (s.RemoveNode m).IsLiveModel x ↔ x ≠ m.ID ∧ s.IsLiveModel x := by
  unfold vtkMRMLScene.IsLiveModel
  rw [getNode_remove]
  by_cases h : x = m.ID <;> simp [h, vtkMRMLModelNode.SafeDownCast]

theorem noEmpty_add (newID : vtkMRMLScene → String) (s : vtkMRMLScene) (cls nm : String)
    (hs : s.NoEmptyID) (hne : newID s ≠ "") :
    (s.AddNewNodeByClass newID cls nm).1.NoEmptyID := by
  unfold vtkMRMLScene.NoEmptyID at *
  rw [getNode_add, hs]
  simp [hne]

theorem noEmpty_remove (s : vtkMRMLScene) (m : SceneNode) (hs : s.NoEmptyID) :
    (s.RemoveNode m).NoEmptyID := by
  unfold vtkMRMLScene.NoEmptyID at *
  rw [getNode_remove, hs]
  simp

/-! ### One iteration of the reconcile loop -/

theorem npts_lt (c : vtkMRMLMarkupsSplinesNode) (i : Nat)
    (h : c.GetNumberOfPointsInNthMarkup i > 2) : i < c.GetNumberOfMarkups := by
  by_contra hge
  unfold vtkMRMLMarkupsSplinesNode.GetNumberOfMarkups at hge
  simp [vtkMRMLMarkupsSplinesNode.GetNumberOfPointsInNthMarkup,
    List.getElem?_eq_none (Nat.le_of_not_lt hge)] at h

theorem assoc_set_empty (c : vtkMRMLMarkupsSplinesNode) (i : Nat) :
    (c.SetNthMarkupAssociatedNodeID i "").GetNthMarkupAssociatedNodeID i = "" := by
  by_cases h : i < c.GetNumberOfMarkups
  · exact assoc_set_self c i "" h
  · exact assoc_out_of_range _ i (by rw [count_set]; exact Nat.le_of_not_lt h)

theorem body_create (newID : vtkMRMLScene → String) (i : Nat) (w : World)
    (hp : w.SplinesNode.GetNumberOfPointsInNthMarkup i > 2)
    (hl : ¬ w.Scene.IsLiveModel (w.SplinesNode.GetNthMarkupAssociatedNodeID i)) :
    UpdateSlabModelNode.body newID i w =
      { Scene := (w.Scene.AddNewNodeByClass newID "vtkMRMLModelNode"
          (w.SplinesNode.Name ++ "_Model_" ++ toString i)).1
        SplinesNode := w.SplinesNode.SetNthMarkupAssociatedNodeID i (newID w.Scene)
        Trace := w.Trace ++
          [Call.AddNewNodeByClass "vtkMRMLModelNode"
              (w.SplinesNode.Name ++ "_Model_" ++ toString i) (newID w.Scene),
           Call.SetNthMarkupAssociatedNodeID i (newID w.Scene)] } := by
  have hnone : vtkMRMLModelNode.SafeDownCast
      (w.Scene.GetNodeByID (w.SplinesNode.GetNthMarkupAssociatedNodeID i)) = none := by
    unfold vtkMRMLScene.IsLiveModel at hl
    cases hd : vtkMRMLModelNode.SafeDownCast
      (w.Scene.GetNodeByID (w.SplinesNode.GetNthMarkupAssociatedNodeID i)) with
    | none => rfl
    | some m => simp [hd] at hl
  unfold UpdateSlabModelNode.body
  simp only [hnone, hp, decide_True]
  rfl

theorem body_delete (newID : vtkMRMLScene → String) (i : Nat) (w : World) (m : SceneNode)
    (hp : ¬ w.SplinesNode.GetNumberOfPointsInNthMarkup i > 2)
    (hm : vtkMRMLModelNode.SafeDownCast
      (w.Scene.GetNodeByID (w.SplinesNode.GetNthMarkupAssociatedNodeID i)) = some m) :
    UpdateSlabModelNode.body newID i w =
      { Scene := w.Scene.RemoveNode m
        SplinesNode := w.SplinesNode.SetNthMarkupAssociatedNodeID i ""
        Trace := w.Trace ++ [Call.RemoveNode m.ID, Call.SetNthMarkupAssociatedNodeID i ""] } := by
  unfold UpdateSlabModelNode.body
  simp only [hm, hp, decide_False]

theorem body_keep (newID : vtkMRMLScene → String) (i : Nat) (w : World)
    (h : w.SplinesNode.GetNumberOfPointsInNthMarkup i > 2 ↔
      w.Scene.IsLiveModel (w.SplinesNode.GetNthMarkupAssociatedNodeID i)) :
    UpdateSlabModelNode.body newID i w = w := by
  unfold UpdateSlabModelNode.body
  by_cases hp : w.SplinesNode.GetNumberOfPointsInNthMarkup i > 2
  · obtain ⟨m, hm⟩ := (live_iff _ _).1 (h.1 hp)
    simp only [hm, hp, decide_True]
  · have hl := fun hl => hp (h.2 hl)
    unfold vtkMRMLScene.IsLiveModel at hl
    cases hd : vtkMRMLModelNode.SafeDownCast
      (w.Scene.GetNodeByID (w.SplinesNode.GetNthMarkupAssociatedNodeID i)) with
    | none => simp only [hd, hp, decide_False]
    | some m => simp [hd] at hl

theorem body_npts (newID : vtkMRMLScene → String) (i j : Nat) (w : World) :
    (UpdateSlabModelNode.body newID i w).SplinesNode.GetNumberOfPointsInNthMarkup j
      = w.SplinesNode.GetNumberOfPointsInNthMarkup j := by
  unfold UpdateSlabModelNode.body
  simp only
  split <;> simp [npts_set]

theorem body_count (newID : vtkMRMLScene → String) (i : Nat) (w : World) :
    (UpdateSlabModelNode.body newID i w).SplinesNode.GetNumberOfMarkups
      = w.SplinesNode.GetNumberOfMarkups := by
  unfold UpdateSlabModelNode.body
  simp only
  split <;> simp [count_set]

theorem body_name (newID : vtkMRMLScene → String) (i : Nat) (w : World) :
    (UpdateSlabModelNode.body newID i w).SplinesNode.Name = w.SplinesNode.Name := by
  unfold UpdateSlabModelNode.body
  simp only
  split <;> simp [name_set]

theorem body_assoc_ne (newID : vtkMRMLScene → String) (i j : Nat) (w : World) (h : j ≠ i) :
    (UpdateSlabModelNode.body newID i w).SplinesNode.GetNthMarkupAssociatedNodeID j
      = w.SplinesNode.GetNthMarkupAssociatedNodeID j := by
  unfold UpdateSlabModelNode.body
  simp only
  split <;> simp [assoc_set_ne _ _ _ _ h]

theorem fresh_ne_assoc (newID : vtkMRMLScene → String) (avoid : List String)
    (s : vtkMRMLScene) (c : vtkMRMLMarkupsSplinesNode)
    (hf : FreshIDs newID avoid) (ha : Anchored avoid s c) (j : Nat) :
    c.GetNthMarkupAssociatedNodeID j ≠ newID s := by
  obtain ⟨hne, hnone, havoid⟩ := hf s
  intro heq
  rcases ha j with h | h | ⟨h, _⟩
  · exact hne (heq ▸ h)
  · exact havoid (heq ▸ h)
  · exact live_has s _ h (heq ▸ hnone)

theorem body_tidy (newID : vtkMRMLScene → String) (avoid : List String) (i : Nat)
    (w : World) (hf : FreshIDs newID avoid) (hw : Tidy avoid w) :
    Tidy avoid (UpdateSlabModelNode.body newID i w) := by
  obtain ⟨hne, hnone, havoid⟩ := hf w.Scene
  have hfa := fresh_ne_assoc newID avoid w.Scene w.SplinesNode hf hw.anchored
  by_cases hp : w.SplinesNode.GetNumberOfPointsInNthMarkup i > 2
  · by_cases hl : w.Scene.IsLiveModel (w.SplinesNode.GetNthMarkupAssociatedNodeID i)
    · rw [body_keep newID i w ⟨fun _ => hl, fun _ => hp⟩]
      exact hw
    · rw [body_create newID i w hp hl]
      have hi := npts_lt _ _ hp
      refine ⟨noEmpty_add _ _ _ _ hw.noEmpty hne, ?_⟩
      intro j
      by_cases hj : j = i
      · subst hj
        right; right
        simp only [assoc_set_self _ _ _ hi]
        refine ⟨live_add_new _ _ _ hnone, ?_⟩
        intro k hk
        rw [assoc_set_ne _ _ _ _ hk]
        exact hfa k
      · simp only [assoc_set_ne _ _ _ _ hj]
        rcases hw.anchored j with h | h | ⟨h, hu⟩
        · exact Or.inl h
        · exact Or.inr (Or.inl h)
        · right; right
          refine ⟨(live_add_old _ _ _ _ _ (hfa j)).2 h, ?_⟩
          intro k hk
          by_cases hki : k = i
          · subst hki
            rw [assoc_set_self _ _ _ hi]
            exact Ne.symm (hfa j)
          · rw [assoc_set_ne _ _ _ _ hki]
            exact hu k hk
  · by_cases hl : w.Scene.IsLiveModel (w.SplinesNode.GetNthMarkupAssociatedNodeID i)
    · obtain ⟨m, hm⟩ := (live_iff _ _).1 hl
      obtain ⟨hmid, _⟩ := downcast_id _ _ _ hm
      rw [body_delete newID i w m hp hm]
      refine ⟨noEmpty_remove _ _ hw.noEmpty, ?_⟩
      intro j
      by_cases hj : j = i
      · subst hj
        left
        exact assoc_set_empty _ _
      · simp only [assoc_set_ne _ _ _ _ hj]
        rcases hw.anchored j with h | h | ⟨h, hu⟩
        · exact Or.inl h
        · exact Or.inr (Or.inl h)
        · right; right
          refine ⟨(live_remove _ _ _).2 ⟨?_, h⟩, ?_⟩
          · rw [hmid]
            exact Ne.symm (hu i (Ne.symm hj))
          · intro k hk
            by_cases hki : k = i
            · subst hki
              rw [assoc_set_empty]
              exact Ne.symm (live_ne_empty _ _ hw.noEmpty h)
            · rw [assoc_set_ne _ _ _ _ hki]
              exact hu k hk
    · rw [body_keep newID i w ⟨fun h => absurd h hp, fun h => absurd h hl⟩]
      exact hw

theorem Hygienic.tidy {avoid : List String} {w : World} (hw : Hygienic avoid w) :
    Tidy avoid w :=
  ⟨hw.noEmpty, hw.anchored⟩

theorem body_hygienic (newID : vtkMRMLScene → String) (avoid : List String) (i : Nat)
    (w : World) (hf : FreshIDs newID avoid) (hw : Hygienic avoid w) :
    Hygienic avoid (UpdateSlabModelNode.body newID i w) := by
  have ht := body_tidy newID avoid i w hf hw.tidy
  refine ⟨ht.noEmpty, ht.anchored, ?_⟩
  have hfa := fresh_ne_assoc newID avoid w.Scene w.SplinesNode hf hw.anchored
  by_cases hp : w.SplinesNode.GetNumberOfPointsInNthMarkup i > 2
  · by_cases hl : w.Scene.IsLiveModel (w.SplinesNode.GetNthMarkupAssociatedNodeID i)
    · rw [body_keep newID i w ⟨fun _ => hl, fun _ => hp⟩]
      exact hw.distinct
    · rw [body_create newID i w hp hl]
      have hi := npts_lt _ _ hp
      intro j k hjk hlive
      simp only at hlive ⊢
      by_cases hj : j = i
      · subst hj
        have hk : k ≠ j := Ne.symm hjk
        rw [assoc_set_self _ _ _ hi, assoc_set_ne _ _ _ _ hk]
        exact Ne.symm (hfa k)
      · rw [assoc_set_ne _ _ _ _ hj] at hlive ⊢
        have hold := (live_add_old _ _ _ _ _ (hfa j)).1 hlive
        by_cases hki : k = i
        · subst hki
          rw [assoc_set_self _ _ _ hi]
          exact hfa j
        · rw [assoc_set_ne _ _ _ _ hki]
          exact hw.distinct j k hjk hold
  · by_cases hl : w.Scene.IsLiveModel (w.SplinesNode.GetNthMarkupAssociatedNodeID i)
    · obtain ⟨m, hm⟩ := (live_iff _ _).1 hl
      rw [body_delete newID i w m hp hm]
      intro j k hjk hlive
      simp only at hlive ⊢
      by_cases hj : j = i
      · subst hj
        rw [assoc_set_empty] at hlive
        exact absurd hlive (fun h =>
          live_ne_empty _ _ (noEmpty_remove _ m hw.noEmpty) h rfl)
      · rw [assoc_set_ne _ _ _ _ hj] at hlive ⊢
        have hold := ((live_remove _ _ _).1 hlive).2
        by_cases hki : k = i
        · subst hki
          rw [assoc_set_empty]
          exact live_ne_empty _ _ hw.noEmpty hold
        · rw [assoc_set_ne _ _ _ _ hki]
          exact hw.distinct j k hjk hold
    · rw [body_keep newID i w ⟨fun h => absurd h hp, fun h => absurd h hl⟩]
      exact hw.distinct

theorem body_live_other (newID : vtkMRMLScene → String) (avoid : List String) (i j : Nat)
    (w : World) (hf : FreshIDs newID avoid) (hw : Hygienic avoid w) (hj : j ≠ i) :
    (UpdateSlabModelNode.body newID i w).Scene.IsLiveModel
        (w.SplinesNode.GetNthMarkupAssociatedNodeID j)
      ↔ w.Scene.IsLiveModel (w.SplinesNode.GetNthMarkupAssociatedNodeID j) := by
  have hfa := fresh_ne_assoc newID avoid w.Scene w.SplinesNode hf hw.anchored
  by_cases hp : w.SplinesNode.GetNumberOfPointsInNthMarkup i > 2
  · by_cases hl : w.Scene.IsLiveModel (w.SplinesNode.GetNthMarkupAssociatedNodeID i)
    · rw [body_keep newID i w ⟨fun _ => hl, fun _ => hp⟩]
    · rw [body_create newID i w hp hl]
      exact live_add_old _ _ _ _ _ (hfa j)
  · by_cases hl : w.Scene.IsLiveModel (w.SplinesNode.GetNthMarkupAssociatedNodeID i)
    · obtain ⟨m, hm⟩ := (live_iff _ _).1 hl
      obtain ⟨hmid, _⟩ := downcast_id _ _ _ hm
      rw [body_delete newID i w m hp hm]
      simp only [live_remove, hmid]
      constructor
      · exact fun h => h.2
      · exact fun h => ⟨hw.distinct j i hj h, h⟩
    · rw [body_keep newID i w ⟨fun h => absurd h hp, fun h => absurd h hl⟩]

theorem body_live_self (newID : vtkMRMLScene → String) (avoid : List String) (i : Nat)
    (w : World) (hf : FreshIDs newID avoid) (hw : Hygienic avoid w) :
    w.SplinesNode.GetNumberOfPointsInNthMarkup i > 2 ↔
      (UpdateSlabModelNode.body newID i w).Scene.IsLiveModel
        ((UpdateSlabModelNode.body newID i w).SplinesNode.GetNthMarkupAssociatedNodeID i) := by
  obtain ⟨hne, hnone, havoid⟩ := hf w.Scene
  by_cases hp : w.SplinesNode.GetNumberOfPointsInNthMarkup i > 2
  · by_cases hl : w.Scene.IsLiveModel (w.SplinesNode.GetNthMarkupAssociatedNodeID i)
    · rw [body_keep newID i w ⟨fun _ => hl, fun _ => hp⟩]
      exact ⟨fun _ => hl, fun _ => hp⟩
    · rw [body_create newID i w hp hl]
      simp only [assoc_set_self _ _ _ (npts_lt _ _ hp)]
      exact ⟨fun _ => live_add_new _ _ _ hnone, fun _ => hp⟩
  · by_cases hl : w.Scene.IsLiveModel (w.SplinesNode.GetNthMarkupAssociatedNodeID i)
    · obtain ⟨m, hm⟩ := (live_iff _ _).1 hl
      rw [body_delete newID i w m hp hm]
      simp only [assoc_set_empty]
      constructor
      · exact fun h => absurd h hp
      · exact fun h => absurd rfl (live_ne_empty _ _ (noEmpty_remove _ m hw.noEmpty) h)
    · rw [body_keep newID i w ⟨fun h => absurd h hp, fun h => absurd h hl⟩]
      exact ⟨fun h => absurd h hp, fun h => absurd h hl⟩

/-! ### A whole pass of the reconcile loop -/

theorem loop_npts (newID : vtkMRMLScene → String) (k j : Nat) (w : World) :
    (UpdateSlabModelNode.loop newID k w).SplinesNode.GetNumberOfPointsInNthMarkup j
      = w.SplinesNode.GetNumberOfPointsInNthMarkup j := by
  induction k with
  | zero => rfl
  | succ k ih => rw [UpdateSlabModelNode.loop, body_npts, ih]

theorem loop_count (newID : vtkMRMLScene → String) (k : Nat) (w : World) :
    (UpdateSlabModelNode.loop newID k w).SplinesNode.GetNumberOfMarkups
      = w.SplinesNode.GetNumberOfMarkups := by
  induction k with
  | zero => rfl
  | succ k ih => rw [UpdateSlabModelNode.loop, body_count, ih]

theorem loop_name (newID : vtkMRMLScene → String) (k : Nat) (w : World) :
    (UpdateSlabModelNode.loop newID k w).SplinesNode.Name = w.SplinesNode.Name := by
  induction k with
  | zero => rfl
  | succ k ih => rw [UpdateSlabModelNode.loop, body_name, ih]

theorem loop_assoc_later (newID : vtkMRMLScene → String) (k j : Nat) (w : World) (h : k ≤ j) :
    (UpdateSlabModelNode.loop newID k w).SplinesNode.GetNthMarkupAssociatedNodeID j
      = w.SplinesNode.GetNthMarkupAssociatedNodeID j := by
  induction k with
  | zero => rfl
  | succ k ih =>
    rw [UpdateSlabModelNode.loop, body_assoc_ne _ _ _ _ (by omega), ih (by omega)]

theorem loop_hygienic (newID : vtkMRMLScene → String) (avoid : List String) (k : Nat)
    (w : World) (hf : FreshIDs newID avoid) (hw : Hygienic avoid w) :
    Hygienic avoid (UpdateSlabModelNode.loop newID k w) := by
  induction k with
  | zero => exact hw
  | succ k ih => exact body_hygienic newID avoid k _ hf ih

theorem loop_sync (newID : vtkMRMLScene → String) (avoid : List String) (k : Nat)
    (w : World) (hf : FreshIDs newID avoid) (hw : Hygienic avoid w) :
    ∀ j, j < k →
      (w.SplinesNode.GetNumberOfPointsInNthMarkup j > 2 ↔
        (UpdateSlabModelNode.loop newID k w).Scene.IsLiveModel
          ((UpdateSlabModelNode.loop newID k w).SplinesNode.GetNthMarkupAssociatedNodeID j)) := by
  induction k with
  | zero => intro j hj; omega
  | succ k ih =>
    intro j hj
    have hk := loop_hygienic newID avoid k w hf hw
    by_cases hjk : j = k
    · subst hjk
      rw [UpdateSlabModelNode.loop, ← body_live_self newID avoid j _ hf hk, loop_npts]
    · have hlt : j < k := by omega
      rw [UpdateSlabModelNode.loop, body_assoc_ne _ _ _ _ hjk,
        body_live_other newID avoid k j _ hf hk hjk]
      exact ih j hlt

theorem loop_fixed (newID : vtkMRMLScene → String) (k : Nat) (w : World)
    (h : ∀ j, j < k → (w.SplinesNode.GetNumberOfPointsInNthMarkup j > 2 ↔
      w.Scene.IsLiveModel (w.SplinesNode.GetNthMarkupAssociatedNodeID j))) :
    UpdateSlabModelNode.loop newID k w = w := by
  induction k with
  | zero => rfl
  | succ k ih =>
    rw [UpdateSlabModelNode.loop, ih (fun j hj => h j (by omega))]
    exact body_keep newID k w (h k (by omega))

theorem anchored_self (s : vtkMRMLScene) (c : vtkMRMLMarkupsSplinesNode) :
    Anchored c.AssociatedNodeIDs s c := by
  intro j
  by_cases hj : j < c.GetNumberOfMarkups
  · exact Or.inr (Or.inl (assoc_mem c j hj))
  · exact Or.inl (assoc_out_of_range c j (Nat.le_of_not_lt hj))

theorem UpdateSlabModelNode_ok (newID : vtkMRMLScene → String) (self : vtkSlicerSplinesLogic)
    (scene : vtkMRMLScene) (c : vtkMRMLMarkupsSplinesNode) (hs : self.MRMLScene = some scene) :
    self.UpdateSlabModelNode newID (some c) =
      .ok ({ self with
              MRMLScene := some (UpdateSlabModelNode.loop newID c.GetNumberOfMarkups
                { Scene := scene, SplinesNode := c, Trace := self.Trace }).Scene
              Trace := (UpdateSlabModelNode.loop newID c.GetNumberOfMarkups
                { Scene := scene, SplinesNode := c, Trace := self.Trace }).Trace },
           some (UpdateSlabModelNode.loop newID c.GetNumberOfMarkups
                { Scene := scene, SplinesNode := c, Trace := self.Trace }).SplinesNode) := by
  unfold vtkSlicerSplinesLogic.UpdateSlabModelNode
  by_cases h0 : c.GetNumberOfMarkups = 0
  · simp only [h0, if_true, UpdateSlabModelNode.loop]
    cases self
    simp_all
  · simp only [h0, if_false, hs]

theorem UpdateSlabModelNode_eq_pass (newID : vtkMRMLScene → String)
    (self : vtkSlicerSplinesLogic) (scene : vtkMRMLScene) (c : vtkMRMLMarkupsSplinesNode)
    (hs : self.MRMLScene = some scene) :
    self.UpdateSlabModelNode newID (some c) =
      .ok ({ self with
              MRMLScene := some (UpdateSlabModelNode.pass newID
                { Scene := scene, SplinesNode := c, Trace := self.Trace }).Scene
              Trace := (UpdateSlabModelNode.pass newID
                { Scene := scene, SplinesNode := c, Trace := self.Trace }).Trace },
           some (UpdateSlabModelNode.pass newID
                { Scene := scene, SplinesNode := c, Trace := self.Trace }).SplinesNode) :=
  UpdateSlabModelNode_ok newID self scene c hs

/-! ### The sample identifier generator -/

theorem length_le_sum (l : List String) (x : String) (h : x ∈ l) :
    x.length ≤ (l.map String.length).sum := by
  induction l with
  | nil => cases h
  | cons y ys ih =>
    rcases List.mem_cons.1 h with rfl | h
    · simp
    · have := ih h
      simp only [List.map_cons, List.sum_cons]
      omega

theorem sampleID_length (avoid : List String) (s : vtkMRMLScene) :
    (sampleID avoid s).length
      = ((avoid ++ s.Nodes.map (fun n => n.ID)).map String.length).sum + 1 := by
  simp [sampleID, String.length]

theorem sampleID_fresh (avoid : List String) : FreshIDs (sampleID avoid) avoid := by
  intro s
  have hlen := sampleID_length avoid s
  refine ⟨?_, ?_, ?_⟩
  · intro h
    rw [h] at hlen
    simp at hlen
  · unfold vtkMRMLScene.GetNodeByID
    rw [List.find?_eq_none]
    intro n hn hid
    have hid : n.ID = sampleID avoid s := by simpa using hid
    have hmem : n.ID ∈ avoid ++ s.Nodes.map (fun n => n.ID) :=
      List.mem_append_right _ (List.mem_map_of_mem _ hn)
    have := length_le_sum _ _ hmem
    rw [hid] at this
    omega
  · intro hmem
    have := length_le_sum _ _ (List.mem_append_left (s.Nodes.map (fun n => n.ID)) hmem)
    omega

theorem distinctLive_of_bounded (s : vtkMRMLScene) (c : vtkMRMLMarkupsSplinesNode)
    (hs : s.NoEmptyID)
    (h : ∀ j, j < c.GetNumberOfMarkups → ∀ k, k < c.GetNumberOfMarkups → j ≠ k →
      s.IsLiveModel (c.GetNthMarkupAssociatedNodeID j) →
      c.GetNthMarkupAssociatedNodeID j ≠ c.GetNthMarkupAssociatedNodeID k) :
    DistinctLive s c := by
  intro j k hjk hl
  by_cases hj : j < c.GetNumberOfMarkups
  · by_cases hk : k < c.GetNumberOfMarkups
    · exact h j hj k hk hjk hl
    · rw [assoc_out_of_range c k (Nat.le_of_not_lt hk)]
      exact live_ne_empty s _ hs hl
  · rw [assoc_out_of_range c j (Nat.le_of_not_lt hj)] at hl
    exact absurd rfl (live_ne_empty s _ hs hl)

/-! ### C1: the invariant after one pass -/

/-- C1, the claim as stated fails: with the two markups of `sharedCollection`
associated with the same live Model (3 points and 2 points), one pass of
`UpdateSlabModelNode` removes the Model for the second markup, and the first
markup is left with more than 2 points and an association that no longer
resolves to a live Model. The identifier generator used is fresh for every
scene. -/
theorem UpdateSlabModelNode_invariant_fails_on_shared_model :
    FreshIDs (sampleID []) [] ∧
    ∃ self1 scene1 c1,
      logicOneModel.UpdateSlabModelNode (sampleID []) (some sharedCollection)
        = .ok (self1, some c1) ∧
      self1.MRMLScene = some scene1 ∧
      c1.GetNumberOfPointsInNthMarkup 0 > 2 ∧
      ¬ (c1.GetNthMarkupAssociatedNodeID 0 ≠ "" ∧
          scene1.IsLiveModel (c1.GetNthMarkupAssociatedNodeID 0)) :=
  ⟨sampleID_fresh [], _, _, _, rfl, rfl, by decide, by decide⟩

/-- C1 (amended): if no node of the scene has the empty identifier, no two
markups share an association that resolves to a live Model, and created
identifiers are non-empty, not in the scene and not among the associations of
the collection, then one pass of `UpdateSlabModelNode` returns normally, keeps
the markups and their point counts, and afterwards every markup index `i` has
more than 2 points if and only if its association is non-empty and resolves to
a live Model. -/
theorem UpdateSlabModelNode_establishes_invariant (newID : vtkMRMLScene → String)
    (self : vtkSlicerSplinesLogic) (scene : vtkMRMLScene) (c : vtkMRMLMarkupsSplinesNode)
    (hs : self.MRMLScene = some scene) (hne : scene.NoEmptyID)
    (hf : FreshIDs newID c.AssociatedNodeIDs) (hd : DistinctLive scene c) :
    ∃ self1 scene1 c1,
      self.UpdateSlabModelNode newID (some c) = .ok (self1, some c1) ∧
      self1.MRMLScene = some scene1 ∧
      c1.GetNumberOfMarkups = c.GetNumberOfMarkups ∧
      ∀ i, i < c1.GetNumberOfMarkups →
        c1.GetNumberOfPointsInNthMarkup i = c.GetNumberOfPointsInNthMarkup i ∧
        (c1.GetNumberOfPointsInNthMarkup i > 2 ↔
          c1.GetNthMarkupAssociatedNodeID i ≠ "" ∧
            scene1.IsLiveModel (c1.GetNthMarkupAssociatedNodeID i)) := by
  have hw : Hygienic c.AssociatedNodeIDs { Scene := scene, SplinesNode := c, Trace := self.Trace } :=
    ⟨hne, anchored_self scene c, hd⟩
  refine ⟨_, _, _, UpdateSlabModelNode_ok newID self scene c hs, rfl, loop_count _ _ _, ?_⟩
  intro i hi
  rw [loop_count] at hi
  refine ⟨loop_npts _ _ _ _, ?_⟩
  rw [loop_npts]
  have hsync := loop_sync newID _ c.GetNumberOfMarkups _ hf hw i hi
  have hfin := loop_hygienic newID _ c.GetNumberOfMarkups _ hf hw
  constructor
  · intro hp
    have hl := hsync.1 hp
    exact ⟨live_ne_empty _ _ hfin.noEmpty hl, hl⟩
  · intro h
    exact hsync.2 h.2

/-- C1 (amended), applied to `mixedCollection` over `sceneOneModel`. -/
theorem UpdateSlabModelNode_establishes_invariant_witness :
    (sceneOneModel.NoEmptyID ∧ DistinctLive sceneOneModel mixedCollection) ∧
    ∃ self1 scene1 c1,
      logicOneModel.UpdateSlabModelNode (sampleID mixedCollection.AssociatedNodeIDs)
        (some mixedCollection) = .ok (self1, some c1) ∧
      self1.MRMLScene = some scene1 ∧
      c1.GetNumberOfMarkups = mixedCollection.GetNumberOfMarkups ∧
      ∀ i, i < c1.GetNumberOfMarkups →
        c1.GetNumberOfPointsInNthMarkup i = mixedCollection.GetNumberOfPointsInNthMarkup i ∧
        (c1.GetNumberOfPointsInNthMarkup i > 2 ↔
          c1.GetNthMarkupAssociatedNodeID i ≠ "" ∧
            scene1.IsLiveModel (c1.GetNthMarkupAssociatedNodeID i)) :=
  have hne : sceneOneModel.NoEmptyID := by decide
  have hd : DistinctLive sceneOneModel mixedCollection :=
    distinctLive_of_bounded _ _ hne (by decide)
  ⟨⟨hne, hd⟩,
    UpdateSlabModelNode_establishes_invariant (sampleID mixedCollection.AssociatedNodeIDs)
      logicOneModel sceneOneModel mixedCollection rfl hne (sampleID_fresh _) hd⟩

/-! ### C2: a second pass changes nothing -/

/-- C2, the claim as stated fails: on `sharedCollection` the first pass removes
the shared Model for the second markup, so the second pass finds the first
markup (3 points) without a live Model and creates one: it issues an
`AddNewNodeByClass` call and an association write, and the state after it
differs from the state after the first pass. -/
theorem UpdateSlabModelNode_second_pass_creates_on_shared_model :
    ∃ self1 c1 self2 c2 id,
      logicOneModel.UpdateSlabModelNode (sampleID []) (some sharedCollection)
        = .ok (self1, some c1) ∧
      self1.UpdateSlabModelNode (sampleID []) (some c1) = .ok (self2, some c2) ∧
      self2.Trace = self1.Trace ++
        [Call.AddNewNodeByClass "vtkMRMLModelNode" "S_Model_0" id,
         Call.SetNthMarkupAssociatedNodeID 0 id] ∧
      (self2, c2) ≠ (self1, c1) :=
  ⟨_, _, _, _, _, rfl, rfl, rfl, by decide⟩

/-- C2 (amended): if no node of the scene has the empty identifier, no two
markups share an association that resolves to a live Model, and created
identifiers are non-empty, not in the scene and not among the associations of
the collection, then a second pass of `UpdateSlabModelNode` right after the
first returns the same logic object (same scene, same record of calls: no
creation, no removal, no association write) and the same collection. -/
theorem UpdateSlabModelNode_twice (newID : vtkMRMLScene → String)
    (self : vtkSlicerSplinesLogic) (scene : vtkMRMLScene) (c : vtkMRMLMarkupsSplinesNode)
    (hs : self.MRMLScene = some scene) (hne : scene.NoEmptyID)
    (hf : FreshIDs newID c.AssociatedNodeIDs) (hd : DistinctLive scene c) :
    ∃ self1 c1,
      self.UpdateSlabModelNode newID (some c) = .ok (self1, some c1) ∧
      self1.UpdateSlabModelNode newID (some c1) = .ok (self1, some c1) := by
  have hw : Hygienic c.AssociatedNodeIDs { Scene := scene, SplinesNode := c, Trace := self.Trace } :=
    ⟨hne, anchored_self scene c, hd⟩
  refine ⟨_, _, UpdateSlabModelNode_ok newID self scene c hs, ?_⟩
  rw [UpdateSlabModelNode_ok newID _ _ _ rfl]
  have hfix := loop_fixed newID c.GetNumberOfMarkups
    (UpdateSlabModelNode.loop newID c.GetNumberOfMarkups
      { Scene := scene, SplinesNode := c, Trace := self.Trace })
    (fun j hj => by
      rw [loop_npts]
      exact loop_sync newID _ c.GetNumberOfMarkups _ hf hw j hj)
  simp only [loop_count]
  rw [hfix]

/-- C2 (amended), applied to `mixedCollection` over `sceneOneModel`. -/
theorem UpdateSlabModelNode_twice_witness :
    (sceneOneModel.NoEmptyID ∧ DistinctLive sceneOneModel mixedCollection) ∧
    ∃ self1 c1,
      logicOneModel.UpdateSlabModelNode (sampleID mixedCollection.AssociatedNodeIDs)
        (some mixedCollection) = .ok (self1, some c1) ∧
      self1.UpdateSlabModelNode (sampleID mixedCollection.AssociatedNodeIDs) (some c1)
        = .ok (self1, some c1) :=
  have hne : sceneOneModel.NoEmptyID := by decide
  have hd : DistinctLive sceneOneModel mixedCollection :=
    distinctLive_of_bounded _ _ hne (by decide)
  ⟨⟨hne, hd⟩,
    UpdateSlabModelNode_twice (sampleID mixedCollection.AssociatedNodeIDs)
      logicOneModel sceneOneModel mixedCollection rfl hne (sampleID_fresh _) hd⟩

/-! ### Point-count edits -/

theorem assoc_setPoints (c : vtkMRMLMarkupsSplinesNode) (i j : Nat) (p : List vtkVector3d) :
    (c.SetNthMarkupPoints i p).GetNthMarkupAssociatedNodeID j
      = c.GetNthMarkupAssociatedNodeID j := by
  unfold vtkMRMLMarkupsSplinesNode.SetNthMarkupPoints
  cases hm : c.Markups[i]? with
  | none => rfl
  | some m =>
    by_cases hji : i = j
    · subst hji
      have hlt : i < c.Markups.length := by
        by_contra hge
        rw [List.getElem?_eq_none (Nat.le_of_not_lt hge)] at hm
        cases hm
      simp [vtkMRMLMarkupsSplinesNode.GetNthMarkupAssociatedNodeID, List.getElem?_set_self hlt, hm]
    · simp [vtkMRMLMarkupsSplinesNode.GetNthMarkupAssociatedNodeID, List.getElem?_set_ne hji]

theorem npts_setPoints_self (c : vtkMRMLMarkupsSplinesNode) (i : Nat) (p : List vtkVector3d)
    (h : i < c.GetNumberOfMarkups) :
    (c.SetNthMarkupPoints i p).GetNumberOfPointsInNthMarkup i = p.length := by
  unfold vtkMRMLMarkupsSplinesNode.GetNumberOfMarkups at h
  simp [vtkMRMLMarkupsSplinesNode.SetNthMarkupPoints,
    vtkMRMLMarkupsSplinesNode.GetNumberOfPointsInNthMarkup, List.getElem?_eq_getElem h,
    List.getElem?_set_self h]

theorem npts_setPoints_ne (c : vtkMRMLMarkupsSplinesNode) (i j : Nat) (p : List vtkVector3d)
    (h : j ≠ i) :
    (c.SetNthMarkupPoints i p).GetNumberOfPointsInNthMarkup j
      = c.GetNumberOfPointsInNthMarkup j := by
  unfold vtkMRMLMarkupsSplinesNode.SetNthMarkupPoints
  cases hm : c.Markups[i]? with
  | none => rfl
  | some m =>
    simp [vtkMRMLMarkupsSplinesNode.GetNumberOfPointsInNthMarkup,
      List.getElem?_set_ne (Ne.symm h)]

theorem count_setPoints (c : vtkMRMLMarkupsSplinesNode) (i : Nat) (p : List vtkVector3d) :
    (c.SetNthMarkupPoints i p).GetNumberOfMarkups = c.GetNumberOfMarkups := by
  unfold vtkMRMLMarkupsSplinesNode.SetNthMarkupPoints
  cases hm : c.Markups[i]? with
  | none => rfl
  | some m => simp [vtkMRMLMarkupsSplinesNode.GetNumberOfMarkups]

theorem name_setPoints (c : vtkMRMLMarkupsSplinesNode) (i : Nat) (p : List vtkVector3d) :
    (c.SetNthMarkupPoints i p).Name = c.Name := by
  unfold vtkMRMLMarkupsSplinesNode.SetNthMarkupPoints
  cases hm : c.Markups[i]? with
  | none => rfl
  | some m => rfl

theorem anchored_congr (avoid : List String) (s : vtkMRMLScene)
    (c d : vtkMRMLMarkupsSplinesNode)
    (h : ∀ j, d.GetNthMarkupAssociatedNodeID j = c.GetNthMarkupAssociatedNodeID j)
    (hc : Anchored avoid s c) : Anchored avoid s d := by
  intro j
  simp only [h]
  exact hc j

theorem distinctLive_congr (s : vtkMRMLScene) (c d : vtkMRMLMarkupsSplinesNode)
    (h : ∀ j, d.GetNthMarkupAssociatedNodeID j = c.GetNthMarkupAssociatedNodeID j)
    (hc : DistinctLive s c) : DistinctLive s d := by
  intro j k
  simp only [h]
  exact hc j k

theorem tidy_setPoints (avoid : List String) (w : World) (i : Nat) (p : List vtkVector3d)
    (hw : Tidy avoid w) : Tidy avoid (w.SetNthMarkupPoints i p) :=
  ⟨hw.noEmpty, anchored_congr avoid _ _ _ (fun j => assoc_setPoints _ i j p) hw.anchored⟩

theorem hygienic_setPoints (avoid : List String) (w : World) (i : Nat) (p : List vtkVector3d)
    (hw : Hygienic avoid w) : Hygienic avoid (w.SetNthMarkupPoints i p) :=
  ⟨hw.noEmpty, anchored_congr avoid _ _ _ (fun j => assoc_setPoints _ i j p) hw.anchored,
    distinctLive_congr _ _ _ (fun j => assoc_setPoints _ i j p) hw.distinct⟩

/-! ### What a pass does to one markup -/

theorem loop_tidy (newID : vtkMRMLScene → String) (avoid : List String) (k : Nat)
    (w : World) (hf : FreshIDs newID avoid) (hw : Tidy avoid w) :
    Tidy avoid (UpdateSlabModelNode.loop newID k w) := by
  induction k with
  | zero => exact hw
  | succ k ih => exact body_tidy newID avoid k _ hf ih

theorem loop_assoc_after (newID : vtkMRMLScene → String) (i k : Nat) (w : World)
    (h : i + 1 ≤ k) :
    (UpdateSlabModelNode.loop newID k w).SplinesNode.GetNthMarkupAssociatedNodeID i
      = (UpdateSlabModelNode.loop newID (i + 1) w).SplinesNode.GetNthMarkupAssociatedNodeID i := by
  induction k, h using Nat.le_induction with
  | base => rfl
  | succ k hk ih =>
    rw [UpdateSlabModelNode.loop, body_assoc_ne _ _ _ _ (by omega), ih]

theorem body_getNode_kept (newID : vtkMRMLScene → String) (avoid : List String) (j i : Nat)
    (w : World) (hw : Tidy avoid w) (hji : j ≠ i)
    (hx1 : w.SplinesNode.GetNthMarkupAssociatedNodeID i ≠ "")
    (hx2 : w.SplinesNode.GetNthMarkupAssociatedNodeID i ∉ avoid) :
    (UpdateSlabModelNode.body newID j w).Scene.GetNodeByID
        (w.SplinesNode.GetNthMarkupAssociatedNodeID i)
      = w.Scene.GetNodeByID (w.SplinesNode.GetNthMarkupAssociatedNodeID i) := by
  rcases hw.anchored i with h | h | ⟨hl, hu⟩
  · exact absurd h hx1
  · exact absurd h hx2
  · by_cases hp : w.SplinesNode.GetNumberOfPointsInNthMarkup j > 2
    · by_cases hlj : w.Scene.IsLiveModel (w.SplinesNode.GetNthMarkupAssociatedNodeID j)
      · rw [body_keep newID j w ⟨fun _ => hlj, fun _ => hp⟩]
      · rw [body_create newID j w hp hlj]
        simp only [getNode_add]
        cases hg : w.Scene.GetNodeByID (w.SplinesNode.GetNthMarkupAssociatedNodeID i) with
        | none => exact absurd hg (live_has _ _ hl)
        | some n => rfl
    · by_cases hlj : w.Scene.IsLiveModel (w.SplinesNode.GetNthMarkupAssociatedNodeID j)
      · obtain ⟨m, hm⟩ := (live_iff _ _).1 hlj
        obtain ⟨hmid, _⟩ := downcast_id _ _ _ hm
        rw [body_delete newID j w m hp hm]
        simp only [getNode_remove, hmid]
        rw [if_neg (Ne.symm (hu j hji))]
      · rw [body_keep newID j w ⟨fun h => absurd h hp, fun h => absurd h hlj⟩]

theorem loop_getNode_before (newID : vtkMRMLScene → String) (avoid : List String) (i k : Nat)
    (w : World) (hf : FreshIDs newID avoid) (hw : Tidy avoid w) (hk : k ≤ i)
    (hx1 : w.SplinesNode.GetNthMarkupAssociatedNodeID i ≠ "")
    (hx2 : w.SplinesNode.GetNthMarkupAssociatedNodeID i ∉ avoid) :
    (UpdateSlabModelNode.loop newID k w).Scene.GetNodeByID
        (w.SplinesNode.GetNthMarkupAssociatedNodeID i)
      = w.Scene.GetNodeByID (w.SplinesNode.GetNthMarkupAssociatedNodeID i) := by
  induction k with
  | zero => rfl
  | succ k ih =>
    have hka : (UpdateSlabModelNode.loop newID k w).SplinesNode.GetNthMarkupAssociatedNodeID i
        = w.SplinesNode.GetNthMarkupAssociatedNodeID i := loop_assoc_later newID k i w (by omega)
    have hstep := body_getNode_kept newID avoid k i (UpdateSlabModelNode.loop newID k w)
      (loop_tidy newID avoid k w hf hw) (by omega) (by rw [hka]; exact hx1)
      (by rw [hka]; exact hx2)
    rw [hka] at hstep
    rw [UpdateSlabModelNode.loop, hstep]
    exact ih (by omega)

theorem loop_getNode_after (newID : vtkMRMLScene → String) (avoid : List String) (i k : Nat)
    (w : World) (hf : FreshIDs newID avoid) (hw : Tidy avoid w) (hk : i + 1 ≤ k)
    (hx1 : (UpdateSlabModelNode.loop newID (i + 1) w).SplinesNode.GetNthMarkupAssociatedNodeID i
      ≠ "")
    (hx2 : (UpdateSlabModelNode.loop newID (i + 1) w).SplinesNode.GetNthMarkupAssociatedNodeID i
      ∉ avoid) :
    (UpdateSlabModelNode.loop newID k w).Scene.GetNodeByID
        ((UpdateSlabModelNode.loop newID (i + 1) w).SplinesNode.GetNthMarkupAssociatedNodeID i)
      = (UpdateSlabModelNode.loop newID (i + 1) w).Scene.GetNodeByID
        ((UpdateSlabModelNode.loop newID (i + 1) w).SplinesNode.GetNthMarkupAssociatedNodeID i) := by
  induction k, hk using Nat.le_induction with
  | base => rfl
  | succ k hk ih =>
    have hka := loop_assoc_after newID i k w hk
    have hstep := body_getNode_kept newID avoid k i (UpdateSlabModelNode.loop newID k w)
      (loop_tidy newID avoid k w hf hw) (by omega) (by rw [hka]; exact hx1)
      (by rw [hka]; exact hx2)
    rw [hka] at hstep
    rw [UpdateSlabModelNode.loop, hstep]
    exact ih

theorem callsAt_keep (newID : vtkMRMLScene → String) (i : Nat) (w : World)
    (h : (UpdateSlabModelNode.loop newID i w).SplinesNode.GetNumberOfPointsInNthMarkup i > 2 ↔
      (UpdateSlabModelNode.loop newID i w).Scene.IsLiveModel
        ((UpdateSlabModelNode.loop newID i w).SplinesNode.GetNthMarkupAssociatedNodeID i)) :
    UpdateSlabModelNode.callsAt newID i w = [] := by
  unfold UpdateSlabModelNode.callsAt
  rw [UpdateSlabModelNode.loop, body_keep newID i _ h]
  exact List.drop_length _

theorem callsAt_create (newID : vtkMRMLScene → String) (i : Nat) (w : World)
    (hp : (UpdateSlabModelNode.loop newID i w).SplinesNode.GetNumberOfPointsInNthMarkup i > 2)
    (hl : ¬ (UpdateSlabModelNode.loop newID i w).Scene.IsLiveModel
        ((UpdateSlabModelNode.loop newID i w).SplinesNode.GetNthMarkupAssociatedNodeID i)) :
    UpdateSlabModelNode.callsAt newID i w =
      [Call.AddNewNodeByClass "vtkMRMLModelNode"
          ((UpdateSlabModelNode.loop newID i w).SplinesNode.Name ++ "_Model_" ++ toString i)
          (newID (UpdateSlabModelNode.loop newID i w).Scene),
       Call.SetNthMarkupAssociatedNodeID i (newID (UpdateSlabModelNode.loop newID i w).Scene)] := by
  unfold UpdateSlabModelNode.callsAt
  rw [UpdateSlabModelNode.loop, body_create newID i _ hp hl]
  exact List.drop_left _ _

theorem callsAt_delete (newID : vtkMRMLScene → String) (i : Nat) (w : World) (m : SceneNode)
    (hp : ¬ (UpdateSlabModelNode.loop newID i w).SplinesNode.GetNumberOfPointsInNthMarkup i > 2)
    (hm : vtkMRMLModelNode.SafeDownCast ((UpdateSlabModelNode.loop newID i w).Scene.GetNodeByID
        ((UpdateSlabModelNode.loop newID i w).SplinesNode.GetNthMarkupAssociatedNodeID i))
      = some m) :
    UpdateSlabModelNode.callsAt newID i w =
      [Call.RemoveNode m.ID, Call.SetNthMarkupAssociatedNodeID i ""] := by
  unfold UpdateSlabModelNode.callsAt
  rw [UpdateSlabModelNode.loop, body_delete newID i _ m hp hm]
  exact List.drop_left _ _

theorem pass_tidy (newID : vtkMRMLScene → String) (avoid : List String)
    (w : World) (hf : FreshIDs newID avoid) (hw : Tidy avoid w) :
    Tidy avoid (UpdateSlabModelNode.pass newID w) :=
  loop_tidy newID avoid _ w hf hw

theorem pass_hygienic (newID : vtkMRMLScene → String) (avoid : List String)
    (w : World) (hf : FreshIDs newID avoid) (hw : Hygienic avoid w) :
    Hygienic avoid (UpdateSlabModelNode.pass newID w) :=
  loop_hygienic newID avoid _ w hf hw

theorem pass_count (newID : vtkMRMLScene → String) (w : World) :
    (UpdateSlabModelNode.pass newID w).SplinesNode.GetNumberOfMarkups
      = w.SplinesNode.GetNumberOfMarkups :=
  loop_count newID _ w

theorem pass_name (newID : vtkMRMLScene → String) (w : World) :
    (UpdateSlabModelNode.pass newID w).SplinesNode.Name = w.SplinesNode.Name :=
  loop_name newID _ w

theorem pass_npts (newID : vtkMRMLScene → String) (w : World) (j : Nat) :
    (UpdateSlabModelNode.pass newID w).SplinesNode.GetNumberOfPointsInNthMarkup j
      = w.SplinesNode.GetNumberOfPointsInNthMarkup j :=
  loop_npts newID _ j w

theorem pass_assoc (newID : vtkMRMLScene → String) (w : World) (i : Nat)
    (hi : i < w.SplinesNode.GetNumberOfMarkups) :
    (UpdateSlabModelNode.pass newID w).SplinesNode.GetNthMarkupAssociatedNodeID i
      = (UpdateSlabModelNode.loop newID (i + 1) w).SplinesNode.GetNthMarkupAssociatedNodeID i :=
  loop_assoc_after newID i _ w hi

theorem npts_pos_lt (c : vtkMRMLMarkupsSplinesNode) (i : Nat)
    (h : 0 < c.GetNumberOfPointsInNthMarkup i) : i < c.GetNumberOfMarkups := by
  by_contra hge
  unfold vtkMRMLMarkupsSplinesNode.GetNumberOfMarkups at hge
  simp [vtkMRMLMarkupsSplinesNode.GetNumberOfPointsInNthMarkup,
    List.getElem?_eq_none (Nat.le_of_not_lt hge)] at h

theorem stage_idle (newID : vtkMRMLScene → String) (avoid : List String) (w : World) (i : Nat)
    (hf : FreshIDs newID avoid) (hw : Tidy avoid w)
    (hp : ¬ w.SplinesNode.GetNumberOfPointsInNthMarkup i > 2)
    (ha : w.SplinesNode.GetNthMarkupAssociatedNodeID i = "") :
    UpdateSlabModelNode.callsAt newID i w = [] ∧
    (UpdateSlabModelNode.pass newID w).SplinesNode.GetNthMarkupAssociatedNodeID i = "" := by
  have hti := loop_tidy newID avoid i w hf hw
  have hai := loop_assoc_later newID i i w (Nat.le_refl i)
  have hiff : (UpdateSlabModelNode.loop newID i w).SplinesNode.GetNumberOfPointsInNthMarkup i > 2 ↔
      (UpdateSlabModelNode.loop newID i w).Scene.IsLiveModel
        ((UpdateSlabModelNode.loop newID i w).SplinesNode.GetNthMarkupAssociatedNodeID i) := by
    rw [loop_npts, hai, ha]
    exact ⟨fun h => absurd h hp, fun h => absurd rfl (live_ne_empty _ _ hti.noEmpty h)⟩
  refine ⟨callsAt_keep newID i w hiff, ?_⟩
  by_cases hi : i < w.SplinesNode.GetNumberOfMarkups
  · rw [pass_assoc newID w i hi, UpdateSlabModelNode.loop, body_keep newID i _ hiff, hai, ha]
  · exact assoc_out_of_range _ i (by rw [pass_count]; exact Nat.le_of_not_lt hi)

theorem stage_create (newID : vtkMRMLScene → String) (avoid : List String) (w : World) (i : Nat)
    (hf : FreshIDs newID avoid) (hw : Tidy avoid w)
    (hp : w.SplinesNode.GetNumberOfPointsInNthMarkup i > 2)
    (ha : w.SplinesNode.GetNthMarkupAssociatedNodeID i = "") :
    UpdateSlabModelNode.callsAt newID i w =
      [Call.AddNewNodeByClass "vtkMRMLModelNode"
          (w.SplinesNode.Name ++ "_Model_" ++ toString i)
          (newID (UpdateSlabModelNode.loop newID i w).Scene),
       Call.SetNthMarkupAssociatedNodeID i (newID (UpdateSlabModelNode.loop newID i w).Scene)] ∧
    (UpdateSlabModelNode.pass newID w).SplinesNode.GetNthMarkupAssociatedNodeID i
      = newID (UpdateSlabModelNode.loop newID i w).Scene ∧
    (UpdateSlabModelNode.pass newID w).Scene.GetNodeByID
        (newID (UpdateSlabModelNode.loop newID i w).Scene)
      = some { ID := newID (UpdateSlabModelNode.loop newID i w).Scene
               ClassName := "vtkMRMLModelNode"
               Name := w.SplinesNode.Name ++ "_Model_" ++ toString i
               PolyData := none } := by
  have hti := loop_tidy newID avoid i w hf hw
  have hai := loop_assoc_later newID i i w (Nat.le_refl i)
  obtain ⟨hne, hnone, havoid⟩ := hf (UpdateSlabModelNode.loop newID i w).Scene
  have hpi : (UpdateSlabModelNode.loop newID i w).SplinesNode.GetNumberOfPointsInNthMarkup i > 2 := by
    rw [loop_npts]; exact hp
  have hli : ¬ (UpdateSlabModelNode.loop newID i w).Scene.IsLiveModel
      ((UpdateSlabModelNode.loop newID i w).SplinesNode.GetNthMarkupAssociatedNodeID i) := by
    rw [hai, ha]
    exact fun h => absurd rfl (live_ne_empty _ _ hti.noEmpty h)
  have hi : i < w.SplinesNode.GetNumberOfMarkups := npts_lt _ _ hp
  have hstep : (UpdateSlabModelNode.loop newID (i + 1) w).SplinesNode.GetNthMarkupAssociatedNodeID i
      = newID (UpdateSlabModelNode.loop newID i w).Scene := by
    rw [UpdateSlabModelNode.loop, body_create newID i _ hpi hli]
    exact assoc_set_self _ _ _ (npts_lt _ _ hpi)
  have hnode : (UpdateSlabModelNode.loop newID (i + 1) w).Scene.GetNodeByID
      (newID (UpdateSlabModelNode.loop newID i w).Scene)
      = some { ID := newID (UpdateSlabModelNode.loop newID i w).Scene
               ClassName := "vtkMRMLModelNode"
               Name := w.SplinesNode.Name ++ "_Model_" ++ toString i
               PolyData := none } := by
    rw [UpdateSlabModelNode.loop, body_create newID i _ hpi hli]
    simp only [getNode_add, hnone, loop_name]
    simp [vtkMRMLScene.AddNewNodeByClass]
  refine ⟨?_, ?_, ?_⟩
  · rw [callsAt_create newID i w hpi hli, loop_name]
  · rw [pass_assoc newID w i hi, hstep]
  · have hafter := loop_getNode_after newID avoid i w.SplinesNode.GetNumberOfMarkups w hf hw hi
      (by rw [hstep]; exact hne) (by rw [hstep]; exact havoid)
    rw [hstep] at hafter
    unfold UpdateSlabModelNode.pass
    rw [hafter, hnode]

theorem stage_delete (newID : vtkMRMLScene → String) (avoid : List String) (w : World) (i : Nat)
    (m : SceneNode) (hf : FreshIDs newID avoid) (hw : Tidy avoid w)
    (hp : ¬ w.SplinesNode.GetNumberOfPointsInNthMarkup i > 2)
    (hx1 : w.SplinesNode.GetNthMarkupAssociatedNodeID i ≠ "")
    (hx2 : w.SplinesNode.GetNthMarkupAssociatedNodeID i ∉ avoid)
    (hm : w.Scene.GetNodeByID (w.SplinesNode.GetNthMarkupAssociatedNodeID i) = some m)
    (hcls : m.ClassName = "vtkMRMLModelNode") :
    UpdateSlabModelNode.callsAt newID i w =
      [Call.RemoveNode (w.SplinesNode.GetNthMarkupAssociatedNodeID i),
       Call.SetNthMarkupAssociatedNodeID i ""] ∧
    (UpdateSlabModelNode.pass newID w).SplinesNode.GetNthMarkupAssociatedNodeID i = "" ∧
    (UpdateSlabModelNode.loop newID (i + 1) w).Scene.GetNodeByID
      (w.SplinesNode.GetNthMarkupAssociatedNodeID i) = none := by
  have hai := loop_assoc_later newID i i w (Nat.le_refl i)
  have hbefore := loop_getNode_before newID avoid i i w hf hw (Nat.le_refl i) hx1 hx2
  have hpi : ¬ (UpdateSlabModelNode.loop newID i w).SplinesNode.GetNumberOfPointsInNthMarkup i > 2 := by
    rw [loop_npts]; exact hp
  have hmi : vtkMRMLModelNode.SafeDownCast ((UpdateSlabModelNode.loop newID i w).Scene.GetNodeByID
      ((UpdateSlabModelNode.loop newID i w).SplinesNode.GetNthMarkupAssociatedNodeID i))
      = some m := by
    rw [hai, hbefore, hm]
    simp [vtkMRMLModelNode.SafeDownCast, hcls]
  have hmid : m.ID = w.SplinesNode.GetNthMarkupAssociatedNodeID i := getNode_id _ _ _ hm
  refine ⟨?_, ?_, ?_⟩
  · rw [callsAt_delete newID i w m hpi hmi, hmid]
  · by_cases hi : i < w.SplinesNode.GetNumberOfMarkups
    · rw [pass_assoc newID w i hi, UpdateSlabModelNode.loop, body_delete newID i _ m hpi hmi]
      exact assoc_set_empty _ _
    · exact assoc_out_of_range _ i (by rw [pass_count]; exact Nat.le_of_not_lt hi)
  · rw [UpdateSlabModelNode.loop, body_delete newID i _ m hpi hmi]
    simp only [getNode_remove, hmid, if_true]

/-! ### C3: the transition scenario -/

/-- C3 (amended): in a scene without empty identifiers, and with created identifiers that
are non-empty, new to the scene and not among the associations of the
collection, take a markup `i` with 2 points and an empty association.
(1) In a pass, the iteration for `i` issues no call and the association stays
empty. (2) Once the markup has 3 points, the iteration for `i` of the next pass
issues exactly one `AddNewNodeByClass` call, for a `vtkMRMLModelNode` named
collection name, then `_Model_`, then the decimal index, followed by the write
of the new identifier `id` into association `i`; after the pass association
`i` is `id` and the scene resolves `id` to that Model. (3) Once the markup has
1 point, the iteration for `i` of the next pass issues `RemoveNode` for `id`
followed by the write of the empty string into association `i`; the scene no
longer resolves `id` after that iteration and association `i` is empty after
the pass. -/
theorem UpdateSlabModelNode_transition_scenario (newID : vtkMRMLScene → String) (w : World)
    (i : Nat) (p3 p1 : List vtkVector3d)
    (hne : w.Scene.NoEmptyID) (hf : FreshIDs newID w.SplinesNode.AssociatedNodeIDs)
    (h2 : w.SplinesNode.GetNumberOfPointsInNthMarkup i = 2)
    (ha : w.SplinesNode.GetNthMarkupAssociatedNodeID i = "")
    (h3 : p3.length = 3) (h1 : p1.length = 1) :
    ∃ id : String, id ≠ "" ∧
      let w1 := UpdateSlabModelNode.pass newID w
      let e2 := w1.SetNthMarkupPoints i p3
      let w2 := UpdateSlabModelNode.pass newID e2
      let e3 := w2.SetNthMarkupPoints i p1
      let w3 := UpdateSlabModelNode.pass newID e3
      (UpdateSlabModelNode.callsAt newID i w = [] ∧
        w1.SplinesNode.GetNthMarkupAssociatedNodeID i = "") ∧
      (UpdateSlabModelNode.callsAt newID i e2 =
          [Call.AddNewNodeByClass "vtkMRMLModelNode"
              (w.SplinesNode.Name ++ "_Model_" ++ toString i) id,
           Call.SetNthMarkupAssociatedNodeID i id] ∧
        w2.SplinesNode.GetNthMarkupAssociatedNodeID i = id ∧
        w2.Scene.GetNodeByID id =
          some { ID := id, ClassName := "vtkMRMLModelNode"
                 Name := w.SplinesNode.Name ++ "_Model_" ++ toString i, PolyData := none }) ∧
      (UpdateSlabModelNode.callsAt newID i e3 =
          [Call.RemoveNode id, Call.SetNthMarkupAssociatedNodeID i ""] ∧
        (UpdateSlabModelNode.loop newID (i + 1) e3).Scene.GetNodeByID id = none ∧
        w3.SplinesNode.GetNthMarkupAssociatedNodeID i = "") := by
  have hw : Tidy w.SplinesNode.AssociatedNodeIDs w := ⟨hne, anchored_self _ _⟩
  have hi : i < w.SplinesNode.GetNumberOfMarkups := npts_pos_lt _ _ (by omega)
  -- first pass
  have s1 := stage_idle newID _ w i hf hw (by omega) ha
  have hw1 := pass_tidy newID _ w hf hw
  -- the markup gets its third point
  have he2 := tidy_setPoints _ (UpdateSlabModelNode.pass newID w) i p3 hw1
  have hi1 : i < (UpdateSlabModelNode.pass newID w).SplinesNode.GetNumberOfMarkups := by
    rw [pass_count]; exact hi
  have hp2 : ((UpdateSlabModelNode.pass newID w).SetNthMarkupPoints i p3).SplinesNode.GetNumberOfPointsInNthMarkup i > 2 := by
    show ((UpdateSlabModelNode.pass newID w).SplinesNode.SetNthMarkupPoints i p3).GetNumberOfPointsInNthMarkup i > 2
    rw [npts_setPoints_self _ _ _ hi1]; omega
  have ha2 : ((UpdateSlabModelNode.pass newID w).SetNthMarkupPoints i p3).SplinesNode.GetNthMarkupAssociatedNodeID i = "" := by
    show ((UpdateSlabModelNode.pass newID w).SplinesNode.SetNthMarkupPoints i p3).GetNthMarkupAssociatedNodeID i = ""
    rw [assoc_setPoints]; exact s1.2
  have hn2 : ((UpdateSlabModelNode.pass newID w).SetNthMarkupPoints i p3).SplinesNode.Name
      = w.SplinesNode.Name := by
    show ((UpdateSlabModelNode.pass newID w).SplinesNode.SetNthMarkupPoints i p3).Name = _
    rw [name_setPoints, pass_name]
  have s2 := stage_create newID _ _ i hf he2 hp2 ha2
  rw [hn2] at s2
  obtain ⟨hidne, _, hidavoid⟩ := hf (UpdateSlabModelNode.loop newID i
    ((UpdateSlabModelNode.pass newID w).SetNthMarkupPoints i p3)).Scene
  have hw2 := pass_tidy newID _ _ hf he2
  -- the markup drops to one point
  have he3 := tidy_setPoints _ (UpdateSlabModelNode.pass newID
    ((UpdateSlabModelNode.pass newID w).SetNthMarkupPoints i p3)) i p1 hw2
  have hi2 : i < (UpdateSlabModelNode.pass newID
      ((UpdateSlabModelNode.pass newID w).SetNthMarkupPoints i p3)).SplinesNode.GetNumberOfMarkups := by
    rw [pass_count]
    show i < ((UpdateSlabModelNode.pass newID w).SplinesNode.SetNthMarkupPoints i p3).GetNumberOfMarkups
    rw [count_setPoints]; exact hi1
  have ha3 : ((UpdateSlabModelNode.pass newID
      ((UpdateSlabModelNode.pass newID w).SetNthMarkupPoints i p3)).SetNthMarkupPoints i p1).SplinesNode.GetNthMarkupAssociatedNodeID i
      = newID (UpdateSlabModelNode.loop newID i
          ((UpdateSlabModelNode.pass newID w).SetNthMarkupPoints i p3)).Scene := by
    show ((UpdateSlabModelNode.pass newID
      ((UpdateSlabModelNode.pass newID w).SetNthMarkupPoints i p3)).SplinesNode.SetNthMarkupPoints i p1).GetNthMarkupAssociatedNodeID i = _
    rw [assoc_setPoints]; exact s2.2.1
  have hp3 : ¬ ((UpdateSlabModelNode.pass newID
      ((UpdateSlabModelNode.pass newID w).SetNthMarkupPoints i p3)).SetNthMarkupPoints i p1).SplinesNode.GetNumberOfPointsInNthMarkup i > 2 := by
    show ¬ ((UpdateSlabModelNode.pass newID
      ((UpdateSlabModelNode.pass newID w).SetNthMarkupPoints i p3)).SplinesNode.SetNthMarkupPoints i p1).GetNumberOfPointsInNthMarkup i > 2
    rw [npts_setPoints_self _ _ _ hi2]; omega
  have s3 := stage_delete newID _ _ i _ hf he3 hp3 (by rw [ha3]; exact hidne)
    (by rw [ha3]; exact hidavoid) (by rw [ha3]; exact s2.2.2) rfl
  rw [ha3] at s3
  exact ⟨_, hidne, s1, s2, s3.1, s3.2.2, s3.2.1⟩

/-- C3 (amended), applied to the markup at index 1 of `scenarioWorld`, which gets
`threePoints` and then `onePoint`. -/
theorem UpdateSlabModelNode_transition_scenario_witness :
    (scenarioWorld.Scene.NoEmptyID ∧
      scenarioWorld.SplinesNode.GetNumberOfPointsInNthMarkup 1 = 2 ∧
      scenarioWorld.SplinesNode.GetNthMarkupAssociatedNodeID 1 = "") ∧
    ∃ id : String, id ≠ "" ∧
      let newID := sampleID scenarioWorld.SplinesNode.AssociatedNodeIDs
      let w1 := UpdateSlabModelNode.pass newID scenarioWorld
      let e2 := w1.SetNthMarkupPoints 1 threePoints
      let w2 := UpdateSlabModelNode.pass newID e2
      let e3 := w2.SetNthMarkupPoints 1 onePoint
      let w3 := UpdateSlabModelNode.pass newID e3
      (UpdateSlabModelNode.callsAt newID 1 scenarioWorld = [] ∧
        w1.SplinesNode.GetNthMarkupAssociatedNodeID 1 = "") ∧
      (UpdateSlabModelNode.callsAt newID 1 e2 =
          [Call.AddNewNodeByClass "vtkMRMLModelNode"
              (scenarioWorld.SplinesNode.Name ++ "_Model_" ++ toString 1) id,
           Call.SetNthMarkupAssociatedNodeID 1 id] ∧
        w2.SplinesNode.GetNthMarkupAssociatedNodeID 1 = id ∧
        w2.Scene.GetNodeByID id =
          some { ID := id, ClassName := "vtkMRMLModelNode"
                 Name := scenarioWorld.SplinesNode.Name ++ "_Model_" ++ toString 1
                 PolyData := none }) ∧
      (UpdateSlabModelNode.callsAt newID 1 e3 =
          [Call.RemoveNode id, Call.SetNthMarkupAssociatedNodeID 1 ""] ∧
        (UpdateSlabModelNode.loop newID (1 + 1) e3).Scene.GetNodeByID id = none ∧
        w3.SplinesNode.GetNthMarkupAssociatedNodeID 1 = "") :=
  ⟨⟨by decide, by decide, by decide⟩,
    UpdateSlabModelNode_transition_scenario (sampleID scenarioWorld.SplinesNode.AssociatedNodeIDs)
      scenarioWorld 1 threePoints onePoint (by decide) (sampleID_fresh _) (by decide)
      (by decide) (by decide) (by decide)⟩

/-! ### The slab mesh builder -/

theorem pointsLoop_length (topHalf bottomHalf : vtkPolyData) (k : Nat) :
    (CreateModelFromContour.pointsLoop topHalf bottomHalf k).length = 2 * k := by
  induction k with
  | zero => rfl
  | succ k ih =>
    simp only [CreateModelFromContour.pointsLoop, List.length_append, ih, List.length_cons,
      List.length_nil]
    omega

theorem cellsLoop_length (numberOfPoints : Nat) (fuel i : Nat)
    (h : (numberOfPoints - 1 - i) / 2 ≤ fuel) :
    (CreateModelFromContour.cellsLoop numberOfPoints fuel i).length
      = 2 * ((numberOfPoints - 1 - i) / 2) := by
  induction fuel generalizing i with
  | zero =>
    have h0 : (numberOfPoints - 1 - i) / 2 = 0 := by omega
    simp [CreateModelFromContour.cellsLoop, h0]
  | succ fuel ih =>
    unfold CreateModelFromContour.cellsLoop
    by_cases hc : (i : Int) < (numberOfPoints : Int) - 2
    · rw [if_pos hc]
      simp only [List.length_cons]
      rw [ih (i + 2) (by omega)]
      omega
    · rw [if_neg hc]
      have h0 : (numberOfPoints - 1 - i) / 2 = 0 := by omega
      simp [h0]

theorem beltSurface_polys_length (topHalf bottomHalf : vtkPolyData) :
    (CreateModelFromContour.beltSurface topHalf bottomHalf).Polys.length
      = 2 * (topHalf.GetNumberOfPoints - 1) := by
  unfold CreateModelFromContour.beltSurface
  simp only [pointsLoop_length]
  rw [cellsLoop_length _ _ _ (by omega)]
  omega

theorem append3_polys_length (a b c : vtkPolyData) :
    (vtkAppendPolyData [a, b, c]).Polys.length
      = a.Polys.length + b.Polys.length + c.Polys.length := by
  simp [vtkAppendPolyData, Nat.add_assoc]

theorem translate_polys (t : vtkVector3d) (input : vtkPolyData) (ps : List vtkVector3d)
    (h : input.Points = some ps) :
    (vtkTransformPolyDataFilter.Translate t input).Polys = input.Polys ∧
    (vtkTransformPolyDataFilter.Translate t input).GetNumberOfPoints = ps.length := by
  simp [vtkTransformPolyDataFilter.Translate, h, vtkPolyData.GetNumberOfPoints]

/-! ### C5: the triangle count of the assembled mesh -/

/-- C5, the claim as stated fails: for the contour `threePoints`, whose cap (one
triangle) has 3 boundary points, the mesh assembled before cleaning has 6
triangles, not 1 + 1 + 2 × 3. -/
theorem appended_triangle_count_not_two_per_boundary_point :
    (fanTriangulator (contourOf threePoints)).GetNumberOfPoints = 3 ∧
    (fanTriangulator (contourOf threePoints)).Polys.length = 1 ∧
    (CreateModelFromContour.appended fanTriangulator (contourOf threePoints) ⟨0, 0, 1⟩ 1).Polys.length
      = 6 ∧
    (CreateModelFromContour.appended fanTriangulator (contourOf threePoints) ⟨0, 0, 1⟩ 1).Polys.length
      ≠ (fanTriangulator (contourOf threePoints)).Polys.length
        + (fanTriangulator (contourOf threePoints)).Polys.length
        + 2 * (fanTriangulator (contourOf threePoints)).GetNumberOfPoints := by
  decide

/-- C5 (amended): for every contour whose cap has the points `ps` (n of them),
the mesh assembled by `CreateModelFromContour` before cleaning has triangle
count = top-cap triangles + bottom-cap triangles + 2 × (n − 1): the belt
contributes two triangles for each of the n − 1 pairs of consecutive boundary
points (none when n = 0). -/
theorem appended_triangle_count (contourTriangulator : vtkPolyData → vtkPolyData)
    (inputContour : vtkPolyData) (normal : vtkVector3d) (thickness : ℚ)
    (ps : List vtkVector3d) (h : (contourTriangulator inputContour).Points = some ps) :
    (CreateModelFromContour.appended contourTriangulator inputContour normal thickness).Polys.length
      = (contourTriangulator inputContour).Polys.length
        + (contourTriangulator inputContour).Polys.length
        + 2 * (ps.length - 1) := by
  unfold CreateModelFromContour.appended
  simp only [append3_polys_length, beltSurface_polys_length,
    (translate_polys _ _ ps h).1, (translate_polys _ _ ps h).2]
  omega

/-- C5 (amended), applied to the contour `threePoints`: 1 + 1 + 2 × 2
triangles. -/
theorem appended_triangle_count_witness :
    (fanTriangulator (contourOf threePoints)).Points = some threePoints ∧
    (CreateModelFromContour.appended fanTriangulator (contourOf threePoints) ⟨0, 0, 1⟩ 1).Polys.length
      = (fanTriangulator (contourOf threePoints)).Polys.length
        + (fanTriangulator (contourOf threePoints)).Polys.length
        + 2 * (threePoints.length - 1) :=
  ⟨rfl, appended_triangle_count fanTriangulator (contourOf threePoints) ⟨0, 0, 1⟩ 1 threePoints rfl⟩

/-! ### C6: when the builder returns nothing -/

/-- C6: `CreateModelFromContour` is a total function (it raises no error); it
returns null exactly when the contour is null, has no point array, or has fewer
than 3 points, and it returns a mesh for every contour with 3 or more
points. -/
theorem CreateModelFromContour_null_iff
    (contourTriangulator cleanFilter : vtkPolyData → vtkPolyData)
    (inputContour : Option vtkPolyData) (normal : vtkVector3d) (thickness : ℚ) :
    (vtkSlicerSplinesLogic.CreateModelFromContour contourTriangulator cleanFilter
        inputContour normal thickness = none ↔
      (inputContour = none ∨
        ∃ contour, inputContour = some contour ∧
          (contour.Points = none ∨ contour.GetNumberOfPoints < 3))) ∧
    (∀ contour points, inputContour = some contour ∧ contour.Points = some points ∧
        3 ≤ points.length →
      ∃ mesh, vtkSlicerSplinesLogic.CreateModelFromContour contourTriangulator cleanFilter
        inputContour normal thickness = some mesh) := by
  constructor
  · cases inputContour with
    | none => simp [vtkSlicerSplinesLogic.CreateModelFromContour]
    | some contour =>
      cases hp : contour.Points with
      | none => simp [vtkSlicerSplinesLogic.CreateModelFromContour, hp]
      | some points =>
        by_cases hlt : points.length < 3
        · simp [vtkSlicerSplinesLogic.CreateModelFromContour, hp, hlt,
            vtkPolyData.GetNumberOfPoints]
        · simp [vtkSlicerSplinesLogic.CreateModelFromContour, hp, hlt,
            vtkPolyData.GetNumberOfPoints]
  · rintro contour points ⟨rfl, hp, hge⟩
    have hlt : ¬ points.length < 3 := by omega
    exact ⟨cleanFilter
      (CreateModelFromContour.appended contourTriangulator contour normal thickness),
      by simp [vtkSlicerSplinesLogic.CreateModelFromContour, hp, hlt]⟩

/-! ### C7: what a created Model holds -/

theorem body_nodes (newID : vtkMRMLScene → String) (i : Nat) (w : World) :
    ∀ n ∈ (UpdateSlabModelNode.body newID i w).Scene.Nodes,
      n ∈ w.Scene.Nodes ∨ (n.ClassName = "vtkMRMLModelNode" ∧ n.PolyData = none) := by
  intro n hn
  unfold UpdateSlabModelNode.body at hn
  simp only at hn
  split at hn
  · simp only [vtkMRMLScene.AddNewNodeByClass, List.mem_append, List.mem_singleton] at hn
    rcases hn with h | h
    · exact Or.inl h
    · subst h
      exact Or.inr ⟨rfl, rfl⟩
  · simp only [vtkMRMLScene.RemoveNode, List.mem_filter] at hn
    exact Or.inl hn.1
  · exact Or.inl hn

theorem loop_nodes (newID : vtkMRMLScene → String) (k : Nat) (w : World) :
    ∀ n ∈ (UpdateSlabModelNode.loop newID k w).Scene.Nodes,
      n ∈ w.Scene.Nodes ∨ (n.ClassName = "vtkMRMLModelNode" ∧ n.PolyData = none) := by
  induction k with
  | zero => exact fun n hn => Or.inl hn
  | succ k ih =>
    intro n hn
    rcases body_nodes newID k _ n hn with h | h
    · exact ih n h
    · exact Or.inr h

/-- C7, the claim as stated fails: a pass over `oneMarkupCollection` (one markup
of three points, no association) decides CREATE and adds the Model
`S_Model_0`, but the Model carries no mesh, whereas the builder returns a mesh
for the contour of these three points. -/
theorem UpdateSlabModelNode_created_model_is_not_the_slab :
    ∃ self1 c1 scene1 node,
      logicOneModel.UpdateSlabModelNode (sampleID []) (some oneMarkupCollection)
        = .ok (self1, some c1) ∧
      self1.MRMLScene = some scene1 ∧
      scene1.GetNodeByID (c1.GetNthMarkupAssociatedNodeID 0) = some node ∧
      node.Name = "S_Model_0" ∧
      node.PolyData = none ∧
      node.PolyData ≠ vtkSlicerSplinesLogic.CreateModelFromContour fanTriangulator
        mergeCoincidentPoints (some (contourOf threePoints)) ⟨0, 0, 1⟩ 1 :=
  ⟨_, _, _, _, rfl, rfl, rfl, by decide, rfl, by decide⟩

/-! ### C8: cleanup when a collection is removed -/

theorem removed_body_node (i : Nat) (w : World) :
    (OnMRMLSceneNodeRemoved.body i w).SplinesNode = w.SplinesNode := by
  unfold OnMRMLSceneNodeRemoved.body
  simp only
  split <;> rfl

theorem removed_loop_node (k : Nat) (w : World) :
    (OnMRMLSceneNodeRemoved.loop k w).SplinesNode = w.SplinesNode := by
  induction k with
  | zero => rfl
  | succ k ih => rw [OnMRMLSceneNodeRemoved.loop, removed_body_node, ih]

theorem removed_body_live (i : Nat) (w : World) (x : String) :
    (OnMRMLSceneNodeRemoved.body i w).Scene.IsLiveModel x ↔
      (w.Scene.IsLiveModel x ∧ w.SplinesNode.GetNthMarkupAssociatedNodeID i ≠ x) := by
  unfold OnMRMLSceneNodeRemoved.body
  simp only
  cases hd : vtkMRMLModelNode.SafeDownCast
      (w.Scene.GetNodeByID (w.SplinesNode.GetNthMarkupAssociatedNodeID i)) with
  | none =>
    simp only
    constructor
    · intro h
      refine ⟨h, ?_⟩
      intro heq
      subst heq
      simp [vtkMRMLScene.IsLiveModel, hd] at h
    · exact fun h => h.1
  | some m =>
    obtain ⟨hmid, _⟩ := downcast_id _ _ _ hd
    simp only [live_remove, hmid]
    constructor
    · exact fun h => ⟨h.2, Ne.symm h.1⟩
    · exact fun h => ⟨Ne.symm h.2, h.1⟩

theorem removed_loop_live (k : Nat) (w : World) (x : String) :
    (OnMRMLSceneNodeRemoved.loop k w).Scene.IsLiveModel x ↔
      (w.Scene.IsLiveModel x ∧ ∀ j, j < k → w.SplinesNode.GetNthMarkupAssociatedNodeID j ≠ x) := by
  induction k with
  | zero => simp [OnMRMLSceneNodeRemoved.loop]
  | succ k ih =>
    rw [OnMRMLSceneNodeRemoved.loop, removed_body_live, removed_loop_node, ih]
    constructor
    · rintro ⟨⟨hl, hall⟩, hk⟩
      refine ⟨hl, fun j hj => ?_⟩
      by_cases hjk : j = k
      · subst hjk; exact hk
      · exact hall j (by omega)
    · rintro ⟨hl, hall⟩
      exact ⟨⟨hl, fun j hj => hall j (by omega)⟩, hall k (by omega)⟩

theorem removed_body_trace (i : Nat) (w : World) :
    (OnMRMLSceneNodeRemoved.body i w).Trace =
      w.Trace ++ (if w.Scene.IsLiveModel (w.SplinesNode.GetNthMarkupAssociatedNodeID i)
        then [Call.RemoveNode (w.SplinesNode.GetNthMarkupAssociatedNodeID i)] else []) := by
  unfold OnMRMLSceneNodeRemoved.body
  simp only
  cases hd : vtkMRMLModelNode.SafeDownCast
      (w.Scene.GetNodeByID (w.SplinesNode.GetNthMarkupAssociatedNodeID i)) with
  | none => simp [vtkMRMLScene.IsLiveModel, hd]
  | some m =>
    obtain ⟨hmid, _⟩ := downcast_id _ _ _ hd
    simp [vtkMRMLScene.IsLiveModel, hd, hmid]

theorem removed_loop_trace (k : Nat) (w : World)
    (hk : k ≤ w.SplinesNode.GetNumberOfMarkups)
    (hlive : ∀ j, j < w.SplinesNode.GetNumberOfMarkups →
      (w.Scene.IsLiveModel (w.SplinesNode.GetNthMarkupAssociatedNodeID j) ↔
        w.SplinesNode.GetNthMarkupAssociatedNodeID j ≠ ""))
    (hdist : ∀ j, j < w.SplinesNode.GetNumberOfMarkups →
      ∀ l, l < w.SplinesNode.GetNumberOfMarkups → j ≠ l →
      w.SplinesNode.GetNthMarkupAssociatedNodeID j ≠ "" →
      w.SplinesNode.GetNthMarkupAssociatedNodeID j ≠ w.SplinesNode.GetNthMarkupAssociatedNodeID l) :
    (OnMRMLSceneNodeRemoved.loop k w).Trace =
      w.Trace ++ ((List.range k).filter
          (fun j => decide (w.SplinesNode.GetNthMarkupAssociatedNodeID j ≠ ""))).map
        (fun j => Call.RemoveNode (w.SplinesNode.GetNthMarkupAssociatedNodeID j)) := by
  induction k with
  | zero => simp [OnMRMLSceneNodeRemoved.loop]
  | succ k ih =>
    rw [OnMRMLSceneNodeRemoved.loop, removed_body_trace, removed_loop_node, ih (by omega),
      List.range_succ, List.filter_append, List.map_append, List.append_assoc]
    congr 1
    congr 1
    by_cases hne : w.SplinesNode.GetNthMarkupAssociatedNodeID k = ""
    · have hnl : ¬ (OnMRMLSceneNodeRemoved.loop k w).Scene.IsLiveModel
          (w.SplinesNode.GetNthMarkupAssociatedNodeID k) := by
        rw [removed_loop_live]
        intro h
        exact ((hlive k (by omega)).1 h.1) hne
      rw [if_neg hnl]
      simp [hne]
    · have hl : (OnMRMLSceneNodeRemoved.loop k w).Scene.IsLiveModel
          (w.SplinesNode.GetNthMarkupAssociatedNodeID k) := by
        rw [removed_loop_live]
        refine ⟨(hlive k (by omega)).2 hne, fun j hj => ?_⟩
        exact Ne.symm (hdist k (by omega) j (by omega) (by omega) hne)
      rw [if_pos hl]
      simp [hne]

/-- C8, the claim as stated fails: `mixedCollection` has two markups with a
non-empty association, but only one of the two associations resolves to a live
Model of `sceneOneModel`, and `OnMRMLSceneNodeRemoved` issues a single
`RemoveNode` call. -/
theorem OnMRMLSceneNodeRemoved_fewer_calls_than_associations :
    mixedCollection.AssociatedIndices.length = 2 ∧
    ∃ self1 node1,
      logicOneModel.OnMRMLSceneNodeRemoved (some (vtkMRMLNode.Splines mixedCollection))
        = .ok (self1, node1) ∧
      self1.Trace = [Call.RemoveNode "vtkMRMLModelNode1"] :=
  ⟨by decide, _, _, rfl, rfl⟩

/-- C8 (amended): when the scene has no node with the empty identifier, every
non-empty association of the removed collection resolves to a live Model and
no two markups share a non-empty association, `OnMRMLSceneNodeRemoved` issues
exactly one `RemoveNode` call per markup with a non-empty association, in index
order and for that association (k calls for k associated markups), and nothing
else; afterwards no association of the removed collection resolves to a live
Model. -/
theorem OnMRMLSceneNodeRemoved_cleanup (self : vtkSlicerSplinesLogic) (scene : vtkMRMLScene)
    (c : vtkMRMLMarkupsSplinesNode) (hs : self.MRMLScene = some scene)
    (hne : scene.NoEmptyID)
    (hlive : ∀ j, j < c.GetNumberOfMarkups → c.GetNthMarkupAssociatedNodeID j ≠ "" →
      scene.IsLiveModel (c.GetNthMarkupAssociatedNodeID j))
    (hdist : ∀ j, j < c.GetNumberOfMarkups → ∀ l, l < c.GetNumberOfMarkups → j ≠ l →
      c.GetNthMarkupAssociatedNodeID j ≠ "" →
      c.GetNthMarkupAssociatedNodeID j ≠ c.GetNthMarkupAssociatedNodeID l) :
    ∃ self1 scene1,
      self.OnMRMLSceneNodeRemoved (some (vtkMRMLNode.Splines c))
        = .ok (self1, some (vtkMRMLNode.Splines c)) ∧
      self1.MRMLScene = some scene1 ∧
      self1.Trace = self.Trace ++
        c.AssociatedIndices.map (fun j => Call.RemoveNode (c.GetNthMarkupAssociatedNodeID j)) ∧
      (self1.Trace.drop self.Trace.length).length = c.AssociatedIndices.length ∧
      ∀ j, ¬ scene1.IsLiveModel (c.GetNthMarkupAssociatedNodeID j) := by
  have htrace := removed_loop_trace c.GetNumberOfMarkups
    { Scene := scene, SplinesNode := c, Trace := self.Trace } (Nat.le_refl _)
    (fun j hj => ⟨fun h => live_ne_empty _ _ hne h, fun h => hlive j hj h⟩) hdist
  have hdead : ∀ j, ¬ (OnMRMLSceneNodeRemoved.loop c.GetNumberOfMarkups
      { Scene := scene, SplinesNode := c, Trace := self.Trace }).Scene.IsLiveModel
        (c.GetNthMarkupAssociatedNodeID j) := by
    intro j h
    rw [removed_loop_live] at h
    by_cases hj : j < c.GetNumberOfMarkups
    · exact h.2 j hj rfl
    · rw [assoc_out_of_range c j (Nat.le_of_not_lt hj)] at h
      exact live_ne_empty _ _ hne h.1 rfl
  by_cases h0 : c.GetNumberOfMarkups = 0
  · refine ⟨{ self with Observations := self.Observations.filter (fun o => o != c.ID) }, scene,
      ?_, hs, ?_, ?_, ?_⟩
    · simp [vtkSlicerSplinesLogic.OnMRMLSceneNodeRemoved,
        vtkMRMLMarkupsSplinesNode.SafeDownCast, h0]
    · simp [vtkMRMLMarkupsSplinesNode.AssociatedIndices, h0]
    · simp [vtkMRMLMarkupsSplinesNode.AssociatedIndices, h0]
    · intro j h
      rw [assoc_out_of_range c j (by omega)] at h
      exact live_ne_empty _ _ hne h rfl
  · refine ⟨⟨some (OnMRMLSceneNodeRemoved.loop c.GetNumberOfMarkups
          { Scene := scene, SplinesNode := c, Trace := self.Trace }).Scene,
        self.Observations.filter (fun o => o != c.ID),
        (OnMRMLSceneNodeRemoved.loop c.GetNumberOfMarkups
          { Scene := scene, SplinesNode := c, Trace := self.Trace }).Trace⟩, _, ?_, rfl, ?_, ?_, ?_⟩
    · simp only [vtkSlicerSplinesLogic.OnMRMLSceneNodeRemoved,
        vtkMRMLMarkupsSplinesNode.SafeDownCast, h0, if_false, hs, removed_loop_node]
    · exact htrace
    · simp only [htrace, List.drop_left, List.length_map,
        vtkMRMLMarkupsSplinesNode.AssociatedIndices]
    · exact hdead

/-- C8 (amended), applied to `syncedCollection` over `sceneTwoModels`: two
associated markups, two `RemoveNode` calls. -/
theorem OnMRMLSceneNodeRemoved_cleanup_witness :
    syncedCollection.AssociatedIndices.length = 2 ∧
    ∃ self1 scene1,
      logicTwoModels.OnMRMLSceneNodeRemoved (some (vtkMRMLNode.Splines syncedCollection))
        = .ok (self1, some (vtkMRMLNode.Splines syncedCollection)) ∧
      self1.MRMLScene = some scene1 ∧
      self1.Trace = logicTwoModels.Trace ++
        syncedCollection.AssociatedIndices.map
          (fun j => Call.RemoveNode (syncedCollection.GetNthMarkupAssociatedNodeID j)) ∧
      (self1.Trace.drop logicTwoModels.Trace.length).length
        = syncedCollection.AssociatedIndices.length ∧
      ∀ j, ¬ scene1.IsLiveModel (syncedCollection.GetNthMarkupAssociatedNodeID j) :=
  ⟨by decide,
    OnMRMLSceneNodeRemoved_cleanup logicTwoModels sceneTwoModels syncedCollection rfl
      (by decide) (by decide) (by decide)⟩

/-! ### C10: events that arrive while the scene pointer is null -/

theorem UpdateSlabModelNode_null_scene (newID : vtkMRMLScene → String)
    (self : vtkSlicerSplinesLogic) (c : vtkMRMLMarkupsSplinesNode)
    (hs : self.MRMLScene = none) (hc : c.GetNumberOfMarkups ≠ 0) :
    self.UpdateSlabModelNode newID (some c) = .error Fault.NullPointerDereference := by
  simp [vtkSlicerSplinesLogic.UpdateSlabModelNode, hs, hc]

/-- C10, evaluation at the failing input: with a null scene pointer and the
recognized collection `oneMarkupCollection` (one markup), both
`OnMRMLNodeModified` and `OnMRMLSceneNodeRemoved` call `GetNodeByID` through
the null pointer in the first iteration of their loop: they do not return
normally. -/
theorem handlers_dereference_null_scene :
    logicNoScene.MRMLScene = none ∧
    oneMarkupCollection.GetNumberOfMarkups = 1 ∧
    logicNoScene.OnMRMLNodeModified (sampleID [])
        (some (vtkMRMLNode.Splines oneMarkupCollection))
      = .error Fault.NullPointerDereference ∧
    logicNoScene.OnMRMLSceneNodeRemoved (some (vtkMRMLNode.Splines oneMarkupCollection))
      = .error Fault.NullPointerDereference :=
  ⟨rfl, rfl, rfl, rfl⟩

/-! ### C9: no leaked and no duplicated Models -/

theorem createdIDs_append (a b : List Call) :
    createdIDs (a ++ b) = createdIDs a ++ createdIDs b := by
  simp [createdIDs, List.filterMap_append]

theorem body_created (newID : vtkMRMLScene → String) (i : Nat) (w : World)
    (h : CreatedAreAssociated w) :
    CreatedAreAssociated (UpdateSlabModelNode.body newID i w) := by
  by_cases hp : w.SplinesNode.GetNumberOfPointsInNthMarkup i > 2
  · by_cases hl : w.Scene.IsLiveModel (w.SplinesNode.GetNthMarkupAssociatedNodeID i)
    · rw [body_keep newID i w ⟨fun _ => hl, fun _ => hp⟩]
      exact h
    · rw [body_create newID i w hp hl]
      intro id hid hlive
      simp only at hid hlive ⊢
      by_cases hnew : id = newID w.Scene
      · exact ⟨i, by rw [assoc_set_self _ _ _ (npts_lt _ _ hp), hnew]⟩
      · rw [createdIDs_append] at hid
        have hold : id ∈ createdIDs w.Trace := by
          rcases List.mem_append.1 hid with h1 | h1
          · exact h1
          · simp [createdIDs] at h1
            exact absurd h1 hnew
        have hlold := (live_add_old _ _ _ _ _ hnew).1 hlive
        obtain ⟨j, hj⟩ := h id hold hlold
        have hji : j ≠ i := by
          intro heq
          subst heq
          exact hl (hj ▸ hlold)
        exact ⟨j, by rw [assoc_set_ne _ _ _ _ hji, hj]⟩
  · by_cases hl : w.Scene.IsLiveModel (w.SplinesNode.GetNthMarkupAssociatedNodeID i)
    · obtain ⟨m, hm⟩ := (live_iff _ _).1 hl
      obtain ⟨hmid, _⟩ := downcast_id _ _ _ hm
      rw [body_delete newID i w m hp hm]
      intro id hid hlive
      simp only at hid hlive ⊢
      rw [createdIDs_append] at hid
      have hold : id ∈ createdIDs w.Trace := by
        rcases List.mem_append.1 hid with h1 | h1
        · exact h1
        · simp [createdIDs] at h1
      obtain ⟨hne, hlold⟩ := (live_remove _ _ _).1 hlive
      obtain ⟨j, hj⟩ := h id hold hlold
      have hji : j ≠ i := by
        intro heq
        subst heq
        exact hne (by rw [hmid, hj])
      exact ⟨j, by rw [assoc_set_ne _ _ _ _ hji, hj]⟩
    · rw [body_keep newID i w ⟨fun h => absurd h hp, fun h => absurd h hl⟩]
      exact h

theorem loop_created (newID : vtkMRMLScene → String) (k : Nat) (w : World)
    (h : CreatedAreAssociated w) :
    CreatedAreAssociated (UpdateSlabModelNode.loop newID k w) := by
  induction k with
  | zero => exact h
  | succ k ih => exact body_created newID k _ ih

theorem setPoints_created (w : World) (i : Nat) (p : List vtkVector3d)
    (h : CreatedAreAssociated w) : CreatedAreAssociated (w.SetNthMarkupPoints i p) := by
  intro id hid hlive
  obtain ⟨j, hj⟩ := h id hid hlive
  exact ⟨j, by
    show (w.SplinesNode.SetNthMarkupPoints i p).GetNthMarkupAssociatedNodeID j = id
    rw [assoc_setPoints, hj]⟩

theorem pass_eligible (newID : vtkMRMLScene → String) (avoid : List String) (w : World)
    (hf : FreshIDs newID avoid) (hw : Hygienic avoid w) :
    LiveAreEligible (UpdateSlabModelNode.pass newID w) := by
  intro j hl
  rw [pass_npts]
  by_cases hj : j < w.SplinesNode.GetNumberOfMarkups
  · exact (loop_sync newID avoid _ w hf hw j hj).2 hl
  · rw [assoc_out_of_range _ j (by rw [pass_count]; exact Nat.le_of_not_lt hj)] at hl
    exact absurd rfl (live_ne_empty _ _ (pass_hygienic newID avoid w hf hw).noEmpty hl)

theorem editAndReconcile_invariants (newID : vtkMRMLScene → String) (avoid : List String)
    (edits : List (Nat × List vtkVector3d)) (w : World) (hf : FreshIDs newID avoid)
    (hw : Hygienic avoid w) (hc : CreatedAreAssociated w) (he : LiveAreEligible w) :
    Hygienic avoid (editAndReconcile newID w edits) ∧
    CreatedAreAssociated (editAndReconcile newID w edits) ∧
    LiveAreEligible (editAndReconcile newID w edits) := by
  induction edits generalizing w with
  | nil => exact ⟨hw, hc, he⟩
  | cons e es ih =>
    have hw1 := hygienic_setPoints avoid w e.1 e.2 hw
    exact ih _ (pass_hygienic newID avoid _ hf hw1)
      (loop_created newID _ _ (setPoints_created w e.1 e.2 hc))
      (pass_eligible newID avoid _ hf hw1)

/-- C9: start from a state in which every association is empty, no Model
created by the controller is live, and the scene has no node with the empty
identifier; let created identifiers be non-empty and new to the scene. After
any sequence of point-count edits, each followed by a pass of the reconcile
loop, no two markup indices share a non-empty association, and every live
Model created by the controller is the association of exactly one markup,
which has more than 2 points. -/
theorem editAndReconcile_no_leak_no_duplicate (newID : vtkMRMLScene → String) (w : World)
    (edits : List (Nat × List vtkVector3d))
    (hf : FreshIDs newID []) (hne : w.Scene.NoEmptyID)
    (hempty : ∀ j, w.SplinesNode.GetNthMarkupAssociatedNodeID j = "")
    (hnone : ∀ id ∈ createdIDs w.Trace, ¬ w.Scene.IsLiveModel id) :
    (∀ j k, j ≠ k →
      (editAndReconcile newID w edits).SplinesNode.GetNthMarkupAssociatedNodeID j ≠ "" →
      (editAndReconcile newID w edits).SplinesNode.GetNthMarkupAssociatedNodeID j
        ≠ (editAndReconcile newID w edits).SplinesNode.GetNthMarkupAssociatedNodeID k) ∧
    (∀ id ∈ createdIDs (editAndReconcile newID w edits).Trace,
      (editAndReconcile newID w edits).Scene.IsLiveModel id →
      ∃ j, (editAndReconcile newID w edits).SplinesNode.GetNthMarkupAssociatedNodeID j = id ∧
        (editAndReconcile newID w edits).SplinesNode.GetNumberOfPointsInNthMarkup j > 2 ∧
        ∀ k, (editAndReconcile newID w edits).SplinesNode.GetNthMarkupAssociatedNodeID k = id →
          k = j) := by
  have hnl : ∀ j, ¬ w.Scene.IsLiveModel (w.SplinesNode.GetNthMarkupAssociatedNodeID j) := by
    intro j h
    rw [hempty j] at h
    exact live_ne_empty _ _ hne h rfl
  have hw : Hygienic [] w :=
    ⟨hne, fun j => Or.inl (hempty j), fun j k _ h => absurd h (hnl j)⟩
  obtain ⟨hfin, hcre, helig⟩ := editAndReconcile_invariants newID [] edits w hf hw
    (fun id hid hl => absurd hl (hnone id hid)) (fun j h => absurd h (hnl j))
  constructor
  · intro j k hjk hj
    rcases hfin.anchored j with h | h | ⟨_, hu⟩
    · exact absurd h hj
    · cases h
    · exact Ne.symm (hu k (Ne.symm hjk))
  · intro id hid hl
    obtain ⟨j, hj⟩ := hcre id hid hl
    refine ⟨j, hj, helig j (hj ▸ hl), ?_⟩
    intro k hk
    by_contra hkj
    rcases hfin.anchored j with h | h | ⟨_, hu⟩
    · exact live_ne_empty _ _ hfin.noEmpty hl (hj ▸ h)
    · cases h
    · exact hu k hkj (by rw [hk, hj])

theorem assoc_all_empty_of_bounded (c : vtkMRMLMarkupsSplinesNode)
    (h : ∀ j, j < c.GetNumberOfMarkups → c.GetNthMarkupAssociatedNodeID j = "") :
    ∀ j, c.GetNthMarkupAssociatedNodeID j = "" := by
  intro j
  by_cases hj : j < c.GetNumberOfMarkups
  · exact h j hj
  · exact assoc_out_of_range c j (Nat.le_of_not_lt hj)

/-- C9, applied to the session `sessionEdits` started in `sessionStart`. -/
theorem editAndReconcile_no_leak_no_duplicate_witness :
    sessionStart.Scene.NoEmptyID ∧
    (∀ j k, j ≠ k →
      (editAndReconcile (sampleID []) sessionStart sessionEdits).SplinesNode.GetNthMarkupAssociatedNodeID j
        ≠ "" →
      (editAndReconcile (sampleID []) sessionStart sessionEdits).SplinesNode.GetNthMarkupAssociatedNodeID j
        ≠ (editAndReconcile (sampleID []) sessionStart
            sessionEdits).SplinesNode.GetNthMarkupAssociatedNodeID k) ∧
    (∀ id ∈ createdIDs (editAndReconcile (sampleID []) sessionStart sessionEdits).Trace,
      (editAndReconcile (sampleID []) sessionStart sessionEdits).Scene.IsLiveModel id →
      ∃ j, (editAndReconcile (sampleID []) sessionStart
              sessionEdits).SplinesNode.GetNthMarkupAssociatedNodeID j = id ∧
        (editAndReconcile (sampleID []) sessionStart
              sessionEdits).SplinesNode.GetNumberOfPointsInNthMarkup j > 2 ∧
        ∀ k, (editAndReconcile (sampleID []) sessionStart
              sessionEdits).SplinesNode.GetNthMarkupAssociatedNodeID k = id → k = j) :=
  ⟨by decide,
    editAndReconcile_no_leak_no_duplicate (sampleID []) sessionStart sessionEdits
      (sampleID_fresh []) (by decide)
      (assoc_all_empty_of_bounded _ (by decide))
      (fun id hid => by simp [sessionStart, createdIDs] at hid)⟩

/-! ### C4: closedness of the slab -/

/-- C4, the claim as stated fails: for the contour `threePoints` (three distinct
points, the last one joined to the first only implicitly) the builder returns a
mesh of 6 triangles in which the edge between the bottom copies of the last and
the first contour point lies on one triangle only, so the mesh is not
closed. -/
theorem CreateModelFromContour_three_points_not_closed :
    ∃ mesh,
      vtkSlicerSplinesLogic.CreateModelFromContour fanTriangulator mergeCoincidentPoints
        (some (contourOf threePoints)) ⟨0, 0, 1⟩ 1 = some mesh ∧
      mesh.Polys = [[0, 1, 2], [3, 0, 4], [0, 1, 4], [4, 1, 5], [1, 2, 5], [3, 4, 5]] ∧
      mesh.edgeUse 2 0 = 1 ∧
      ¬ mesh.IsClosed := by
  refine ⟨_, rfl, ?_, ?_, ?_⟩ <;> decide!

/-! ### Edges shared between cells -/

theorem cellEdges_map {α β : Type} (f : α → β) (cell : List α) :
    cellEdges (cell.map f) = (cellEdges cell).map (Prod.map f f) := by
  unfold cellEdges
  rw [← List.map_rotate, List.zip_map]

theorem cellEdges_mem {α : Type} (cell : List α) (a b : α) (h : (a, b) ∈ cellEdges cell) :
    a ∈ cell ∧ b ∈ cell := by
  unfold cellEdges at h
  have := List.of_mem_zip h
  exact ⟨this.1, List.mem_rotate.1 this.2⟩

theorem cellEdges_three {α : Type} (x y z : α) :
    cellEdges [x, y, z] = [(x, y), (y, z), (z, x)] := by
  rfl

theorem mem_cellEdges_map_iff {α β : Type} (f : α → β) (S : α → Prop)
    (hf : ∀ x y, S x → S y → f x = f y → x = y) (cell : List α)
    (hc : ∀ x ∈ cell, S x) (a b : α) (ha : S a) (hb : S b) :
    (f a, f b) ∈ cellEdges (cell.map f) ↔ (a, b) ∈ cellEdges cell := by
  rw [cellEdges_map, List.mem_map]
  constructor
  · rintro ⟨⟨x, y⟩, hxy, heq⟩
    simp only [Prod.map_apply, Prod.mk.injEq] at heq
    have hm := cellEdges_mem cell x y hxy
    have hx := hf x a (hc x hm.1) ha heq.1
    have hy := hf y b (hc y hm.2) hb heq.2
    subst hx; subst hy
    exact hxy
  · intro h
    exact ⟨(a, b), h, rfl⟩

theorem edgeUse_map {α β : Type} [DecidableEq α] [DecidableEq β] (f : α → β) (S : α → Prop)
    (hf : ∀ x y, S x → S y → f x = f y → x = y) (cells : List (List α))
    (hc : ∀ cell ∈ cells, ∀ x ∈ cell, S x) (a b : α) (ha : S a) (hb : S b) :
    edgeUse (cells.map (List.map f)) (f a) (f b) = edgeUse cells a b := by
  unfold edgeUse
  rw [List.filter_map, List.length_map]
  congr 1
  apply List.filter_congr
  intro cell hcell
  simp only [Function.comp, mem_cellEdges_map_iff f S hf cell (hc cell hcell) a b ha hb,
    mem_cellEdges_map_iff f S hf cell (hc cell hcell) b a hb ha]

theorem edgeUse_append {α : Type} [DecidableEq α] (xs ys : List (List α)) (a b : α) :
    edgeUse (xs ++ ys) a b = edgeUse xs a b + edgeUse ys a b := by
  simp [edgeUse, List.filter_append]

theorem edgeUse_symm {α : Type} [DecidableEq α] (cells : List (List α)) (a b : α) :
    edgeUse cells a b = edgeUse cells b a := by
  unfold edgeUse
  congr 1
  apply List.filter_congr
  intro cell _
  simp only [Or.comm]

theorem edgeUse_eq_zero {α : Type} [DecidableEq α] (cells : List (List α)) (a b : α)
    (h : ∀ cell ∈ cells, a ∉ cell ∨ b ∉ cell) : edgeUse cells a b = 0 := by
  unfold edgeUse
  rw [List.length_eq_zero, List.filter_eq_nil_iff]
  intro cell hcell
  simp only [decide_eq_true_eq]
  rintro (hm | hm)
  · have := cellEdges_mem cell a b hm
    rcases h cell hcell with h1 | h1
    · exact h1 this.1
    · exact h1 this.2
  · have := cellEdges_mem cell b a hm
    rcases h cell hcell with h1 | h1
    · exact h1 this.2
    · exact h1 this.1

theorem closedCells_map {α β : Type} [DecidableEq α] [DecidableEq β] (f : α → β)
    (S : α → Prop) (hf : ∀ x y, S x → S y → f x = f y → x = y) (cells : List (List α))
    (hc : ∀ cell ∈ cells, ∀ x ∈ cell, S x) (h : ClosedCells cells) :
    ClosedCells (cells.map (List.map f)) := by
  intro cell hcell e he
  obtain ⟨c0, hc0, rfl⟩ := List.mem_map.1 hcell
  rw [cellEdges_map] at he
  obtain ⟨⟨x, y⟩, hxy, rfl⟩ := List.mem_map.1 he
  have hm := cellEdges_mem c0 x y hxy
  simp only [Prod.map_apply]
  rw [edgeUse_map f S hf cells hc x y (hc c0 hc0 x hm.1) (hc c0 hc0 y hm.2)]
  exact h c0 hc0 (x, y) hxy

theorem filter_nodup_map {α β : Type} [DecidableEq α] [DecidableEq β] (f : α → β)
    (S : α → Prop) (hf : ∀ x y, S x → S y → f x = f y → x = y) (cells : List (List α))
    (hc : ∀ cell ∈ cells, ∀ x ∈ cell, S x) :
    (cells.map (List.map f)).filter (fun cell => decide cell.Nodup)
      = (cells.filter (fun cell => decide cell.Nodup)).map (List.map f) := by
  rw [List.filter_map]
  congr 1
  apply List.filter_congr
  intro cell hcell
  simp only [Function.comp, decide_eq_decide]
  constructor
  · exact fun h => List.Nodup.of_map f h
  · exact fun h => List.Nodup.map_on
      (fun x hx y hy hxy => hf x y (hc cell hcell x hx) (hc cell hcell y hy) hxy) h


theorem filter_range_unique (m k0 : Nat) (p : Nat → Bool) (hk : k0 < m)
    (h : ∀ k, k < m → (p k = true ↔ k = k0)) : ((List.range m).filter p).length = 1 := by
  have hcongr : (List.range m).filter p = (List.range m).filter (fun k => k == k0) := by
    apply List.filter_congr
    intro k hk'
    have := h k (List.mem_range.1 hk')
    cases hp : p k
    · have hne : ¬ k = k0 := fun e => by rw [this.2 e] at hp; cases hp
      simp [hne]
    · simp [this.1 hp]
  have hcount : List.count k0 (List.range m) = 1 :=
    List.count_eq_one_of_mem (List.nodup_range m) (List.mem_range.2 hk)
  rw [hcongr, ← List.countP_eq_length_filter]
  exact hcount

theorem filter_range_none (m : Nat) (p : Nat → Bool)
    (h : ∀ k, k < m → p k = false) : ((List.range m).filter p).length = 0 := by
  rw [List.length_eq_zero, List.filter_eq_nil_iff]
  intro k hk
  simp [h k (List.mem_range.1 hk)]

theorem edgeUse_flatMap_pair {α : Type} [DecidableEq α] (l : List Nat) (c1 c2 : Nat → List α)
    (a b : α) (p1 p2 : Nat → Bool)
    (h1 : ∀ k ∈ l, (p1 k = true ↔ ((a, b) ∈ cellEdges (c1 k) ∨ (b, a) ∈ cellEdges (c1 k))))
    (h2 : ∀ k ∈ l, (p2 k = true ↔ ((a, b) ∈ cellEdges (c2 k) ∨ (b, a) ∈ cellEdges (c2 k)))) :
    edgeUse (l.flatMap (fun k => [c1 k, c2 k])) a b
      = (l.filter p1).length + (l.filter p2).length := by
  induction l with
  | nil => rfl
  | cons k ks ih =>
    rw [List.flatMap_cons, edgeUse_append,
      ih (fun j hj => h1 j (List.mem_cons_of_mem _ hj)) (fun j hj => h2 j (List.mem_cons_of_mem _ hj))]
    have e1 := h1 k (List.mem_cons_self _ _)
    have e2 := h2 k (List.mem_cons_self _ _)
    simp only [edgeUse, List.filter_cons]
    cases hp1 : p1 k <;> cases hp2 : p2 k <;> simp [hp1, hp2] at e1 e2 <;>
      simp [e1, e2] <;> omega


theorem nextAround_lt (m k : Nat) (hk : k < m) : nextAround m k < m := by
  unfold nextAround; split <;> omega

theorem mem_beltLabels (m : Nat) (cell : List (Bool × Nat)) (h : cell ∈ beltLabels m) :
    ∃ k, k < m ∧ (cell = [(true, k), (false, k), (true, nextAround m k)] ∨
      cell = [(false, k), (false, nextAround m k), (true, nextAround m k)]) := by
  unfold beltLabels at h
  rw [List.mem_flatMap] at h
  obtain ⟨k, hk, hc⟩ := h
  refine ⟨k, List.mem_range.1 hk, ?_⟩
  simpa [beltQuad] using hc

theorem edgeUse_belt_rung (m j : Nat) (hm : 3 ≤ m) (hj : j < m) :
    edgeUse (beltLabels m) (true, j) (false, j) = 2 := by
  have hprev : (if j = 0 then m - 1 else j - 1) < m := by split <;> omega
  have := edgeUse_flatMap_pair (List.range m)
    (fun k => [(true, k), (false, k), (true, nextAround m k)])
    (fun k => [(false, k), (false, nextAround m k), (true, nextAround m k)])
    (true, j) (false, j) (fun k => decide (k = j)) (fun k => decide (nextAround m k = j))
    (by intro k _; simp [cellEdges_three]; omega)
    (by intro k _; simp [cellEdges_three]; omega)
  unfold beltLabels beltQuad
  rw [this, filter_range_unique m j _ hj (by intro k _; simp),
    filter_range_unique m (if j = 0 then m - 1 else j - 1) _ hprev
      (by intro k hk; simp only [decide_eq_true_eq, nextAround]; split_ifs <;> omega)]

theorem edgeUse_belt_diag (m j : Nat) (hm : 3 ≤ m) (hj : j < m) :
    edgeUse (beltLabels m) (false, j) (true, nextAround m j) = 2 := by
  have := edgeUse_flatMap_pair (List.range m)
    (fun k => [(true, k), (false, k), (true, nextAround m k)])
    (fun k => [(false, k), (false, nextAround m k), (true, nextAround m k)])
    (false, j) (true, nextAround m j) (fun k => decide (k = j)) (fun k => decide (k = j))
    (by
      intro k hk
      have hk := List.mem_range.1 hk
      simp only [cellEdges_three, decide_eq_true_eq, List.mem_cons, Prod.mk.injEq,
        List.mem_singleton, List.not_mem_nil, or_false, nextAround]
      simp only [Bool.false_eq_true, Bool.true_eq_false, false_and, and_false, true_and,
        and_true, false_or, or_false]
      split_ifs <;> omega)
    (by
      intro k hk
      have hk := List.mem_range.1 hk
      simp only [cellEdges_three, decide_eq_true_eq, List.mem_cons, Prod.mk.injEq,
        List.mem_singleton, List.not_mem_nil, or_false, nextAround]
      simp only [Bool.false_eq_true, Bool.true_eq_false, false_and, and_false, true_and,
        and_true, false_or, or_false]
      split_ifs <;> simp <;> omega)
  unfold beltLabels beltQuad
  rw [this, filter_range_unique m j _ hj (by intro k _; simp)]


theorem boundary_count (m x y : Nat) (hm : 3 ≤ m) (hx : x < m) (hy : y < m) :
    ((List.range m).filter (fun k => decide
        ((x = nextAround m k ∧ y = k) ∨ (y = nextAround m k ∧ x = k)))).length
      = if y = nextAround m x ∨ x = nextAround m y then 1 else 0 := by
  by_cases h1 : x = nextAround m y
  · rw [if_pos (Or.inr h1)]
    apply filter_range_unique m y _ hy
    intro k hk
    simp only [decide_eq_true_eq]
    simp only [nextAround] at h1 ⊢
    split_ifs at h1 ⊢ <;> omega
  · by_cases h2 : y = nextAround m x
    · rw [if_pos (Or.inl h2)]
      apply filter_range_unique m x _ hx
      intro k hk
      simp only [decide_eq_true_eq]
      simp only [nextAround] at h1 h2 ⊢
      split_ifs at h1 h2 ⊢ <;> omega
    · rw [if_neg (by rintro (h | h); exact h2 h; exact h1 h)]
      apply filter_range_none
      intro k hk
      simp only [decide_eq_false_iff_not]
      rintro (⟨ha, hb⟩ | ⟨ha, hb⟩)
      · subst hb; exact h1 ha
      · subst hb; exact h2 ha

theorem edgeUse_belt_pure (m : Nat) (t : Bool) (x y : Nat) (hm : 3 ≤ m) (hx : x < m)
    (hy : y < m) :
    edgeUse (beltLabels m) (t, x) (t, y)
      = if y = nextAround m x ∨ x = nextAround m y then 1 else 0 := by
  rw [← boundary_count m x y hm hx hy]
  unfold beltLabels beltQuad
  cases t
  · rw [edgeUse_flatMap_pair (List.range m)
      (fun k => [(true, k), (false, k), (true, nextAround m k)])
      (fun k => [(false, k), (false, nextAround m k), (true, nextAround m k)])
      (false, x) (false, y) (fun _ => false)
      (fun k => decide ((x = nextAround m k ∧ y = k) ∨ (y = nextAround m k ∧ x = k)))
      (by intro k _; simp [cellEdges_three])
      (by
        intro k _
        simp only [cellEdges_three, decide_eq_true_eq, List.mem_cons, Prod.mk.injEq,
          List.mem_singleton, List.not_mem_nil, or_false]
        simp only [Bool.false_eq_true, Bool.true_eq_false, false_and, and_false, true_and,
          and_true, false_or, or_false]
        constructor
        · rintro (⟨ha, hb⟩ | ⟨ha, hb⟩)
          · exact Or.inr ⟨hb, ha⟩
          · exact Or.inl ⟨hb, ha⟩
        · rintro (⟨ha, hb⟩ | ⟨ha, hb⟩)
          · exact Or.inr ⟨hb, ha⟩
          · exact Or.inl ⟨hb, ha⟩)]
    simp
  · rw [edgeUse_flatMap_pair (List.range m)
      (fun k => [(true, k), (false, k), (true, nextAround m k)])
      (fun k => [(false, k), (false, nextAround m k), (true, nextAround m k)])
      (true, x) (true, y)
      (fun k => decide ((x = nextAround m k ∧ y = k) ∨ (y = nextAround m k ∧ x = k)))
      (fun _ => false)
      (by
        intro k _
        simp only [cellEdges_three, decide_eq_true_eq, List.mem_cons, Prod.mk.injEq,
          List.mem_singleton, List.not_mem_nil, or_false]
        simp only [Bool.false_eq_true, Bool.true_eq_false, false_and, and_false, true_and,
          and_true, false_or, or_false])
      (by intro k _; simp [cellEdges_three])]
    simp


theorem edgeUse_tag_same (cap : List (List Nat)) (t : Bool) (x y : Nat) :
    edgeUse (cap.map (List.map (Prod.mk t))) (t, x) (t, y) = edgeUse cap x y :=
  edgeUse_map (Prod.mk t) (fun _ => True) (fun _ _ _ _ h => (Prod.mk.injEq _ _ _ _ ▸ h).2)
    cap (fun _ _ _ _ => trivial) x y trivial trivial

theorem edgeUse_tag_other (cap : List (List Nat)) (t t1 t2 : Bool) (x y : Nat)
    (h : t1 ≠ t ∨ t2 ≠ t) :
    edgeUse (cap.map (List.map (Prod.mk t))) (t1, x) (t2, y) = 0 := by
  apply edgeUse_eq_zero
  intro cell hcell
  obtain ⟨c0, _, rfl⟩ := List.mem_map.1 hcell
  rcases h with h | h
  · left
    intro hm
    obtain ⟨z, _, hz⟩ := List.mem_map.1 hm
    exact h (Prod.mk.injEq _ _ _ _ ▸ hz).1.symm
  · right
    intro hm
    obtain ⟨z, _, hz⟩ := List.mem_map.1 hm
    exact h (Prod.mk.injEq _ _ _ _ ▸ hz).1.symm

theorem edgeUse_slab_pure (m : Nat) (cap : List (List Nat)) (t : Bool) (x y : Nat)
    (hm : 3 ≤ m) (hx : x < m) (hy : y < m) :
    edgeUse (slabLabels m cap) (t, x) (t, y)
      = edgeUse cap x y + if y = nextAround m x ∨ x = nextAround m y then 1 else 0 := by
  unfold slabLabels
  rw [edgeUse_append, edgeUse_append, edgeUse_belt_pure m t x y hm hx hy]
  cases t
  · rw [edgeUse_tag_same, edgeUse_tag_other cap true false false x y (Or.inl (by decide))]
    omega
  · rw [edgeUse_tag_same, edgeUse_tag_other cap false true true x y (Or.inl (by decide))]
    omega

theorem edgeUse_slab_mixed (m : Nat) (cap : List (List Nat)) (x y : Nat) :
    edgeUse (slabLabels m cap) (true, x) (false, y)
      = edgeUse (beltLabels m) (true, x) (false, y) := by
  unfold slabLabels
  rw [edgeUse_append, edgeUse_append,
    edgeUse_tag_other cap false true false x y (Or.inl (by decide)),
    edgeUse_tag_other cap true true false x y (Or.inr (by decide))]
  omega

theorem edgeUse_slab_boundary (m : Nat) (cap : List (List Nat)) (t : Bool) (k : Nat)
    (hm : 3 ≤ m) (hcap : CapOfLoop m cap) (hk : k < m) :
    edgeUse (slabLabels m cap) (t, k) (t, nextAround m k) = 2 := by
  rw [edgeUse_slab_pure m cap t k _ hm hk (nextAround_lt m k hk), hcap.boundary k hk,
    if_pos (Or.inl rfl)]

theorem slabLabels_closed (m : Nat) (cap : List (List Nat)) (hm : 3 ≤ m)
    (hcap : CapOfLoop m cap) : ClosedCells (slabLabels m cap) := by
  have hpure : ∀ (t : Bool) (c0 : List Nat), c0 ∈ cap →
      ∀ e ∈ cellEdges (c0.map (Prod.mk t)), edgeUse (slabLabels m cap) e.1 e.2 = 2 := by
    intro t c0 hc0 e he
    rw [cellEdges_map] at he
    obtain ⟨⟨x, y⟩, hxy, rfl⟩ := List.mem_map.1 he
    have hmem := cellEdges_mem c0 x y hxy
    have hx := hcap.valid c0 hc0 x hmem.1
    have hy := hcap.valid c0 hc0 y hmem.2
    simp only [Prod.map_apply]
    rw [edgeUse_slab_pure m cap t x y hm hx hy]
    by_cases h1 : y = nextAround m x
    · rw [if_pos (Or.inl h1), h1, hcap.boundary x hx]
    · by_cases h2 : x = nextAround m y
      · rw [if_pos (Or.inr h2), edgeUse_symm, h2, hcap.boundary y hy]
      · rw [if_neg (by rintro (h | h); exact h1 h; exact h2 h),
          hcap.interior c0 hc0 (x, y) hxy h1 h2]
  intro cell hcell e he
  unfold slabLabels at hcell
  rcases List.mem_append.1 hcell with hcell | hcell
  · rcases List.mem_append.1 hcell with hcell | hcell
    · obtain ⟨c0, hc0, rfl⟩ := List.mem_map.1 hcell
      exact hpure false c0 hc0 e he
    · obtain ⟨k, hk, rfl | rfl⟩ := mem_beltLabels m cell hcell
      · rw [cellEdges_three] at he
        simp only [List.mem_cons, List.mem_singleton, List.not_mem_nil, or_false] at he
        rcases he with rfl | rfl | rfl
        · rw [edgeUse_slab_mixed]
          exact edgeUse_belt_rung m k hm hk
        · rw [edgeUse_symm, edgeUse_slab_mixed, edgeUse_symm]
          exact edgeUse_belt_diag m k hm hk
        · rw [edgeUse_symm]
          exact edgeUse_slab_boundary m cap true k hm hcap hk
      · rw [cellEdges_three] at he
        simp only [List.mem_cons, List.mem_singleton, List.not_mem_nil, or_false] at he
        rcases he with rfl | rfl | rfl
        · exact edgeUse_slab_boundary m cap false k hm hcap hk
        · rw [edgeUse_symm, edgeUse_slab_mixed]
          exact edgeUse_belt_rung m _ hm (nextAround_lt m k hk)
        · rw [edgeUse_slab_mixed, edgeUse_symm]
          exact edgeUse_belt_diag m k hm hk
  · obtain ⟨c0, hc0, rfl⟩ := List.mem_map.1 hcell
    exact hpure true c0 hc0 e he


/-! ### The structure of the belt and of the assembled mesh -/

theorem pointsLoop_getD (topHalf bottomHalf : vtkPolyData) (K k : Nat) (d : vtkVector3d)
    (hk : k < K) :
    (CreateModelFromContour.pointsLoop topHalf bottomHalf K).getD (2 * k) d
        = topHalf.GetPoint k ∧
    (CreateModelFromContour.pointsLoop topHalf bottomHalf K).getD (2 * k + 1) d
        = bottomHalf.GetPoint k := by
  induction K with
  | zero => omega
  | succ K ih =>
    unfold CreateModelFromContour.pointsLoop
    by_cases hkK : k < K
    · have hl := pointsLoop_length topHalf bottomHalf K
      rw [List.getD_append _ _ _ _ (by omega), List.getD_append _ _ _ _ (by omega)]
      exact ih hkK
    · have hkeq : k = K := by omega
      subst hkeq
      have hl := pointsLoop_length topHalf bottomHalf k
      rw [List.getD_append_right _ _ _ _ (by omega), List.getD_append_right _ _ _ _ (by omega)]
      have h0 : 2 * k - (CreateModelFromContour.pointsLoop topHalf bottomHalf k).length = 0 := by
        omega
      have h1 : 2 * k + 1 - (CreateModelFromContour.pointsLoop topHalf bottomHalf k).length
          = 1 := by omega
      rw [h0, h1]
      exact ⟨rfl, rfl⟩

theorem cellsLoop_eq (n fuel j : Nat) (h : n - 1 - j ≤ fuel) :
    CreateModelFromContour.cellsLoop (2 * n) fuel (2 * j)
      = (List.range' j (n - 1 - j)).flatMap
          (fun k => [[2 * k, 2 * k + 1, 2 * k + 2], [2 * k + 1, 2 * k + 3, 2 * k + 2]]) := by
  induction fuel generalizing j with
  | zero =>
    have h0 : n - 1 - j = 0 := by omega
    simp [CreateModelFromContour.cellsLoop, h0]
  | succ fuel ih =>
    unfold CreateModelFromContour.cellsLoop
    by_cases hc : ((2 * j : Nat) : Int) < ((2 * n : Nat) : Int) - 2
    · rw [if_pos hc]
      have hstep : n - 1 - j = (n - 1 - (j + 1)) + 1 := by omega
      have h2 : 2 * j + 2 = 2 * (j + 1) := by omega
      rw [hstep, List.range'_succ, List.flatMap_cons, h2, ih (j + 1) (by omega)]
      simp
    · rw [if_neg hc]
      have h0 : n - 1 - j = 0 := by omega
      simp [h0]

theorem beltSurface_polys (topHalf bottomHalf : vtkPolyData) :
    (CreateModelFromContour.beltSurface topHalf bottomHalf).Polys
      = (List.range (topHalf.GetNumberOfPoints - 1)).flatMap
          (fun k => [[2 * k, 2 * k + 1, 2 * k + 2], [2 * k + 1, 2 * k + 3, 2 * k + 2]]) := by
  unfold CreateModelFromContour.beltSurface
  simp only [pointsLoop_length]
  have := cellsLoop_eq topHalf.GetNumberOfPoints (2 * topHalf.GetNumberOfPoints) 0 (by omega)
  simp only [Nat.mul_zero, Nat.sub_zero] at this
  rw [this, List.range_eq_range']

theorem translate_of_points (t : vtkVector3d) (input : vtkPolyData) (ps : List vtkVector3d)
    (h : input.Points = some ps) :
    vtkTransformPolyDataFilter.Translate t input
      = { Points := some (ps.map (vtkTransform.TransformPoint t)), Polys := input.Polys } := by
  simp [vtkTransformPolyDataFilter.Translate, h]

theorem appended_structure (contourTriangulator : vtkPolyData → vtkPolyData)
    (inputContour : vtkPolyData) (normal : vtkVector3d) (thickness : ℚ)
    (ps : List vtkVector3d) (h : (contourTriangulator inputContour).Points = some ps) :
    (CreateModelFromContour.appended contourTriangulator inputContour normal thickness).Points
      = some (ps.map (vtkTransform.TransformPoint
            (CreateModelFromContour.bottomOffset normal thickness))
          ++ CreateModelFromContour.pointsLoop
              { Points := some (ps.map (vtkTransform.TransformPoint
                  (CreateModelFromContour.topOffset normal thickness)))
                Polys := (contourTriangulator inputContour).Polys }
              { Points := some (ps.map (vtkTransform.TransformPoint
                  (CreateModelFromContour.bottomOffset normal thickness)))
                Polys := (contourTriangulator inputContour).Polys } ps.length
          ++ ps.map (vtkTransform.TransformPoint
            (CreateModelFromContour.topOffset normal thickness))) ∧
    (CreateModelFromContour.appended contourTriangulator inputContour normal thickness).Polys
      = (contourTriangulator inputContour).Polys.map (List.map (fun id => id + 0))
        ++ ((List.range (ps.length - 1)).flatMap
            (fun k => [[2 * k, 2 * k + 1, 2 * k + 2], [2 * k + 1, 2 * k + 3, 2 * k + 2]])).map
            (List.map (fun id => id + ps.length))
        ++ (contourTriangulator inputContour).Polys.map
            (List.map (fun id => id + (ps.length + 2 * ps.length))) := by
  unfold CreateModelFromContour.appended
  simp only [translate_of_points _ _ ps h]
  constructor
  · simp [vtkAppendPolyData, CreateModelFromContour.beltSurface,
      vtkPolyData.GetNumberOfPoints]
  · simp only [vtkAppendPolyData, List.foldl_cons, List.foldl_nil, beltSurface_polys]
    simp [vtkPolyData.GetNumberOfPoints, CreateModelFromContour.beltSurface,
      pointsLoop_length]

theorem mem_distinctPoints_foldl (l acc : List vtkVector3d) (p : vtkVector3d) :
    p ∈ l.foldl (fun acc p => if p ∈ acc then acc else acc ++ [p]) acc ↔ p ∈ acc ∨ p ∈ l := by
  induction l generalizing acc with
  | nil => simp
  | cons q qs ih =>
    rw [List.foldl_cons, ih]
    by_cases hq : q ∈ acc
    · rw [if_pos hq]
      constructor
      · rintro (h | h)
        · exact Or.inl h
        · exact Or.inr (List.mem_cons_of_mem _ h)
      · rintro (h | h)
        · exact Or.inl h
        · rcases List.mem_cons.1 h with rfl | h
          · exact Or.inl hq
          · exact Or.inr h
    · rw [if_neg hq]
      simp only [List.mem_append, List.mem_singleton, List.mem_cons]
      tauto

theorem mem_distinctPoints (l : List vtkVector3d) (p : vtkVector3d) :
    p ∈ distinctPoints l ↔ p ∈ l := by
  unfold distinctPoints
  rw [mem_distinctPoints_foldl]
  simp

theorem transformPoint_injective (t p q : vtkVector3d)
    (h : vtkTransform.TransformPoint t p = vtkTransform.TransformPoint t q) : p = q := by
  cases p; cases q
  simp only [vtkTransform.TransformPoint, vtkVector3d.mk.injEq, add_left_inj] at h
  simp [h]

theorem getD_map_of_lt (f : vtkVector3d → vtkVector3d) (P : List vtkVector3d) (a : Nat)
    (d : vtkVector3d) (h : a < P.length) : (P.map f).getD a d = f (P.getD a d) := by
  rw [List.getD_eq_getElem _ _ (by simpa using h), List.getD_eq_getElem _ _ h, List.getElem_map]

theorem getD_mem_of_lt (P : List vtkVector3d) (a : Nat) (d : vtkVector3d) (h : a < P.length) :
    P.getD a d ∈ P := by
  rw [List.getD_eq_getElem _ _ h]
  exact List.getElem_mem h

theorem flatMap_congr_mem {α β : Type} (l : List α) (f g : α → List β)
    (h : ∀ a ∈ l, f a = g a) : l.flatMap f = l.flatMap g := by
  induction l with
  | nil => rfl
  | cons a as ih =>
    rw [List.flatMap_cons, List.flatMap_cons, h a (List.mem_cons_self _ _),
      ih (fun b hb => h b (List.mem_cons_of_mem _ hb))]

/-- The points of the assembled mesh, read by label. -/
theorem assembled_getD (P : List vtkVector3d) (normal : vtkVector3d) (thickness : ℚ)
    (polys : List (List Nat)) (m : Nat) (hlen : P.length = m + 1)
    (hclose : P.getD m ⟨0, 0, 0⟩ = P.getD 0 ⟨0, 0, 0⟩)
    (L : List vtkVector3d)
    (hL : L = P.map (vtkTransform.TransformPoint
            (CreateModelFromContour.bottomOffset normal thickness))
          ++ CreateModelFromContour.pointsLoop
              { Points := some (P.map (vtkTransform.TransformPoint
                  (CreateModelFromContour.topOffset normal thickness)))
                Polys := polys }
              { Points := some (P.map (vtkTransform.TransformPoint
                  (CreateModelFromContour.bottomOffset normal thickness)))
                Polys := polys } P.length
          ++ P.map (vtkTransform.TransformPoint
            (CreateModelFromContour.topOffset normal thickness))) :
    (∀ a, a < m + 1 →
      L.getD (a + 0) ⟨0, 0, 0⟩ = slabPoint P normal thickness (false, foldLast m a)) ∧
    (∀ a, a < m + 1 → L.getD (a + (P.length + 2 * P.length)) ⟨0, 0, 0⟩
      = slabPoint P normal thickness (true, foldLast m a)) ∧
    (∀ k, k < m →
      L.getD (2 * k + P.length) ⟨0, 0, 0⟩ = slabPoint P normal thickness (true, k) ∧
      L.getD (2 * k + 1 + P.length) ⟨0, 0, 0⟩ = slabPoint P normal thickness (false, k) ∧
      L.getD (2 * k + 2 + P.length) ⟨0, 0, 0⟩
        = slabPoint P normal thickness (true, nextAround m k) ∧
      L.getD (2 * k + 3 + P.length) ⟨0, 0, 0⟩
        = slabPoint P normal thickness (false, nextAround m k)) := by
  have hfold : ∀ a, a < m + 1 → P.getD (foldLast m a) ⟨0, 0, 0⟩ = P.getD a ⟨0, 0, 0⟩ := by
    intro a _
    unfold foldLast
    split
    · rename_i h; rw [h, hclose]
    · rfl
  have hnext : ∀ k, k < m → P.getD (nextAround m k) ⟨0, 0, 0⟩ = P.getD (k + 1) ⟨0, 0, 0⟩ := by
    intro k _
    unfold nextAround
    split
    · rename_i h; rw [h, hclose]
    · rfl
  have hIlen := pointsLoop_length
    { Points := some (P.map (vtkTransform.TransformPoint
        (CreateModelFromContour.topOffset normal thickness))), Polys := polys }
    { Points := some (P.map (vtkTransform.TransformPoint
        (CreateModelFromContour.bottomOffset normal thickness))), Polys := polys } P.length
  have hI := fun k (hk : k < P.length) => pointsLoop_getD
    { Points := some (P.map (vtkTransform.TransformPoint
        (CreateModelFromContour.topOffset normal thickness))), Polys := polys }
    { Points := some (P.map (vtkTransform.TransformPoint
        (CreateModelFromContour.bottomOffset normal thickness))), Polys := polys }
    P.length k ⟨0, 0, 0⟩ hk
  have htop : ∀ k, k < P.length →
      (vtkPolyData.GetPoint { Points := some (P.map (vtkTransform.TransformPoint
        (CreateModelFromContour.topOffset normal thickness))), Polys := polys } k)
      = vtkTransform.TransformPoint (CreateModelFromContour.topOffset normal thickness)
          (P.getD k ⟨0, 0, 0⟩) := by
    intro k hk
    simp only [vtkPolyData.GetPoint]
    exact getD_map_of_lt _ P k _ hk
  have hbot : ∀ k, k < P.length →
      (vtkPolyData.GetPoint { Points := some (P.map (vtkTransform.TransformPoint
        (CreateModelFromContour.bottomOffset normal thickness))), Polys := polys } k)
      = vtkTransform.TransformPoint (CreateModelFromContour.bottomOffset normal thickness)
          (P.getD k ⟨0, 0, 0⟩) := by
    intro k hk
    simp only [vtkPolyData.GetPoint]
    exact getD_map_of_lt _ P k _ hk
  have hbelt : ∀ i, i < 2 * P.length → L.getD (i + P.length) ⟨0, 0, 0⟩
      = (CreateModelFromContour.pointsLoop
          { Points := some (P.map (vtkTransform.TransformPoint
              (CreateModelFromContour.topOffset normal thickness))), Polys := polys }
          { Points := some (P.map (vtkTransform.TransformPoint
              (CreateModelFromContour.bottomOffset normal thickness))), Polys := polys }
          P.length).getD i ⟨0, 0, 0⟩ := by
    intro i hi
    rw [hL, List.getD_append _ _ _ _ (by simp [hIlen]; omega),
      List.getD_append_right _ _ _ _ (by simp)]
    simp
  refine ⟨?_, ?_, ?_⟩
  · intro a ha
    rw [hL, List.append_assoc, List.getD_append _ _ _ _ (by simp; omega)]
    simp only [Nat.add_zero, slabPoint, Bool.false_eq_true, if_false]
    rw [getD_map_of_lt _ P a _ (by omega), hfold a ha]
  · intro a ha
    rw [hL, List.getD_append_right _ _ _ _ (by simp [hIlen])]
    have hidx : a + (P.length + 2 * P.length)
        - (P.map (vtkTransform.TransformPoint
            (CreateModelFromContour.bottomOffset normal thickness))
          ++ CreateModelFromContour.pointsLoop
              { Points := some (P.map (vtkTransform.TransformPoint
                  (CreateModelFromContour.topOffset normal thickness))), Polys := polys }
              { Points := some (P.map (vtkTransform.TransformPoint
                  (CreateModelFromContour.bottomOffset normal thickness))), Polys := polys }
              P.length).length = a := by
      simp [hIlen]
    rw [hidx]
    simp only [slabPoint, if_true]
    rw [getD_map_of_lt _ P a _ (by omega), hfold a ha]
  · intro k hk
    have e0 := hbelt (2 * k) (by omega)
    have e1 := hbelt (2 * k + 1) (by omega)
    have e2 := hbelt (2 * (k + 1)) (by omega)
    have e3 := hbelt (2 * (k + 1) + 1) (by omega)
    have i0 := hI k (by omega)
    have i1 := hI (k + 1) (by omega)
    rw [i0.1, htop k (by omega)] at e0
    rw [i0.2, hbot k (by omega)] at e1
    rw [i1.1, htop (k + 1) (by omega), ← hnext k hk] at e2
    rw [i1.2, hbot (k + 1) (by omega), ← hnext k hk] at e3
    refine ⟨?_, ?_, ?_, ?_⟩
    · simpa [slabPoint] using e0
    · simpa [slabPoint] using e1
    · have : 2 * k + 2 + P.length = 2 * (k + 1) + P.length := by omega
      rw [this]; simpa [slabPoint] using e2
    · have : 2 * k + 3 + P.length = 2 * (k + 1) + 1 + P.length := by omega
      rw [this]; simpa [slabPoint] using e3

theorem slabPoint_injective (P : List vtkVector3d) (normal : vtkVector3d) (thickness : ℚ)
    (m : Nat) (hlen : P.length = m + 1)
    (hdistinct : ∀ j k, j < m → k < m → P.getD j ⟨0, 0, 0⟩ = P.getD k ⟨0, 0, 0⟩ → j = k)
    (hsep : ∀ p ∈ P, ∀ q ∈ P,
      vtkTransform.TransformPoint (CreateModelFromContour.topOffset normal thickness) p
        ≠ vtkTransform.TransformPoint (CreateModelFromContour.bottomOffset normal thickness) q)
    (x y : Bool × Nat) (hx : x.2 < m) (hy : y.2 < m)
    (h : slabPoint P normal thickness x = slabPoint P normal thickness y) : x = y := by
  obtain ⟨tx, kx⟩ := x
  obtain ⟨ty, ky⟩ := y
  simp only at hx hy
  have mx := getD_mem_of_lt P kx ⟨0, 0, 0⟩ (by omega)
  have my := getD_mem_of_lt P ky ⟨0, 0, 0⟩ (by omega)
  cases tx <;> cases ty <;> simp only [slabPoint, Bool.false_eq_true, if_false, if_true] at h
  · rw [hdistinct kx ky hx hy (transformPoint_injective _ _ _ h)]
  · exact absurd h.symm (hsep _ my _ mx)
  · exact absurd h (hsep _ mx _ my)
  · rw [hdistinct kx ky hx hy (transformPoint_injective _ _ _ h)]

theorem mem_slabLabels_valid (m : Nat) (cap : List (List Nat))
    (hcap : ∀ cell ∈ cap, ∀ x ∈ cell, x < m) :
    ∀ cell ∈ slabLabels m cap, ∀ x ∈ cell, x.2 < m := by
  intro cell hcell x hx
  unfold slabLabels at hcell
  rcases List.mem_append.1 hcell with hcell | hcell
  · rcases List.mem_append.1 hcell with hcell | hcell
    · obtain ⟨c0, hc0, rfl⟩ := List.mem_map.1 hcell
      obtain ⟨a, ha, rfl⟩ := List.mem_map.1 hx
      exact hcap c0 hc0 a ha
    · obtain ⟨k, hk, rfl | rfl⟩ := mem_beltLabels m cell hcell
      · simp only [List.mem_cons, List.mem_singleton, List.not_mem_nil, or_false] at hx
        rcases hx with rfl | rfl | rfl
        · exact hk
        · exact hk
        · exact nextAround_lt m k hk
      · simp only [List.mem_cons, List.mem_singleton, List.not_mem_nil, or_false] at hx
        rcases hx with rfl | rfl | rfl
        · exact hk
        · exact nextAround_lt m k hk
        · exact nextAround_lt m k hk
  · obtain ⟨c0, hc0, rfl⟩ := List.mem_map.1 hcell
    obtain ⟨a, ha, rfl⟩ := List.mem_map.1 hx
    exact hcap c0 hc0 a ha

theorem beltLabels_nodup (m : Nat) (hm : 3 ≤ m) :
    (beltLabels m).filter (fun cell => decide cell.Nodup) = beltLabels m := by
  rw [List.filter_eq_self]
  intro cell hcell
  obtain ⟨k, hk, rfl | rfl⟩ := mem_beltLabels m cell hcell
  · simp only [decide_eq_true_eq, List.nodup_cons, List.mem_cons, Prod.mk.injEq,
      List.mem_singleton, List.not_mem_nil, List.nodup_nil, nextAround]
    split_ifs <;> first | (simp; omega) | simp
  · simp only [decide_eq_true_eq, List.nodup_cons, List.mem_cons, Prod.mk.injEq,
      List.mem_singleton, List.not_mem_nil, List.nodup_nil, nextAround]
    split_ifs <;> first | (simp; omega) | simp

theorem filter_nodup_tag (cells : List (List Nat)) (t : Bool) :
    (cells.map (List.map (Prod.mk t))).filter (fun cell => decide cell.Nodup)
      = (cells.filter (fun cell => decide cell.Nodup)).map (List.map (Prod.mk t)) :=
  filter_nodup_map (Prod.mk t) (fun _ => True)
    (fun _ _ _ _ h => (Prod.mk.injEq _ _ _ _ ▸ h).2) cells (fun _ _ _ _ => trivial)

theorem merged_polys_eq_labels (contourTriangulator : vtkPolyData → vtkPolyData)
    (inputContour : vtkPolyData) (normal : vtkVector3d) (thickness : ℚ)
    (P : List vtkVector3d) (m : Nat) (hm : 3 ≤ m)
    (hP : (contourTriangulator inputContour).Points = some P) (hlen : P.length = m + 1)
    (hclose : P.getD m ⟨0, 0, 0⟩ = P.getD 0 ⟨0, 0, 0⟩)
    (hdistinct : ∀ j k, j < m → k < m → P.getD j ⟨0, 0, 0⟩ = P.getD k ⟨0, 0, 0⟩ → j = k)
    (hvalid : ∀ cell ∈ (contourTriangulator inputContour).Polys, ∀ id ∈ cell, id < m + 1)
    (hsep : ∀ p ∈ P, ∀ q ∈ P,
      vtkTransform.TransformPoint (CreateModelFromContour.topOffset normal thickness) p
        ≠ vtkTransform.TransformPoint (CreateModelFromContour.bottomOffset normal thickness) q) :
    ∃ relabel : Bool × Nat → Nat,
      (∀ x y : Bool × Nat, x.2 < m → y.2 < m → relabel x = relabel y → x = y) ∧
      (mergeCoincidentPoints
        (CreateModelFromContour.appended contourTriangulator inputContour normal
          thickness)).Polys
        = (slabLabels m (((contourTriangulator inputContour).Polys.map
            (List.map (foldLast m))).filter (fun cell => decide cell.Nodup))).map
            (List.map relabel) := by
  obtain ⟨hApts, hApolys⟩ := appended_structure contourTriangulator inputContour normal
    thickness P hP
  generalize hLdef : (P.map (vtkTransform.TransformPoint
            (CreateModelFromContour.bottomOffset normal thickness))
          ++ CreateModelFromContour.pointsLoop
              { Points := some (P.map (vtkTransform.TransformPoint
                  (CreateModelFromContour.topOffset normal thickness)))
                Polys := (contourTriangulator inputContour).Polys }
              { Points := some (P.map (vtkTransform.TransformPoint
                  (CreateModelFromContour.bottomOffset normal thickness)))
                Polys := (contourTriangulator inputContour).Polys } P.length
          ++ P.map (vtkTransform.TransformPoint
            (CreateModelFromContour.topOffset normal thickness))) = L at hApts
  obtain ⟨g1, g3, g2⟩ := assembled_getD P normal thickness
    (contourTriangulator inputContour).Polys m hlen hclose L hLdef.symm
  -- every labelled point is a point of the assembled mesh
  have hmemL : ∀ x : Bool × Nat, x.2 < m → slabPoint P normal thickness x ∈ L := by
    rintro ⟨t, k⟩ hk
    simp only at hk
    have hmem := getD_mem_of_lt P k ⟨0, 0, 0⟩ (by omega)
    rw [← hLdef]
    cases t
    · simp only [slabPoint, Bool.false_eq_true, if_false]
      exact List.mem_append_left _ (List.mem_append_left _ (List.mem_map_of_mem _ hmem))
    · simp only [slabPoint, if_true]
      exact List.mem_append_right _ (List.mem_map_of_mem _ hmem)
  have hinj : ∀ x y : Bool × Nat, x.2 < m → y.2 < m →
      (distinctPoints L).indexOf (slabPoint P normal thickness x)
        = (distinctPoints L).indexOf (slabPoint P normal thickness y) → x = y := by
    intro x y hx hy h
    have hxm := (mem_distinctPoints L _).2 (hmemL x hx)
    have hym := (mem_distinctPoints L _).2 (hmemL y hy)
    exact slabPoint_injective P normal thickness m hlen hdistinct hsep x y hx hy
      ((List.indexOf_inj hxm hym).1 h)
  refine ⟨fun x => (distinctPoints L).indexOf (slabPoint P normal thickness x), hinj, ?_⟩
  have hfoldlt : ∀ a, a < m + 1 → foldLast m a < m := by
    intro a ha
    unfold foldLast
    split <;> omega
  -- the cells before the degenerate ones are dropped, by label
  have hraw : ((CreateModelFromContour.appended contourTriangulator inputContour normal
        thickness).Polys.map
        (fun cell => cell.map (fun id => (distinctPoints L).indexOf (L.getD id ⟨0, 0, 0⟩))))
      = (((contourTriangulator inputContour).Polys.map (List.map (foldLast m))).map
            (List.map (Prod.mk false))
          ++ beltLabels m
          ++ ((contourTriangulator inputContour).Polys.map (List.map (foldLast m))).map
            (List.map (Prod.mk true))).map
          (List.map (fun x => (distinctPoints L).indexOf (slabPoint P normal thickness x))) := by
    rw [hApolys]
    simp only [List.map_append, List.map_map]
    congr 1
    · congr 1
      · apply List.map_congr_left
        intro cell hcell
        simp only [Function.comp, List.map_map]
        apply List.map_congr_left
        intro a ha
        simp only [Function.comp]
        rw [g1 a (hvalid cell hcell a ha)]
      · unfold beltLabels beltQuad
        rw [List.map_flatMap, List.map_flatMap, hlen, Nat.add_sub_cancel]
        apply flatMap_congr_mem
        intro k hk
        have hk := List.mem_range.1 hk
        obtain ⟨e0, e1, e2, e3⟩ := g2 k hk
        rw [hlen] at e0 e1 e2 e3
        simp only [Function.comp, List.map_cons, List.map_nil, e0, e1, e2, e3]
    · apply List.map_congr_left
      intro cell hcell
      simp only [Function.comp, List.map_map]
      apply List.map_congr_left
      intro a ha
      simp only [Function.comp]
      rw [g3 a (hvalid cell hcell a ha)]
  have hmerged : (mergeCoincidentPoints
      (CreateModelFromContour.appended contourTriangulator inputContour normal
        thickness)).Polys
      = ((CreateModelFromContour.appended contourTriangulator inputContour normal
        thickness).Polys.map
        (fun cell => cell.map (fun id => (distinctPoints L).indexOf (L.getD id ⟨0, 0, 0⟩)))).filter
        (fun cell => decide cell.Nodup) := by
    simp only [mergeCoincidentPoints, hApts, Option.getD_some]
  rw [hmerged, hraw]
  rw [filter_nodup_map _ (fun x : Bool × Nat => x.2 < m) hinj]
  · congr 1
    unfold slabLabels
    rw [List.filter_append, List.filter_append, filter_nodup_tag, filter_nodup_tag,
      beltLabels_nodup m hm]
  · intro cell hcell x hx
    have hv : ∀ c ∈ (contourTriangulator inputContour).Polys.map (List.map (foldLast m)),
        ∀ a ∈ c, a < m := by
      intro c hc a ha
      obtain ⟨c0, hc0, rfl⟩ := List.mem_map.1 hc
      obtain ⟨b, hb, rfl⟩ := List.mem_map.1 ha
      exact hfoldlt b (hvalid c0 hc0 b hb)
    exact mem_slabLabels_valid m _ hv cell hcell x hx

/-- C4 (amended): take a contour with at least 3 points whose cap has the
points `P`, `m + 1` of them with `m ≥ 3`: the first `m` distinct and the last
one a repeat of the first (the contour is closed explicitly). Let the cap
cells, with the repeated point identified with the first and degenerate cells
dropped, triangulate the disk bounded by the loop of these `m` points in
contour order, and let no top copy of a cap point coincide with a bottom copy.
Then `CreateModelFromContour`, with coincident points merged, returns a closed
mesh: every edge of every cell is shared by exactly two cells. -/
theorem CreateModelFromContour_closed_of_repeated_first_point
    (contourTriangulator : vtkPolyData → vtkPolyData)
    (inputContour : vtkPolyData) (normal : vtkVector3d) (thickness : ℚ)
    (contourPoints P : List vtkVector3d) (m : Nat)
    (hcontour : inputContour.Points = some contourPoints) (hthree : 3 ≤ contourPoints.length)
    (hm : 3 ≤ m)
    (hP : (contourTriangulator inputContour).Points = some P) (hlen : P.length = m + 1)
    (hclose : P.getD m ⟨0, 0, 0⟩ = P.getD 0 ⟨0, 0, 0⟩)
    (hdistinct : ∀ j k, j < m → k < m → P.getD j ⟨0, 0, 0⟩ = P.getD k ⟨0, 0, 0⟩ → j = k)
    (hvalid : ∀ cell ∈ (contourTriangulator inputContour).Polys, ∀ id ∈ cell, id < m + 1)
    (hcap : CapOfLoop m (((contourTriangulator inputContour).Polys.map
      (List.map (foldLast m))).filter (fun cell => decide cell.Nodup)))
    (hsep : ∀ p ∈ P, ∀ q ∈ P,
      vtkTransform.TransformPoint (CreateModelFromContour.topOffset normal thickness) p
        ≠ vtkTransform.TransformPoint (CreateModelFromContour.bottomOffset normal thickness) q) :
    ∃ mesh,
      vtkSlicerSplinesLogic.CreateModelFromContour contourTriangulator mergeCoincidentPoints
        (some inputContour) normal thickness = some mesh ∧
      mesh.IsClosed := by
  have hlt : ¬ contourPoints.length < 3 := by omega
  refine ⟨mergeCoincidentPoints
    (CreateModelFromContour.appended contourTriangulator inputContour normal thickness),
    by simp [vtkSlicerSplinesLogic.CreateModelFromContour, hcontour, hlt], ?_⟩
  obtain ⟨relabel, hinj, hpolys⟩ := merged_polys_eq_labels contourTriangulator inputContour
    normal thickness P m hm hP hlen hclose hdistinct hvalid hsep
  unfold vtkPolyData.IsClosed
  rw [hpolys]
  exact closedCells_map relabel (fun x => x.2 < m) hinj _
    (mem_slabLabels_valid m _ hcap.valid) (slabLabels_closed m _ hm hcap)

/-- C4 (amended), applied to the contour `closedThreePoints` (a triangle given
with its first point repeated), the fan triangulation, normal (0, 0, 1) and
thickness 1. -/
theorem CreateModelFromContour_closed_of_repeated_first_point_witness :
    ∃ mesh,
      vtkSlicerSplinesLogic.CreateModelFromContour fanTriangulator mergeCoincidentPoints
        (some (contourOf closedThreePoints)) ⟨0, 0, 1⟩ 1 = some mesh ∧
      mesh.IsClosed :=
  CreateModelFromContour_closed_of_repeated_first_point fanTriangulator
    (contourOf closedThreePoints) ⟨0, 0, 1⟩ 1 closedThreePoints closedThreePoints 3
    rfl (by decide) (by decide) rfl rfl (by decide!)
    (by intro j k hj hk; interval_cases j <;> interval_cases k <;> decide!)
    (by decide) ⟨by decide, by decide, by decide⟩ (by decide!)

/-! ### C11: events about other nodes -/

/-- C11: for every node pointer that does not point to a Splines markups
collection (a null pointer or a node of another class), the handlers
`OnMRMLSceneNodeAdded`, `OnMRMLSceneNodeRemoved` and `OnMRMLNodeModified`
return normally with the logic object unchanged (same scene, same
observations, no call recorded) and the node unchanged. -/
theorem handlers_ignore_other_nodes (newID : vtkMRMLScene → String)
    (self : vtkSlicerSplinesLogic) (node : Option vtkMRMLNode)
    (h : ∀ c : vtkMRMLMarkupsSplinesNode, node ≠ some (vtkMRMLNode.Splines c)) :
    self.OnMRMLSceneNodeAdded newID node = .ok (self, node) ∧
    self.OnMRMLSceneNodeRemoved node = .ok (self, node) ∧
    self.OnMRMLNodeModified newID node = .ok (self, node) := by
  have hcast : vtkMRMLMarkupsSplinesNode.SafeDownCast node = none := by
    cases node with
    | none => rfl
    | some n =>
      cases n with
      | Splines c => exact absurd rfl (h c)
      | Plain n => rfl
  refine ⟨?_, ?_, ?_⟩
  · simp only [vtkSlicerSplinesLogic.OnMRMLSceneNodeAdded, hcast]
  · simp only [vtkSlicerSplinesLogic.OnMRMLSceneNodeRemoved, hcast]
  · simp only [vtkSlicerSplinesLogic.OnMRMLNodeModified, hcast]

/-- C11, applied to the volume node `volumeNode` and the logic object
`logicTwoModels`. -/
theorem handlers_ignore_other_nodes_witness :
    logicTwoModels.OnMRMLSceneNodeAdded (sampleID []) (some volumeNode)
      = .ok (logicTwoModels, some volumeNode) ∧
    logicTwoModels.OnMRMLSceneNodeRemoved (some volumeNode)
      = .ok (logicTwoModels, some volumeNode) ∧
    logicTwoModels.OnMRMLNodeModified (sampleID []) (some volumeNode)
      = .ok (logicTwoModels, some volumeNode) :=
  handlers_ignore_other_nodes (sampleID []) logicTwoModels (some volumeNode)
    (by intro c h; cases h)

/-! ### C12: the decisions do not depend on the order -/

theorem decision_eq (i : Nat) (w : World) :
    UpdateSlabModelNode.decision i w =
      if w.SplinesNode.GetNumberOfPointsInNthMarkup i > 2 then
        (if w.Scene.IsLiveModel (w.SplinesNode.GetNthMarkupAssociatedNodeID i)
          then Decision.NOOP else Decision.CREATE)
      else
        (if w.Scene.IsLiveModel (w.SplinesNode.GetNthMarkupAssociatedNodeID i)
          then Decision.DELETE else Decision.NOOP) := by
  unfold UpdateSlabModelNode.decision vtkMRMLScene.IsLiveModel
  dsimp only
  split
  · next hp hd =>
    have hp1 := of_decide_eq_true hp
    simp [hd, hp1]
  · next hp hd =>
    have hp1 := of_decide_eq_false hp
    simp [hd, hp1]
  · next h1 h2 =>
    by_cases hp : w.SplinesNode.GetNumberOfPointsInNthMarkup i > 2
    · rw [if_pos hp]
      split_ifs with hl
      · rfl
      · exact absurd (by simpa using hl) (h1 (decide_eq_true hp))
    · rw [if_neg hp]
      split_ifs with hl
      · obtain ⟨m, hm⟩ := Option.isSome_iff_exists.1 hl
        exact absurd hm (h2 m (decide_eq_false hp))
      · rfl

theorem decision_frame (newID : vtkMRMLScene → String) (avoid : List String) (i j : Nat)
    (w : World) (hf : FreshIDs newID avoid) (hw : Hygienic avoid w) (hj : j ≠ i) :
    UpdateSlabModelNode.decision j (UpdateSlabModelNode.body newID i w)
      = UpdateSlabModelNode.decision j w := by
  rw [decision_eq, decision_eq, body_npts, body_assoc_ne _ _ _ _ hj]
  have hl := body_live_other newID avoid i j w hf hw hj
  by_cases h : w.Scene.IsLiveModel (w.SplinesNode.GetNthMarkupAssociatedNodeID j)
  · rw [if_pos (hl.2 h), if_pos (hl.2 h), if_pos h, if_pos h]
  · rw [if_neg (fun h1 => h (hl.1 h1)), if_neg (fun h1 => h (hl.1 h1)), if_neg h, if_neg h]

theorem decisionsInOrder_eq (newID : vtkMRMLScene → String) (avoid : List String)
    (order : List Nat) (w v : World) (hf : FreshIDs newID avoid) (hv : Hygienic avoid v)
    (hnd : order.Nodup)
    (hsame : ∀ i ∈ order, UpdateSlabModelNode.decision i v = UpdateSlabModelNode.decision i w) :
    UpdateSlabModelNode.decisionsInOrder newID order v
      = order.map (fun i => (i, UpdateSlabModelNode.decision i w)) := by
  induction order generalizing v with
  | nil => rfl
  | cons i rest ih =>
    have hnd' := List.nodup_cons.1 hnd
    rw [UpdateSlabModelNode.decisionsInOrder, List.map_cons, hsame i (List.mem_cons_self _ _),
      ih _ (body_hygienic newID avoid i v hf hv) hnd'.2]
    intro j hj
    have hji : j ≠ i := fun h => hnd'.1 (h ▸ hj)
    rw [decision_frame newID avoid i j v hf hv hji]
    exact hsame j (List.mem_cons_of_mem _ hj)

theorem sweep_range (newID : vtkMRMLScene → String) (k : Nat) (w : World) :
    UpdateSlabModelNode.sweep newID (List.range k) w = UpdateSlabModelNode.loop newID k w := by
  induction k with
  | zero => rfl
  | succ k ih =>
    unfold UpdateSlabModelNode.sweep at ih ⊢
    rw [List.range_succ, List.foldl_append, ih]
    rfl

/-- C12, the claim as stated fails: on `sharedCollection` (a 3-point markup and
a 2-point markup associated with the same live Model) the source order 0, 1
decides NO-OP at index 0 and DELETE at index 1, while the order 1, 0 decides
DELETE at index 1 and then CREATE at index 0: the decision at index 0 depends
on what was done at index 1. -/
theorem decisions_depend_on_order_for_shared_model :
    UpdateSlabModelNode.decisionsInOrder (sampleID []) [0, 1] sharedWorld
      = [(0, Decision.NOOP), (1, Decision.DELETE)] ∧
    UpdateSlabModelNode.decisionsInOrder (sampleID []) [1, 0] sharedWorld
      = [(1, Decision.DELETE), (0, Decision.CREATE)] := by
  decide

/-- C12 (amended): if no node of the scene has the empty identifier, no two
markups share an association that resolves to a live Model, and created
identifiers are non-empty, not in the scene and not among the associations of
the collection, then in whatever order the indices are processed (each index
once), the decision taken at index `i` is the decision for `i` in the state
before the pass: it depends only on the point count of markup `i` and on
whether its association resolves to a live Model then. Every order therefore
yields the same decision at every index. -/
theorem decisions_independent_of_order (newID : vtkMRMLScene → String) (w : World)
    (order : List Nat) (hne : w.Scene.NoEmptyID)
    (hf : FreshIDs newID w.SplinesNode.AssociatedNodeIDs)
    (hd : DistinctLive w.Scene w.SplinesNode) (hnd : order.Nodup) :
    UpdateSlabModelNode.decisionsInOrder newID order w
      = order.map (fun i => (i, UpdateSlabModelNode.decision i w)) :=
  decisionsInOrder_eq newID _ order w w hf ⟨hne, anchored_self _ _, hd⟩ hnd (fun _ _ => rfl)

/-- C12 (amended), applied to `mixedCollection` over `sceneOneModel`, processed
in the order 2, 0, 1. -/
theorem decisions_independent_of_order_witness :
    (mixedWorld.Scene.NoEmptyID ∧ DistinctLive mixedWorld.Scene mixedWorld.SplinesNode ∧
      [2, 0, 1].Nodup) ∧
    UpdateSlabModelNode.decisionsInOrder (sampleID mixedWorld.SplinesNode.AssociatedNodeIDs)
        [2, 0, 1] mixedWorld
      = [2, 0, 1].map (fun i => (i, UpdateSlabModelNode.decision i mixedWorld)) :=
  have hne : mixedWorld.Scene.NoEmptyID := by decide
  have hd : DistinctLive mixedWorld.Scene mixedWorld.SplinesNode :=
    distinctLive_of_bounded _ _ hne (by decide)
  ⟨⟨hne, hd, by decide⟩,
    decisions_independent_of_order (sampleID mixedWorld.SplinesNode.AssociatedNodeIDs)
      mixedWorld [2, 0, 1] hne (sampleID_fresh _) hd (by decide)⟩

/-! ### C13, C14, C18: the belt of the slab -/

theorem translate_numberOfPoints (t : vtkVector3d) (input : vtkPolyData) :
    (vtkTransformPolyDataFilter.Translate t input).GetNumberOfPoints
      = input.GetNumberOfPoints := by
  cases h : input.Points with
  | none => simp [vtkTransformPolyDataFilter.Translate, vtkPolyData.GetNumberOfPoints, h]
  | some ps => simp [vtkTransformPolyDataFilter.Translate, vtkPolyData.GetNumberOfPoints, h]

theorem appended_eq_parts (contourTriangulator : vtkPolyData → vtkPolyData)
    (inputContour : vtkPolyData) (normal : vtkVector3d) (thickness : ℚ) :
    CreateModelFromContour.appended contourTriangulator inputContour normal thickness
      = vtkAppendPolyData
          [CreateModelFromContour.bottomHalf contourTriangulator inputContour normal thickness,
           CreateModelFromContour.belt contourTriangulator inputContour normal thickness,
           CreateModelFromContour.topHalf contourTriangulator inputContour normal thickness] :=
  rfl

theorem belt_points_eq (contourTriangulator : vtkPolyData → vtkPolyData)
    (inputContour : vtkPolyData) (normal : vtkVector3d) (thickness : ℚ) :
    (CreateModelFromContour.belt contourTriangulator inputContour normal thickness).Points
      = some (CreateModelFromContour.pointsLoop
          (CreateModelFromContour.topHalf contourTriangulator inputContour normal thickness)
          (CreateModelFromContour.bottomHalf contourTriangulator inputContour normal thickness)
          (contourTriangulator inputContour).GetNumberOfPoints) := by
  unfold CreateModelFromContour.belt CreateModelFromContour.beltSurface
  dsimp only
  rw [CreateModelFromContour.topHalf, translate_numberOfPoints]

theorem belt_polys_eq (contourTriangulator : vtkPolyData → vtkPolyData)
    (inputContour : vtkPolyData) (normal : vtkVector3d) (thickness : ℚ) :
    (CreateModelFromContour.belt contourTriangulator inputContour normal thickness).Polys
      = (List.range ((contourTriangulator inputContour).GetNumberOfPoints - 1)).flatMap
          (fun k => [[2 * k, 2 * k + 1, 2 * k + 2], [2 * k + 1, 2 * k + 3, 2 * k + 2]]) := by
  unfold CreateModelFromContour.belt
  rw [beltSurface_polys, CreateModelFromContour.topHalf, translate_numberOfPoints]

theorem mem_readsLoop (k : Nat) (r : Bool × Nat)
    (h : r ∈ CreateModelFromContour.readsLoop k) : r.2 < k := by
  induction k with
  | zero => simp [CreateModelFromContour.readsLoop] at h
  | succ k ih =>
    rw [CreateModelFromContour.readsLoop, List.mem_append] at h
    rcases h with h | h
    · exact Nat.lt_succ_of_lt (ih h)
    · simp only [List.mem_cons, List.mem_singleton, List.not_mem_nil, or_false] at h
      rcases h with h | h <;> rw [h] <;> exact Nat.lt_succ_self k

theorem pointsLoop_eq_reads (topHalf bottomHalf : vtkPolyData) (k : Nat) :
    CreateModelFromContour.pointsLoop topHalf bottomHalf k
      = (CreateModelFromContour.readsLoop k).map
          (fun r => if r.1 then topHalf.GetPoint r.2 else bottomHalf.GetPoint r.2) := by
  induction k with
  | zero => rfl
  | succ k ih =>
    rw [CreateModelFromContour.pointsLoop, CreateModelFromContour.readsLoop, List.map_append, ih]
    rfl

/-- C13: for every cap (the output of the triangulator) with `n` points, the
belt cells built by `CreateModelFromContour` are, in order for `k = 0, ..., n - 2`
with `i = 2 * k`, the two triangles `(i, i + 1, i + 2)` and `(i + 1, i + 3, i + 2)`;
the belt has `2 * n` points, and there is no belt triangle when `n ≤ 1`. -/
theorem belt_cells_are_quad_strip (contourTriangulator : vtkPolyData → vtkPolyData)
    (inputContour : vtkPolyData) (normal : vtkVector3d) (thickness : ℚ) :
    (CreateModelFromContour.belt contourTriangulator inputContour normal thickness).Polys
      = (List.range ((contourTriangulator inputContour).GetNumberOfPoints - 1)).flatMap
          (fun k => [[2 * k, 2 * k + 1, 2 * k + 2], [2 * k + 1, 2 * k + 3, 2 * k + 2]]) ∧
    (CreateModelFromContour.belt contourTriangulator inputContour normal
        thickness).GetNumberOfPoints
      = 2 * (contourTriangulator inputContour).GetNumberOfPoints ∧
    ((contourTriangulator inputContour).GetNumberOfPoints ≤ 1 →
      (CreateModelFromContour.belt contourTriangulator inputContour normal thickness).Polys
        = []) := by
  refine ⟨belt_polys_eq _ _ _ _, ?_, ?_⟩
  · rw [vtkPolyData.GetNumberOfPoints, belt_points_eq]
    exact pointsLoop_length _ _ _
  · intro h
    rw [belt_polys_eq, Nat.sub_eq_zero_of_le h]
    rfl

/-- C14: for every cap with `m` points, the point list of the belt built by
`CreateModelFromContour` has exactly `2 * m` entries; for every `k < m`, entry
`2 * k` is point `k` of the top half and entry `2 * k + 1` is point `k` of the
bottom half. -/
theorem belt_points_interleaved (contourTriangulator : vtkPolyData → vtkPolyData)
    (inputContour : vtkPolyData) (normal : vtkVector3d) (thickness : ℚ) :
    ∃ points : List vtkVector3d,
      (CreateModelFromContour.belt contourTriangulator inputContour normal thickness).Points
        = some points ∧
      points.length = 2 * (contourTriangulator inputContour).GetNumberOfPoints ∧
      ∀ k, k < (contourTriangulator inputContour).GetNumberOfPoints →
        points[2 * k]? = some ((CreateModelFromContour.topHalf contourTriangulator
            inputContour normal thickness).GetPoint k) ∧
        points[2 * k + 1]? = some ((CreateModelFromContour.bottomHalf contourTriangulator
            inputContour normal thickness).GetPoint k) := by
  refine ⟨_, belt_points_eq _ _ _ _, pointsLoop_length _ _ _, ?_⟩
  intro k hk
  have hget := pointsLoop_getD
    (CreateModelFromContour.topHalf contourTriangulator inputContour normal thickness)
    (CreateModelFromContour.bottomHalf contourTriangulator inputContour normal thickness)
    (contourTriangulator inputContour).GetNumberOfPoints k ⟨0, 0, 0⟩ hk
  have hlen := pointsLoop_length
    (CreateModelFromContour.topHalf contourTriangulator inputContour normal thickness)
    (CreateModelFromContour.bottomHalf contourTriangulator inputContour normal thickness)
    (contourTriangulator inputContour).GetNumberOfPoints
  constructor
  · rw [← hget.1, List.getElem?_eq_getElem (by omega), List.getD_eq_getElem _ _ (by omega)]
  · rw [← hget.2, List.getElem?_eq_getElem (by omega), List.getD_eq_getElem _ _ (by omega)]

/-- C18: for every cap with `m ≥ 0` points, every vertex index of every belt
triangle built by `CreateModelFromContour` is below `2 * m`, the number of points
of the belt; the top half and the bottom half both have `m` points, the belt
points are the values returned by the reads of the interleaving loop, and every
one of these reads is at an index below `m`. -/
theorem belt_indices_in_range (contourTriangulator : vtkPolyData → vtkPolyData)
    (inputContour : vtkPolyData) (normal : vtkVector3d) (thickness : ℚ) :
    (∀ cell ∈ (CreateModelFromContour.belt contourTriangulator inputContour normal
        thickness).Polys,
      ∀ id ∈ cell, id < (CreateModelFromContour.belt contourTriangulator inputContour normal
        thickness).GetNumberOfPoints ∧
        id < 2 * (contourTriangulator inputContour).GetNumberOfPoints) ∧
    (CreateModelFromContour.topHalf contourTriangulator inputContour normal
        thickness).GetNumberOfPoints = (contourTriangulator inputContour).GetNumberOfPoints ∧
    (CreateModelFromContour.bottomHalf contourTriangulator inputContour normal
        thickness).GetNumberOfPoints = (contourTriangulator inputContour).GetNumberOfPoints ∧
    (CreateModelFromContour.belt contourTriangulator inputContour normal thickness).Points
      = some ((CreateModelFromContour.readsLoop
          (contourTriangulator inputContour).GetNumberOfPoints).map
        (fun r =>
          if r.1 then (CreateModelFromContour.topHalf contourTriangulator inputContour normal
            thickness).GetPoint r.2
          else (CreateModelFromContour.bottomHalf contourTriangulator inputContour normal
            thickness).GetPoint r.2)) ∧
    (∀ r ∈ CreateModelFromContour.readsLoop
        (contourTriangulator inputContour).GetNumberOfPoints,
      r.2 < (contourTriangulator inputContour).GetNumberOfPoints) := by
  have hn : (CreateModelFromContour.belt contourTriangulator inputContour normal
      thickness).GetNumberOfPoints
      = 2 * (contourTriangulator inputContour).GetNumberOfPoints := by
    rw [vtkPolyData.GetNumberOfPoints, belt_points_eq]
    exact pointsLoop_length _ _ _
  refine ⟨?_, translate_numberOfPoints _ _, translate_numberOfPoints _ _, ?_,
    fun r hr => mem_readsLoop _ r hr⟩
  · intro cell hcell id hid
    rw [belt_polys_eq, List.mem_flatMap] at hcell
    obtain ⟨k, hk, hc⟩ := hcell
    rw [List.mem_range] at hk
    rw [hn]
    simp only [List.mem_cons, List.mem_singleton, List.not_mem_nil, or_false] at hc
    rcases hc with hc | hc <;> subst hc <;>
      simp only [List.mem_cons, List.mem_singleton, List.not_mem_nil, or_false] at hid <;>
      rcases hid with hid | hid | hid <;> subst hid <;> omega
  · rw [belt_points_eq, pointsLoop_eq_reads]

/-! ### C17: the offsets of the two halves -/

theorem topHalf_getPoint (contourTriangulator : vtkPolyData → vtkPolyData)
    (inputContour : vtkPolyData) (normal : vtkVector3d) (thickness : ℚ)
    (ps : List vtkVector3d) (k : Nat) (p : vtkVector3d)
    (h : (contourTriangulator inputContour).Points = some ps) (hp : ps[k]? = some p) :
    (CreateModelFromContour.topHalf contourTriangulator inputContour normal thickness).GetPoint k
      = vtkTransform.TransformPoint (CreateModelFromContour.topOffset normal thickness) p := by
  obtain ⟨hk, hpk⟩ := List.getElem?_eq_some_iff.1 hp
  rw [CreateModelFromContour.topHalf, translate_of_points _ _ ps h]
  simp only [vtkPolyData.GetPoint]
  rw [getD_map_of_lt _ _ _ _ hk, List.getD_eq_getElem _ _ hk, hpk]

theorem bottomHalf_getPoint (contourTriangulator : vtkPolyData → vtkPolyData)
    (inputContour : vtkPolyData) (normal : vtkVector3d) (thickness : ℚ)
    (ps : List vtkVector3d) (k : Nat) (p : vtkVector3d)
    (h : (contourTriangulator inputContour).Points = some ps) (hp : ps[k]? = some p) :
    (CreateModelFromContour.bottomHalf contourTriangulator inputContour normal
        thickness).GetPoint k
      = vtkTransform.TransformPoint (CreateModelFromContour.bottomOffset normal thickness) p := by
  obtain ⟨hk, hpk⟩ := List.getElem?_eq_some_iff.1 hp
  rw [CreateModelFromContour.bottomHalf, translate_of_points _ _ ps h]
  simp only [vtkPolyData.GetPoint]
  rw [getD_map_of_lt _ _ _ _ hk, List.getD_eq_getElem _ _ hk, hpk]

/-- C17: for every point `p` of the cap (at index `k`), thickness `t` and normal
`n`, point `k` of the top half is `p + 0.5 * t * n` and point `k` of the bottom
half is `p - 0.5 * t * n`; they are the entries `2 * k` and `2 * k + 1` of the
belt points, they differ by exactly `t * n`, and their midpoint is `p`
(coordinates are rational numbers). -/
theorem halves_are_offset_by_half_thickness (contourTriangulator : vtkPolyData → vtkPolyData)
    (inputContour : vtkPolyData) (normal : vtkVector3d) (thickness : ℚ)
    (ps : List vtkVector3d) (k : Nat) (p : vtkVector3d)
    (h : (contourTriangulator inputContour).Points = some ps) (hp : ps[k]? = some p) :
    ∃ top bottom points,
      top = (CreateModelFromContour.topHalf contourTriangulator inputContour normal
        thickness).GetPoint k ∧
      bottom = (CreateModelFromContour.bottomHalf contourTriangulator inputContour normal
        thickness).GetPoint k ∧
      (CreateModelFromContour.belt contourTriangulator inputContour normal thickness).Points
        = some points ∧
      points[2 * k]? = some top ∧ points[2 * k + 1]? = some bottom ∧
      top = ⟨p.X + 0.5 * thickness * normal.X, p.Y + 0.5 * thickness * normal.Y,
        p.Z + 0.5 * thickness * normal.Z⟩ ∧
      bottom = ⟨p.X - 0.5 * thickness * normal.X, p.Y - 0.5 * thickness * normal.Y,
        p.Z - 0.5 * thickness * normal.Z⟩ ∧
      (top.X - bottom.X = thickness * normal.X ∧ top.Y - bottom.Y = thickness * normal.Y ∧
        top.Z - bottom.Z = thickness * normal.Z) ∧
      ((top.X + bottom.X) / 2 = p.X ∧ (top.Y + bottom.Y) / 2 = p.Y ∧
        (top.Z + bottom.Z) / 2 = p.Z) := by
  obtain ⟨hk, _⟩ := List.getElem?_eq_some_iff.1 hp
  have hn : (contourTriangulator inputContour).GetNumberOfPoints = ps.length := by
    simp [vtkPolyData.GetNumberOfPoints, h]
  have hget := pointsLoop_getD
    (CreateModelFromContour.topHalf contourTriangulator inputContour normal thickness)
    (CreateModelFromContour.bottomHalf contourTriangulator inputContour normal thickness)
    (contourTriangulator inputContour).GetNumberOfPoints k ⟨0, 0, 0⟩ (by omega)
  have hlen := pointsLoop_length
    (CreateModelFromContour.topHalf contourTriangulator inputContour normal thickness)
    (CreateModelFromContour.bottomHalf contourTriangulator inputContour normal thickness)
    (contourTriangulator inputContour).GetNumberOfPoints
  refine ⟨_, _, _, rfl, rfl, belt_points_eq _ _ _ _, ?_, ?_, ?_, ?_, ?_, ?_⟩
  · rw [← hget.1, List.getElem?_eq_getElem (by omega), List.getD_eq_getElem _ _ (by omega)]
  · rw [← hget.2, List.getElem?_eq_getElem (by omega), List.getD_eq_getElem _ _ (by omega)]
  · rw [topHalf_getPoint _ _ _ _ ps k p h hp]
    simp only [vtkTransform.TransformPoint, CreateModelFromContour.topOffset]
    congr 1 <;> ring
  · rw [bottomHalf_getPoint _ _ _ _ ps k p h hp]
    simp only [vtkTransform.TransformPoint, CreateModelFromContour.bottomOffset]
    congr 1 <;> ring
  · rw [topHalf_getPoint _ _ _ _ ps k p h hp, bottomHalf_getPoint _ _ _ _ ps k p h hp]
    simp only [vtkTransform.TransformPoint, CreateModelFromContour.topOffset,
      CreateModelFromContour.bottomOffset]
    refine ⟨?_, ?_, ?_⟩ <;> ring
  · rw [topHalf_getPoint _ _ _ _ ps k p h hp, bottomHalf_getPoint _ _ _ _ ps k p h hp]
    simp only [vtkTransform.TransformPoint, CreateModelFromContour.topOffset,
      CreateModelFromContour.bottomOffset]
    refine ⟨?_, ?_, ?_⟩ <;> ring

/-- C17, applied to the second point of the triangle `threePoints`, cut as a fan,
with normal `zNormal` and thickness 2. -/
theorem halves_are_offset_by_half_thickness_witness :
    ((fanTriangulator (contourOf threePoints)).Points = some threePoints ∧
      threePoints[1]? = some ⟨1, 0, 0⟩) ∧
    ∃ top bottom points,
      top = (CreateModelFromContour.topHalf fanTriangulator (contourOf threePoints) zNormal
        2).GetPoint 1 ∧
      bottom = (CreateModelFromContour.bottomHalf fanTriangulator (contourOf threePoints) zNormal
        2).GetPoint 1 ∧
      (CreateModelFromContour.belt fanTriangulator (contourOf threePoints) zNormal 2).Points
        = some points ∧
      points[2 * 1]? = some top ∧ points[2 * 1 + 1]? = some bottom ∧
      top = ⟨(⟨1, 0, 0⟩ : vtkVector3d).X + 0.5 * 2 * zNormal.X,
        (⟨1, 0, 0⟩ : vtkVector3d).Y + 0.5 * 2 * zNormal.Y,
        (⟨1, 0, 0⟩ : vtkVector3d).Z + 0.5 * 2 * zNormal.Z⟩ ∧
      bottom = ⟨(⟨1, 0, 0⟩ : vtkVector3d).X - 0.5 * 2 * zNormal.X,
        (⟨1, 0, 0⟩ : vtkVector3d).Y - 0.5 * 2 * zNormal.Y,
        (⟨1, 0, 0⟩ : vtkVector3d).Z - 0.5 * 2 * zNormal.Z⟩ ∧
      (top.X - bottom.X = 2 * zNormal.X ∧ top.Y - bottom.Y = 2 * zNormal.Y ∧
        top.Z - bottom.Z = 2 * zNormal.Z) ∧
      ((top.X + bottom.X) / 2 = (⟨1, 0, 0⟩ : vtkVector3d).X ∧
        (top.Y + bottom.Y) / 2 = (⟨1, 0, 0⟩ : vtkVector3d).Y ∧
        (top.Z + bottom.Z) / 2 = (⟨1, 0, 0⟩ : vtkVector3d).Z) :=
  ⟨⟨rfl, rfl⟩,
    halves_are_offset_by_half_thickness fanTriangulator (contourOf threePoints) zNormal 2
      threePoints 1 ⟨1, 0, 0⟩ rfl rfl⟩

/-! ### C15: loading with a null file name -/

/-- C15: `LoadMarkupsSplines` called with a null file name returns normally with
the null node identifier and leaves the logic object as it was: the scene has
the same nodes (no storage node and no markups node is added) and no call is
recorded (no `StartState`, so no batch bracket is opened). With a file name and
a scene, in contrast, the bracket is opened and closed and two nodes are
added. -/
theorem LoadMarkupsSplines_null_fileName (newID : vtkMRMLScene → String)
    (ReadData : String → Bool) (self : vtkSlicerSplinesLogic) (name : Option String) :
    self.LoadMarkupsSplines newID ReadData none name = .ok (none, self) ∧
    (∀ file scene, self.MRMLScene = some scene →
      ∃ nodeID logic, self.LoadMarkupsSplines newID ReadData (some file) name
          = .ok (nodeID, logic) ∧
        Call.StartState "BatchProcessState" ∈ logic.Trace ∧
        Call.EndState "BatchProcessState" ∈ logic.Trace ∧
        logic.MRMLScene.map (fun s => s.Nodes.length) = some (scene.Nodes.length + 2)) := by
  refine ⟨rfl, ?_⟩
  intro file scene hs
  obtain ⟨sc, obs, tr⟩ := self
  simp only at hs
  subst hs
  exact ⟨_, _, rfl, by simp, by simp, by simp [vtkMRMLScene.AddNode]⟩

/-! ### C16: the threshold of model creation -/

theorem GetCentroid_loop_sum (node : vtkMRMLMarkupsSplinesNode) (n : Nat) (m : Markup)
    (hm : node.Markups[n]? = some m) (k : Nat) (hk : k ≤ m.Points.length) (c : vtkVector3d) :
    GetCentroid.loop node n k c
      = ⟨((m.Points.take k).map vtkVector3d.X).sum + c.X,
         ((m.Points.take k).map vtkVector3d.Y).sum + c.Y,
         ((m.Points.take k).map vtkVector3d.Z).sum + c.Z⟩ := by
  induction k with
  | zero => simp [GetCentroid.loop]
  | succ k ih =>
    have hlt : k < m.Points.length := hk
    rw [GetCentroid.loop, ih (Nat.le_of_lt hlt), List.take_succ,
      List.getElem?_eq_getElem hlt]
    simp only [vtkMRMLMarkupsSplinesNode.GetMarkupPointWorld, hm, vtkMath.Add,
      List.getD_eq_getElem _ _ hlt, Option.toList_some, List.map_append, List.sum_append,
      List.map_cons, List.map_nil, List.sum_cons, List.sum_nil]
    congr 1 <;> ring

/-- C19: `GetCentroid` returns false and leaves the centroid as it was when the
node is null, when markup `n` does not exist, or when markup `n` has no points;
in every other case (the markup exists and has at least one point) it returns
true and the centroid is the arithmetic mean of the points of markup `n`: the
sums of their x, y and z coordinates divided by the point count (coordinates are
rational numbers). -/
theorem GetCentroid_mean (n : Int) (centroid : vtkVector3d) :
    vtkSlicerSplinesLogic.GetCentroid none n centroid = (false, centroid) ∧
    (∀ node : vtkMRMLMarkupsSplinesNode, node.MarkupExists n = false →
      vtkSlicerSplinesLogic.GetCentroid (some node) n centroid = (false, centroid)) ∧
    (∀ node : vtkMRMLMarkupsSplinesNode, node.GetNumberOfPointsInNthMarkup n.toNat = 0 →
      vtkSlicerSplinesLogic.GetCentroid (some node) n centroid = (false, centroid)) ∧
    (∀ node : vtkMRMLMarkupsSplinesNode, node.MarkupExists n = true →
      0 < node.GetNumberOfPointsInNthMarkup n.toNat →
      ∃ m, node.Markups[n.toNat]? = some m ∧
        vtkSlicerSplinesLogic.GetCentroid (some node) n centroid
          = (true, ⟨(m.Points.map vtkVector3d.X).sum / (m.Points.length : ℚ),
                    (m.Points.map vtkVector3d.Y).sum / (m.Points.length : ℚ),
                    (m.Points.map vtkVector3d.Z).sum / (m.Points.length : ℚ)⟩)) := by
  refine ⟨rfl, ?_, ?_, ?_⟩
  · intro node hex
    simp [vtkSlicerSplinesLogic.GetCentroid, hex]
  · intro node h0
    simp [vtkSlicerSplinesLogic.GetCentroid, h0]
  · intro node hex hpos
    cases hm : node.Markups[n.toNat]? with
    | none =>
      simp [vtkMRMLMarkupsSplinesNode.GetNumberOfPointsInNthMarkup, hm] at hpos
    | some m =>
      have hlen : node.GetNumberOfPointsInNthMarkup n.toNat = m.Points.length := by
        simp [vtkMRMLMarkupsSplinesNode.GetNumberOfPointsInNthMarkup, hm]
      refine ⟨m, rfl, ?_⟩
      have hnot : ¬ ((m.Points.length : Int) ≤ 0) := by
        rw [hlen] at hpos
        omega
      simp only [vtkSlicerSplinesLogic.GetCentroid, hex, Bool.not_true, Bool.false_eq_true,
        if_false, hlen, if_neg hnot]
      rw [GetCentroid_loop_sum node n.toNat m hm _ (Nat.le_refl _), List.take_length]
      simp only [vtkMath.MultiplyScalar]
      congr 2 <;> ring

theorem GetCentroid_threePoints :
    vtkSlicerSplinesLogic.GetCentroid (some oneMarkupCollection) 0 ⟨9, 9, 9⟩
      = (true, ⟨1 / 3, 1 / 3, 0⟩) := by
  decide!

/-! ### Evaluations on concrete inputs -/

/-- C13, applied to a cap of one point: no belt triangle. -/
theorem belt_cells_are_quad_strip_witness :
    (fanTriangulator (contourOf onePoint)).GetNumberOfPoints ≤ 1 ∧
    (CreateModelFromContour.belt fanTriangulator (contourOf onePoint) zNormal 2).Polys = [] :=
  ⟨by decide,
    (belt_cells_are_quad_strip fanTriangulator (contourOf onePoint) zNormal 2).2.2 (by decide)⟩

/-- C14, applied to the triangle `threePoints` cut as a fan, at `k = 1`. -/
theorem belt_points_interleaved_witness :
    1 < (fanTriangulator (contourOf threePoints)).GetNumberOfPoints ∧
    ∃ points : List vtkVector3d,
      (CreateModelFromContour.belt fanTriangulator (contourOf threePoints) zNormal 2).Points
        = some points ∧
      points.length = 2 * (fanTriangulator (contourOf threePoints)).GetNumberOfPoints ∧
      points[2 * 1]? = some ((CreateModelFromContour.topHalf fanTriangulator
          (contourOf threePoints) zNormal 2).GetPoint 1) ∧
      points[2 * 1 + 1]? = some ((CreateModelFromContour.bottomHalf fanTriangulator
          (contourOf threePoints) zNormal 2).GetPoint 1) :=
  ⟨by decide,
    match belt_points_interleaved fanTriangulator (contourOf threePoints) zNormal 2 with
    | ⟨points, hp, hl, hk⟩ => ⟨points, hp, hl, hk 1 (by decide)⟩⟩

/-- C15, applied to `logicOneModel`, whose scene is `sceneOneModel`, and a file
that is read. -/
theorem LoadMarkupsSplines_null_fileName_witness :
    logicOneModel.MRMLScene = some sceneOneModel ∧
    logicOneModel.LoadMarkupsSplines (sampleID []) (fun _ => true) none (some "S")
      = .ok (none, logicOneModel) ∧
    ∃ nodeID logic, logicOneModel.LoadMarkupsSplines (sampleID []) (fun _ => true)
        (some "splines.json") (some "S") = .ok (nodeID, logic) ∧
      Call.StartState "BatchProcessState" ∈ logic.Trace ∧
      Call.EndState "BatchProcessState" ∈ logic.Trace ∧
      logic.MRMLScene.map (fun s => s.Nodes.length) = some (sceneOneModel.Nodes.length + 2) :=
  ⟨rfl,
    (LoadMarkupsSplines_null_fileName (sampleID []) (fun _ => true) logicOneModel (some "S")).1,
    (LoadMarkupsSplines_null_fileName (sampleID []) (fun _ => true) logicOneModel (some "S")).2
      "splines.json" sceneOneModel rfl⟩

/-- C18, applied to the triangle `threePoints` cut as a fan: the index 3 of the
belt triangle `(1, 3, 2)` is below the 6 points of the belt. -/
theorem belt_indices_in_range_witness :
    [1, 3, 2] ∈ (CreateModelFromContour.belt fanTriangulator (contourOf threePoints) zNormal
      2).Polys ∧
    3 < (CreateModelFromContour.belt fanTriangulator (contourOf threePoints) zNormal
      2).GetNumberOfPoints ∧
    3 < 2 * (fanTriangulator (contourOf threePoints)).GetNumberOfPoints :=
  ⟨by decide,
    (belt_indices_in_range fanTriangulator (contourOf threePoints) zNormal 2).1 [1, 3, 2]
      (by decide) 3 (by decide)⟩

/-- C19, applied to the only markup of `oneMarkupCollection`, the triangle
`threePoints`. -/
theorem GetCentroid_mean_witness :
    (oneMarkupCollection.MarkupExists 0 = true ∧
      0 < oneMarkupCollection.GetNumberOfPointsInNthMarkup (0 : Int).toNat) ∧
    ∃ m, oneMarkupCollection.Markups[(0 : Int).toNat]? = some m ∧
      vtkSlicerSplinesLogic.GetCentroid (some oneMarkupCollection) 0 ⟨9, 9, 9⟩
        = (true, ⟨(m.Points.map vtkVector3d.X).sum / (m.Points.length : ℚ),
                  (m.Points.map vtkVector3d.Y).sum / (m.Points.length : ℚ),
                  (m.Points.map vtkVector3d.Z).sum / (m.Points.length : ℚ)⟩) :=
  ⟨⟨by decide, by decide⟩,
    (GetCentroid_mean 0 ⟨9, 9, 9⟩).2.2.2 oneMarkupCollection (by decide) (by decide)⟩

/-! ### C3: an identifier that is assigned again -/

/-- C3, the claim as stated fails: in `danglingWorld` no node has the empty
identifier and the scene assigns identifiers that are non-empty and new to the
scene, markup 0 has 2 points and an empty association, but markup 1 holds an
association that resolves to nothing and equals the identifier assigned next.
Once markup 0 has 3 points, the pass creates the Model `S_Model_0` under that
identifier and the iteration for markup 1 removes it in the same pass; once
markup 0 has 1 point, the iteration for markup 0 issues no call and association
0 stays non-empty. -/
theorem UpdateSlabModelNode_transition_fails_on_reused_identifier :
    (danglingWorld.Scene.NoEmptyID ∧ FreshIDs (sampleID []) [] ∧
      danglingWorld.SplinesNode.GetNumberOfPointsInNthMarkup 0 = 2 ∧
      danglingWorld.SplinesNode.GetNthMarkupAssociatedNodeID 0 = "") ∧
    UpdateSlabModelNode.callsAt (sampleID []) 0 danglingWorld = [] ∧
    (danglingThree.SplinesNode.GetNumberOfPointsInNthMarkup 0 = 3 ∧
      UpdateSlabModelNode.callsAt (sampleID []) 0 danglingThree =
        [Call.AddNewNodeByClass "vtkMRMLModelNode" "S_Model_0" reusedID,
         Call.SetNthMarkupAssociatedNodeID 0 reusedID] ∧
      UpdateSlabModelNode.callsAt (sampleID []) 1 danglingThree =
        [Call.RemoveNode reusedID, Call.SetNthMarkupAssociatedNodeID 1 ""] ∧
      (UpdateSlabModelNode.pass (sampleID []) danglingThree).Scene.GetNodeByID reusedID
        = none) ∧
    (danglingOne.SplinesNode.GetNumberOfPointsInNthMarkup 0 = 1 ∧
      UpdateSlabModelNode.callsAt (sampleID []) 0 danglingOne = [] ∧
      (UpdateSlabModelNode.pass (sampleID []) danglingOne).SplinesNode.GetNthMarkupAssociatedNodeID
        0 = reusedID ∧
      reusedID ≠ "") :=
  ⟨⟨by decide, sampleID_fresh [], by decide, by decide⟩, by decide,
    ⟨by decide, by decide, by decide, by decide⟩,
    ⟨by decide, by decide, by decide, by decide⟩⟩

/-! ### C7: what the pass does on CREATE -/

theorem decision_create_iff (i : Nat) (w : World) :
    UpdateSlabModelNode.decision i w = Decision.CREATE ↔
      w.SplinesNode.GetNumberOfPointsInNthMarkup i > 2 ∧
      ¬ w.Scene.IsLiveModel (w.SplinesNode.GetNthMarkupAssociatedNodeID i) := by
  rw [decision_eq]
  by_cases hp : w.SplinesNode.GetNumberOfPointsInNthMarkup i > 2 <;>
    by_cases hl : w.Scene.IsLiveModel (w.SplinesNode.GetNthMarkupAssociatedNodeID i) <;>
    simp [hp, hl]

theorem npts_eq_length (c : vtkMRMLMarkupsSplinesNode) (i : Nat) (m : Markup)
    (hm : c.Markups[i]? = some m) : c.GetNumberOfPointsInNthMarkup i = m.Points.length := by
  simp [vtkMRMLMarkupsSplinesNode.GetNumberOfPointsInNthMarkup, hm]

theorem builder_isSome_iff (contourTriangulator cleanFilter : vtkPolyData → vtkPolyData)
    (normal : vtkVector3d) (thickness : ℚ) (points : List vtkVector3d) :
    (vtkSlicerSplinesLogic.CreateModelFromContour contourTriangulator cleanFilter
      (some (contourOf points)) normal thickness).isSome = true ↔ points.length > 2 := by
  by_cases hlt : points.length < 3
  · simp only [vtkSlicerSplinesLogic.CreateModelFromContour, contourOf, if_pos hlt]
    constructor
    · intro h
      cases h
    · intro h
      omega
  · simp only [vtkSlicerSplinesLogic.CreateModelFromContour, contourOf, if_neg hlt]
    constructor
    · intro _
      omega
    · intro _
      rfl

/-- C7 (amended): when the iteration for markup `i` of a pass of
`UpdateSlabModelNode` decides CREATE, it appends to the scene one new node, a
`vtkMRMLModelNode` named collection name, `_Model_`, index, that carries no
mesh, and writes the identifier of that node into association `i`, which holds
it after the pass; these are the only two calls of the iteration. The mesh of
the new Model is not the result of `CreateModelFromContour` for the points of
markup `i` (the builder returns a mesh for them), and every node that the pass
adds to the scene is a `vtkMRMLModelNode` without mesh. -/
theorem UpdateSlabModelNode_creates_empty_models (newID : vtkMRMLScene → String)
    (self : vtkSlicerSplinesLogic) (scene : vtkMRMLScene) (c : vtkMRMLMarkupsSplinesNode)
    (i : Nat) (m : Markup) (contourTriangulator cleanFilter : vtkPolyData → vtkPolyData)
    (normal : vtkVector3d) (thickness : ℚ)
    (hs : self.MRMLScene = some scene) (hm : c.Markups[i]? = some m)
    (hc : UpdateSlabModelNode.decision i (UpdateSlabModelNode.loop newID i
        { Scene := scene, SplinesNode := c, Trace := self.Trace }) = Decision.CREATE) :
    ∃ self1 scene1 c1 node,
      self.UpdateSlabModelNode newID (some c) = .ok (self1, some c1) ∧
      self1.MRMLScene = some scene1 ∧
      node = { ID := newID (UpdateSlabModelNode.loop newID i
                  { Scene := scene, SplinesNode := c, Trace := self.Trace }).Scene
               ClassName := "vtkMRMLModelNode"
               Name := c.Name ++ "_Model_" ++ toString i
               PolyData := none } ∧
      (UpdateSlabModelNode.loop newID (i + 1)
          { Scene := scene, SplinesNode := c, Trace := self.Trace }).Scene.Nodes
        = (UpdateSlabModelNode.loop newID i
          { Scene := scene, SplinesNode := c, Trace := self.Trace }).Scene.Nodes ++ [node] ∧
      UpdateSlabModelNode.callsAt newID i
          { Scene := scene, SplinesNode := c, Trace := self.Trace }
        = [Call.AddNewNodeByClass "vtkMRMLModelNode" node.Name node.ID,
           Call.SetNthMarkupAssociatedNodeID i node.ID] ∧
      c1.GetNthMarkupAssociatedNodeID i = node.ID ∧
      node.PolyData = none ∧
      (vtkSlicerSplinesLogic.CreateModelFromContour contourTriangulator cleanFilter
        (some (contourOf m.Points)) normal thickness).isSome = true ∧
      node.PolyData ≠ vtkSlicerSplinesLogic.CreateModelFromContour contourTriangulator
        cleanFilter (some (contourOf m.Points)) normal thickness ∧
      ∀ n ∈ scene1.Nodes,
        n ∈ scene.Nodes ∨ (n.ClassName = "vtkMRMLModelNode" ∧ n.PolyData = none) := by
  obtain ⟨hp, hl⟩ := (decision_create_iff i _).1 hc
  have hi := npts_lt _ _ hp
  have hlen : m.Points.length > 2 := by
    rw [loop_npts, npts_eq_length c i m hm] at hp
    exact hp
  have hsome := (builder_isSome_iff contourTriangulator cleanFilter normal thickness
    m.Points).2 hlen
  refine ⟨_, _, _, _, UpdateSlabModelNode_ok newID self scene c hs, rfl, rfl, ?_, ?_, ?_, rfl,
    hsome, ?_, loop_nodes newID _ _⟩
  · rw [UpdateSlabModelNode.loop, body_create newID i _ hp hl]
    simp only [vtkMRMLScene.AddNewNodeByClass, loop_name]
  · rw [callsAt_create newID i _ hp hl, loop_name]
  · have hcount : i < c.GetNumberOfMarkups := by
      rw [loop_count] at hi
      exact hi
    have hafter := loop_assoc_after newID i c.GetNumberOfMarkups
      { Scene := scene, SplinesNode := c, Trace := self.Trace } hcount
    rw [hafter, UpdateSlabModelNode.loop, body_create newID i _ hp hl]
    exact assoc_set_self _ _ _ hi
  · intro h
    rw [← h] at hsome
    cases hsome

/-- C7 (amended), applied to `oneMarkupCollection` over `sceneOneModel`, whose
only markup has three points and no Model. -/
theorem UpdateSlabModelNode_creates_empty_models_witness :
    (logicOneModel.MRMLScene = some sceneOneModel ∧
      oneMarkupCollection.Markups[0]? = some { Points := threePoints, AssociatedNodeID := "" } ∧
      UpdateSlabModelNode.decision 0 (UpdateSlabModelNode.loop (sampleID []) 0
        { Scene := sceneOneModel, SplinesNode := oneMarkupCollection,
          Trace := logicOneModel.Trace }) = Decision.CREATE) ∧
    ∃ self1 scene1 c1 node,
      logicOneModel.UpdateSlabModelNode (sampleID []) (some oneMarkupCollection)
        = .ok (self1, some c1) ∧
      self1.MRMLScene = some scene1 ∧
      node = { ID := sampleID [] (UpdateSlabModelNode.loop (sampleID []) 0
                  { Scene := sceneOneModel, SplinesNode := oneMarkupCollection,
                    Trace := logicOneModel.Trace }).Scene
               ClassName := "vtkMRMLModelNode"
               Name := oneMarkupCollection.Name ++ "_Model_" ++ toString 0
               PolyData := none } ∧
      (UpdateSlabModelNode.loop (sampleID []) (0 + 1)
          { Scene := sceneOneModel, SplinesNode := oneMarkupCollection,
            Trace := logicOneModel.Trace }).Scene.Nodes
        = (UpdateSlabModelNode.loop (sampleID []) 0
          { Scene := sceneOneModel, SplinesNode := oneMarkupCollection,
            Trace := logicOneModel.Trace }).Scene.Nodes ++ [node] ∧
      UpdateSlabModelNode.callsAt (sampleID []) 0
          { Scene := sceneOneModel, SplinesNode := oneMarkupCollection,
            Trace := logicOneModel.Trace }
        = [Call.AddNewNodeByClass "vtkMRMLModelNode" node.Name node.ID,
           Call.SetNthMarkupAssociatedNodeID 0 node.ID] ∧
      c1.GetNthMarkupAssociatedNodeID 0 = node.ID ∧
      node.PolyData = none ∧
      (vtkSlicerSplinesLogic.CreateModelFromContour fanTriangulator mergeCoincidentPoints
        (some (contourOf (Markup.mk threePoints "").Points)) zNormal 1).isSome = true ∧
      node.PolyData ≠ vtkSlicerSplinesLogic.CreateModelFromContour fanTriangulator
        mergeCoincidentPoints (some (contourOf (Markup.mk threePoints "").Points)) zNormal 1 ∧
      ∀ n ∈ scene1.Nodes,
        n ∈ sceneOneModel.Nodes ∨ (n.ClassName = "vtkMRMLModelNode" ∧ n.PolyData = none) :=
  ⟨⟨rfl, rfl, by decide⟩,
    UpdateSlabModelNode_creates_empty_models (sampleID []) logicOneModel sceneOneModel
      oneMarkupCollection 0 { Points := threePoints, AssociatedNodeID := "" } fanTriangulator
      mergeCoincidentPoints zNormal 1 rfl rfl (by decide)⟩

/-! ### C16: one threshold for the pass and the builder -/

end Splines
